import Mathlib

/-!
TizenRT: Realtek Wi-Fi command/event dispatch (rtw_cmd.h)

A shallow embedding of `os/drivers/wireless/realtek/rtk/include/rtw_cmd.h`:
the H2C command codes, the static callback registry, the command-object
constructor, and the queueing engine the header declares.

Definitions come first, theorems afterwards.
-/

set_option maxRecDepth 100000
set_option linter.unusedVariables false

namespace rtw_cmd

/-! ## Constants of the header -/

/-- Number of command objects of the pool (`#define FREE_CMDOBJ_SZ 128`). -/
def FREE_CMDOBJ_SZ : Nat := 128

/-- Largest command parameter size (`#define MAX_CMDSZ 1024`). -/
def MAX_CMDSZ : Nat := 1024

/-- Largest response size (`#define MAX_RSPSZ 512`). -/
def MAX_RSPSZ : Nat := 512

/-- Largest event size (`#define MAX_EVTSZ 1024`). -/
def MAX_EVTSZ : Nat := 1024

/-! ## `enum rtw_h2c_cmd`

The enumerators are listed in the order of the header, each written as
`GEN_CMD_CODE(x)` there, which pastes `_CMD_` behind `x`. No enumerator has
an initialiser, so C gives the first the value 0 and every other one the
value of its predecessor plus one: the value of an enumerator is its
position in the declaration. -/

/-- The enumerators of `enum rtw_h2c_cmd`, in declaration order, the closing
`MAX_H2CCMD` included. -/
inductive rtw_h2c_cmd where
  | _Read_MACREG_CMD_
  | _Write_MACREG_CMD_
  | _Read_BBREG_CMD_
  | _Write_BBREG_CMD_
  | _Read_RFREG_CMD_
  | _Write_RFREG_CMD_
  | _Read_EEPROM_CMD_
  | _Write_EEPROM_CMD_
  | _Read_EFUSE_CMD_
  | _Write_EFUSE_CMD_
  | _Read_CAM_CMD_
  | _Write_CAM_CMD_
  | _setBCNITV_CMD_
  | _setMBIDCFG_CMD_
  | _JoinBss_CMD_
  | _DisConnect_CMD_
  | _CreateBss_CMD_
  | _SetOpMode_CMD_
  | _SiteSurvey_CMD_
  | _SetAuth_CMD_
  | _SetKey_CMD_
  | _SetStaKey_CMD_
  | _SetAssocSta_CMD_
  | _DelAssocSta_CMD_
  | _SetStaPwrState_CMD_
  | _SetBasicRate_CMD_
  | _GetBasicRate_CMD_
  | _SetDataRate_CMD_
  | _GetDataRate_CMD_
  | _SetPhyInfo_CMD_
  | _GetPhyInfo_CMD_
  | _SetPhy_CMD_
  | _GetPhy_CMD_
  | _readRssi_CMD_
  | _readGain_CMD_
  | _SetAtim_CMD_
  | _SetPwrMode_CMD_
  | _JoinbssRpt_CMD_
  | _SetRaTable_CMD_
  | _GetRaTable_CMD_
  | _GetCCXReport_CMD_
  | _GetDTMReport_CMD_
  | _GetTXRateStatistics_CMD_
  | _SetUsbSuspend_CMD_
  | _SetH2cLbk_CMD_
  | _AddBAReq_CMD_
  | _SetChannel_CMD_
  | _SetTxPower_CMD_
  | _SwitchAntenna_CMD_
  | _SetCrystalCap_CMD_
  | _SetSingleCarrierTx_CMD_
  | _SetSingleToneTx_CMD_
  | _SetCarrierSuppressionTx_CMD_
  | _SetContinuousTx_CMD_
  | _SwitchBandwidth_CMD_
  | _TX_Beacon_CMD_
  | _Set_MLME_EVT_CMD_
  | _Set_Drv_Extra_CMD_
  | _Set_H2C_MSG_CMD_
  | _SetChannelPlan_CMD_
  | _LedBlink_CMD_
  | _SetChannelSwitch_CMD_
  | _TDLS_CMD_
  | _P2P_CMD_
  | MAX_H2CCMD
  deriving DecidableEq, Repr, Fintype

/-- The integer value C gives an enumerator of `enum rtw_h2c_cmd`: its
position in the declaration, counted from zero. -/
def rtw_h2c_cmd.val (c : rtw_h2c_cmd) : Nat := c.toCtorIdx

/-- The value of the closing enumerator `MAX_H2CCMD`: the number of command
codes the enum defines. -/
def MAX_H2CCMD : Nat := rtw_h2c_cmd.MAX_H2CCMD.val

/-! ## The completion callbacks and the registry `rtw_cmd_callback` -/

/-- The completion callbacks the header declares
(`extern void rtw_..._callback(_adapter *padapter, struct cmd_obj *pcmd)`),
as names: a table entry holds the address of one of them, or NULL. -/
inductive cmd_callback_fn where
  | rtw_survey_cmd_callback
  | rtw_disassoc_cmd_callback
  | rtw_joinbss_cmd_callback
  | rtw_createbss_cmd_callback
  | rtw_getbbrfreg_cmdrsp_callback
  | rtw_readtssi_cmdrsp_callback
  | rtw_setstaKey_cmdrsp_callback
  | rtw_setassocsta_cmdrsp_callback
  | rtw_getrttbl_cmdrsp_callback
  | rtw_set_channel_plan_cmd_callback
  deriving DecidableEq, Repr

/-- An entry of the registry, `struct _cmd_callback`: the code (`u32
cmd_code`) and the callback pointer, `none` standing for NULL. -/
structure _cmd_callback where
  cmd_code : Nat
  callback : Option cmd_callback_fn
  deriving DecidableEq, Repr

open rtw_h2c_cmd cmd_callback_fn in
/-- The initialiser of `rtw_cmd_callback[]`, entry by entry in the order of
the header. The last entry, for `_P2P`, stands inside
`#ifdef CONFIG_P2P_NEW` ... `#endif`: it is present only in a build that
defines `CONFIG_P2P_NEW`. The array has no declared length, so it has as
many elements as initialisers. -/
def rtw_cmd_callback (CONFIG_P2P_NEW : Bool) : List _cmd_callback :=
  [ ⟨_Read_MACREG_CMD_.val, none⟩,
    ⟨_Write_MACREG_CMD_.val, none⟩,
    ⟨_Read_BBREG_CMD_.val, none⟩,
    ⟨_Write_BBREG_CMD_.val, none⟩,
    ⟨_Read_RFREG_CMD_.val, none⟩,
    ⟨_Write_RFREG_CMD_.val, none⟩,
    ⟨_Read_EEPROM_CMD_.val, none⟩,
    ⟨_Write_EEPROM_CMD_.val, none⟩,
    ⟨_Read_EFUSE_CMD_.val, none⟩,
    ⟨_Write_EFUSE_CMD_.val, none⟩,
    ⟨_Read_CAM_CMD_.val, none⟩,
    ⟨_Write_CAM_CMD_.val, none⟩,
    ⟨_setBCNITV_CMD_.val, none⟩,
    ⟨_setMBIDCFG_CMD_.val, none⟩,
    ⟨_JoinBss_CMD_.val, some rtw_joinbss_cmd_callback⟩,
    ⟨_DisConnect_CMD_.val, some rtw_disassoc_cmd_callback⟩,
    ⟨_CreateBss_CMD_.val, none⟩,
    ⟨_SetOpMode_CMD_.val, none⟩,
    ⟨_SiteSurvey_CMD_.val, some rtw_survey_cmd_callback⟩,
    ⟨_SetAuth_CMD_.val, none⟩,
    ⟨_SetKey_CMD_.val, none⟩,
    ⟨_SetStaKey_CMD_.val, some rtw_setstaKey_cmdrsp_callback⟩,
    ⟨_SetAssocSta_CMD_.val, none⟩,
    ⟨_DelAssocSta_CMD_.val, none⟩,
    ⟨_SetStaPwrState_CMD_.val, none⟩,
    ⟨_SetBasicRate_CMD_.val, none⟩,
    ⟨_GetBasicRate_CMD_.val, none⟩,
    ⟨_SetDataRate_CMD_.val, none⟩,
    ⟨_GetDataRate_CMD_.val, none⟩,
    ⟨_SetPhyInfo_CMD_.val, none⟩,
    ⟨_GetPhyInfo_CMD_.val, none⟩,
    ⟨_SetPhy_CMD_.val, none⟩,
    ⟨_GetPhy_CMD_.val, none⟩,
    ⟨_readRssi_CMD_.val, none⟩,
    ⟨_readGain_CMD_.val, none⟩,
    ⟨_SetAtim_CMD_.val, none⟩,
    ⟨_SetPwrMode_CMD_.val, none⟩,
    ⟨_JoinbssRpt_CMD_.val, none⟩,
    ⟨_SetRaTable_CMD_.val, none⟩,
    ⟨_GetRaTable_CMD_.val, none⟩,
    ⟨_GetCCXReport_CMD_.val, none⟩,
    ⟨_GetDTMReport_CMD_.val, none⟩,
    ⟨_GetTXRateStatistics_CMD_.val, none⟩,
    ⟨_SetUsbSuspend_CMD_.val, none⟩,
    ⟨_SetH2cLbk_CMD_.val, none⟩,
    ⟨_AddBAReq_CMD_.val, none⟩,
    ⟨_SetChannel_CMD_.val, none⟩,
    ⟨_SetTxPower_CMD_.val, none⟩,
    ⟨_SwitchAntenna_CMD_.val, none⟩,
    ⟨_SetCrystalCap_CMD_.val, none⟩,
    ⟨_SetSingleCarrierTx_CMD_.val, none⟩,
    ⟨_SetSingleToneTx_CMD_.val, none⟩,
    ⟨_SetCarrierSuppressionTx_CMD_.val, none⟩,
    ⟨_SetContinuousTx_CMD_.val, none⟩,
    ⟨_SwitchBandwidth_CMD_.val, none⟩,
    ⟨_TX_Beacon_CMD_.val, none⟩,
    ⟨_Set_MLME_EVT_CMD_.val, none⟩,
    ⟨_Set_Drv_Extra_CMD_.val, none⟩,
    ⟨_Set_H2C_MSG_CMD_.val, none⟩,
    ⟨_SetChannelPlan_CMD_.val, some rtw_set_channel_plan_cmd_callback⟩,
    ⟨_LedBlink_CMD_.val, none⟩,
    ⟨_SetChannelSwitch_CMD_.val, none⟩,
    ⟨_TDLS_CMD_.val, none⟩ ]
  ++ (if CONFIG_P2P_NEW then [⟨_P2P_CMD_.val, none⟩] else [])

/-- Modelled from the spec: the registry lookup `lookup(code) ->
Option<Callback>` of §4.5 (its code, in rtw_cmd.c, is not among the
sources). It indexes the table directly; a code outside the table is an
unrecognised command, ignored (no callback); a code inside yields the
optional callback stored at that index. -/
def lookup (CONFIG_P2P_NEW : Bool) (code : Nat) : Option cmd_callback_fn :=
  match (rtw_cmd_callback CONFIG_P2P_NEW)[code]? with
  | none => none
  | some entry => entry.callback

/-! ## Command objects and the constructor `init_h2fwcmd_w_parm_no_rsp`

Pointers are addresses (`Nat`), `NULL` is address 0. A `_list` node is
embedded in the object it links (an intrusive list), and a pointer to the node
`pcmd->list` is represented by the address `pcmd` of the object that embeds
it. -/

/-- The null pointer. -/
def NULL : Nat := 0

/-- A list node (`_list`): the two links of a doubly linked intrusive list. -/
structure _list where
  next : Nat
  prev : Nat
  deriving DecidableEq, Repr

/-- The command object, `struct cmd_obj`, field by field: `_adapter
*padapter`, `u16 cmdcode`, `u8 res`, `u8 *parmbuf`, `u32 cmdsz`, `u8 *rsp`,
`u32 rspsz`, `_list list`. -/
structure cmd_obj where
  padapter : Nat
  cmdcode : Nat
  res : Nat
  parmbuf : Nat
  cmdsz : Nat
  rsp : Nat
  rspsz : Nat
  list : _list
  deriving DecidableEq, Repr

/-- A typed pointer to a parameter structure, the `pparm` argument of the
constructor: its address and `sizeof(*pparm)`, the size of the structure it
points to. -/
structure parm_ptr where
  addr : Nat
  sizeof : Nat
  deriving DecidableEq, Repr

/-- Modelled from the spec: `rtw_init_listhead`, the list helper the
constructor calls (declared outside the sources); it makes the node an empty
list head, one that is linked to nothing but itself ("intrusive list link",
not enqueued). -/
def rtw_init_listhead (plist : Nat) : _list := ⟨plist, plist⟩

/-- A node at address `plist` is an empty list head, enqueued nowhere, when
both its links point back to itself. -/
def list_is_empty_head (plist : Nat) (l : _list) : Prop :=
  l.next = plist ∧ l.prev = plist

instance (plist : Nat) (l : _list) : Decidable (list_is_empty_head plist l) :=
  inferInstanceAs (Decidable (_ ∧ _))

/-- The constructor `init_h2fwcmd_w_parm_no_rsp(pcmd, pparm, code)`, statement
by statement. `pcmd` is the address of the object and `obj` its content
before the call; the result is its content afterwards. The stores convert to
the type of the field: `cmdcode` is a `u16`, `cmdsz` a `u32`. -/
def init_h2fwcmd_w_parm_no_rsp (pcmd : Nat) (obj : cmd_obj) (pparm : parm_ptr)
    (code : Nat) : cmd_obj :=
  let obj := { obj with list := rtw_init_listhead pcmd }
  let obj := { obj with cmdcode := code % 2 ^ 16 }
  let obj := { obj with parmbuf := pparm.addr }
  let obj := { obj with cmdsz := pparm.sizeof % 2 ^ 32 }
  let obj := { obj with rsp := NULL }
  { obj with rspsz := 0 }

/-! ## The command queue -/

/-- The per-adapter command state, `struct cmd_priv`, with the fields present
in every build: the queue of pending command objects (`_queue cmd_queue`, here
the addresses of the queued objects, head first), `cmdthd_running` and the
adapter back-reference. -/
structure cmd_priv where
  cmd_queue : List Nat
  cmdthd_running : Bool
  padapter : Nat
  deriving DecidableEq, Repr

/-- The status a successful driver call returns. -/
def _SUCCESS : Nat := 1

/-- The status a failed driver call returns. -/
def _FAIL : Nat := 0

/-- Modelled from the spec: `rtw_enqueue_cmd` (only declared in the header),
the `enqueue(obj)` of §4.2: it appends the object to the tail of the queue and
never fails. The result is the returned status and the state afterwards. -/
def rtw_enqueue_cmd (pcmdpriv : cmd_priv) (obj : Nat) : Nat × cmd_priv :=
  (_SUCCESS, { pcmdpriv with cmd_queue := pcmdpriv.cmd_queue ++ [obj] })

/-- Modelled from the spec: `rtw_dequeue_cmd` (only declared in the header),
the `dequeue() -> Option<CommandObject>` of §4.2: it removes the object at the
head of the queue and returns it, or returns none (NULL) when the queue is
empty. -/
def rtw_dequeue_cmd (pcmdpriv : cmd_priv) : Option Nat × cmd_priv :=
  match pcmdpriv.cmd_queue with
  | [] => (none, pcmdpriv)
  | obj :: rest => (some obj, { pcmdpriv with cmd_queue := rest })

/-- Enqueue the objects of a list one after the other; the statuses returned,
in order, and the state afterwards. -/
def enqueue_all (pcmdpriv : cmd_priv) : List Nat → List Nat × cmd_priv
  | [] => ([], pcmdpriv)
  | obj :: objs =>
    let r := rtw_enqueue_cmd pcmdpriv obj
    let rs := enqueue_all r.2 objs
    (r.1 :: rs.1, rs.2)

/-- The results of `n` successive calls of `rtw_dequeue_cmd`, in order, and
the state afterwards. -/
def dequeue_n (pcmdpriv : cmd_priv) : Nat → List (Option Nat) × cmd_priv
  | 0 => ([], pcmdpriv)
  | n + 1 =>
    let r := rtw_dequeue_cmd pcmdpriv
    let rs := dequeue_n r.2 n
    (r.1 :: rs.1, rs.2)

/-! ## The command subsystem: pool, queue, worker

The pool allocator, the worker loop `rtw_cmd_thread` and `rtw_free_cmd_obj`
are only declared in the header. They are modelled from the spec (§3, §4.1 to
§4.3): a fixed pool of `FREE_CMDOBJ_SZ` command objects, the queue of
`cmd_priv`, a "currently executing" slot, and a log of what was submitted,
processed and called back. The registry the worker consults is the table
`rtw_cmd_callback` of the header. -/

/-- The error taxonomy of §7 of the spec. -/
inductive cmd_error where
  | ResourceExhausted
  | TransportFailure
  | Timeout
  | MalformedEvent
  | UnrecognizedCode
  | TeardownInProgress
  deriving DecidableEq, Repr

/-- What identifies a submitted command in the logs: the object that carries
it and the code, parameter buffer and parameter size it was built with. -/
structure cmd_request where
  pcmd : Nat
  cmdcode : Nat
  parmbuf : Nat
  cmdsz : Nat
  deriving DecidableEq, Repr

/-- One invocation of a completion callback: the callback, the command it was
invoked for, and the result code the object carried. -/
structure callback_call where
  callback : cmd_callback_fn
  request : cmd_request
  res : Nat
  deriving DecidableEq, Repr

/-- Modelled from the spec: the state of the command subsystem of one adapter
(§3). A command object is identified by its address. `pool` holds the objects
of the pool that were never handed out, `freed` the objects given back by
`rtw_free_cmd_obj`, which the next allocation reuses; `cmdpriv.cmd_queue`
holds the pending objects; `executing` is the "currently executing" slot of
the worker, and `notified` tells whether the completion of the executing
command has been delivered. `mem` is the content of every object. The three
logs record the accepted submissions, the processed commands with their
result code, and the callback invocations, oldest first. -/
structure cmd_subsys where
  CONFIG_P2P_NEW : Bool
  cmdpriv : cmd_priv
  pool : List Nat
  freed : List Nat
  executing : Option Nat
  notified : Bool
  mem : Nat → cmd_obj
  submitted : List cmd_request
  processed : List (cmd_request × Nat)
  callbacks : List callback_call

/-- The request an object carries, read from its fields. -/
def request_of (mem : Nat → cmd_obj) (pcmd : Nat) : cmd_request :=
  ⟨pcmd, (mem pcmd).cmdcode, (mem pcmd).parmbuf, (mem pcmd).cmdsz⟩

/-- Modelled from the spec: the subsystem at adapter bring-up (§3, "created
once per adapter bring-up"): all `FREE_CMDOBJ_SZ` objects, at addresses 1 to
`FREE_CMDOBJ_SZ`, are in the pool, the queue is empty, nothing executes. -/
def rtw_init_cmd_priv (CONFIG_P2P_NEW : Bool) (padapter : Nat) : cmd_subsys :=
  { CONFIG_P2P_NEW := CONFIG_P2P_NEW
    cmdpriv := ⟨[], true, padapter⟩
    pool := List.range' 1 FREE_CMDOBJ_SZ
    freed := []
    executing := none
    notified := false
    mem := fun _ => ⟨padapter, 0, 0, NULL, 0, NULL, 0, ⟨NULL, NULL⟩⟩
    submitted := []
    processed := []
    callbacks := [] }

/-- Modelled from the spec: `allocate() -> Option<CommandObject>` of §4.1: an
object given back earlier is reused first, else one is taken from the pool;
none when the pool is exhausted. -/
def allocate (s : cmd_subsys) : Option (Nat × cmd_subsys) :=
  match s.freed with
  | pcmd :: rest => some (pcmd, { s with freed := rest })
  | [] =>
    match s.pool with
    | pcmd :: rest => some (pcmd, { s with pool := rest })
    | [] => none

/-- Modelled from the spec: `rtw_free_cmd_obj` (only declared in the header),
the `free(obj)` of §4.1: the object goes back to the allocator, which reuses it
at the next allocation. -/
def rtw_free_cmd_obj (s : cmd_subsys) (pcmd : Nat) : cmd_subsys :=
  { s with freed := pcmd :: s.freed }

/-- Modelled from the spec: `submit(code, params, param_size)` of §6, the
control flow of §2: allocate an object (`ResourceExhausted` when there is
none, the state untouched), build the command in it with the constructor
`init_h2fwcmd_w_parm_no_rsp`, enqueue it with `rtw_enqueue_cmd`. -/
def submit (s : cmd_subsys) (code : Nat) (pparm : parm_ptr) :
    Except cmd_error Nat × cmd_subsys :=
  match allocate s with
  | none => (Except.error cmd_error.ResourceExhausted, s)
  | some (pcmd, s1) =>
    let obj := init_h2fwcmd_w_parm_no_rsp pcmd (s1.mem pcmd) pparm code
    let mem := fun a => if a = pcmd then obj else s1.mem a
    (Except.ok pcmd,
      { s1 with
        mem := mem
        cmdpriv := (rtw_enqueue_cmd s1.cmdpriv pcmd).2
        submitted := s1.submitted ++ [request_of mem pcmd] })

/-- Modelled from the spec: the worker takes the next command (§4.3,
WAIT_FOR_COMMAND to TRANSMITTING): with nothing executing it dequeues the head
of the queue into the executing slot; on an empty queue it keeps waiting. -/
def worker_dequeue (s : cmd_subsys) : cmd_subsys :=
  match s.executing with
  | some _ => s
  | none =>
    match rtw_dequeue_cmd s.cmdpriv with
    | (none, _) => s
    | (some pcmd, priv) => { s with cmdpriv := priv, executing := some pcmd, notified := false }

/-- Modelled from the spec: the executing command completes with result code
`res` (§4.3: transmission, and the wait for a response where there is one,
ended in success, failure or timeout). The result is stored in the `u8 res`
of the object, the code is looked up in the registry, and the callback found
there, if any, is invoked with the object; a code without callback is ignored
(§4.5, §7). The object stays with the worker. -/
def worker_complete (s : cmd_subsys) (res : Nat) : cmd_subsys :=
  match s.executing with
  | none => s
  | some pcmd =>
    if s.notified then s
    else
      let obj := { s.mem pcmd with res := res % 2 ^ 8 }
      let mem := fun a => if a = pcmd then obj else s.mem a
      let req := request_of mem pcmd
      { s with
        mem := mem
        notified := true
        processed := s.processed ++ [(req, obj.res)]
        callbacks :=
          match lookup s.CONFIG_P2P_NEW obj.cmdcode with
          | none => s.callbacks
          | some cb => s.callbacks ++ [⟨cb, req, obj.res⟩] }

/-- Modelled from the spec: after the completion was delivered the worker
reclaims the object with `rtw_free_cmd_obj` and is idle again (§3: "reclaimed
(freed) by the enqueue/processing layer, never by the callback"). -/
def worker_reclaim (s : cmd_subsys) : cmd_subsys :=
  match s.executing with
  | none => s
  | some pcmd =>
    if s.notified then rtw_free_cmd_obj { s with executing := none, notified := false } pcmd
    else s

/-- What can happen to the subsystem: a caller submits a command, or the
worker makes one of its three moves; the result code of a completion is
supplied by the transport. -/
inductive cmd_event where
  | submit (code : Nat) (pparm : parm_ptr)
  | dequeue
  | complete (res : Nat)
  | reclaim
  deriving DecidableEq, Repr

/-- One step of the subsystem. -/
def step (s : cmd_subsys) : cmd_event → cmd_subsys
  | cmd_event.submit code pparm => (submit s code pparm).2
  | cmd_event.dequeue => worker_dequeue s
  | cmd_event.complete res => worker_complete s res
  | cmd_event.reclaim => worker_reclaim s

/-- The state after a history of events, starting from `s`. -/
def run (s : cmd_subsys) (evs : List cmd_event) : cmd_subsys :=
  evs.foldl step s

/-- One move of the worker loop, `transmit` being the transport with the
result it ends in for a given command object: take a command when idle,
complete the executing one, reclaim it once its completion was delivered. -/
def worker_step (transmit : cmd_obj → Nat) (s : cmd_subsys) : cmd_subsys :=
  match s.executing with
  | none => worker_dequeue s
  | some pcmd =>
    if s.notified then worker_reclaim s
    else worker_complete s (transmit (s.mem pcmd))

/-- Modelled from the spec: the worker loop `rtw_cmd_thread` (only declared
in the header) run for `n` moves. -/
def rtw_cmd_thread (transmit : cmd_obj → Nat) : Nat → cmd_subsys → cmd_subsys
  | 0, s => s
  | n + 1, s => rtw_cmd_thread transmit n (worker_step transmit s)

/-- The commands accepted and not yet processed, oldest first: the executing
one while its completion is outstanding, then the queued ones. -/
def pending (s : cmd_subsys) : List cmd_request :=
  ((if s.notified then [] else s.executing.toList) ++ s.cmdpriv.cmd_queue).map
    (request_of s.mem)

/-- The callback invocations the registry prescribes for a list of processed
commands: one for each command whose code has a callback, in order. -/
def expected_callbacks (CONFIG_P2P_NEW : Bool) (done : List (cmd_request × Nat)) :
    List callback_call :=
  done.filterMap fun d =>
    match lookup CONFIG_P2P_NEW d.1.cmdcode with
    | none => none
    | some cb => some ⟨cb, d.1, d.2⟩

/-- The number of places that hold the object at address `pcmd`: one for each
occurrence in the pool, in the queue, in the executing slot and among the
freed objects. -/
def owners (s : cmd_subsys) (pcmd : Nat) : Nat :=
  s.pool.count pcmd + s.cmdpriv.cmd_queue.count pcmd
    + s.executing.toList.count pcmd + s.freed.count pcmd

/-- The worker loop run from `s` for as many moves as emptying the queue of
`s` can take: two to finish an executing command, three for each queued one. -/
def drain (transmit : cmd_obj → Nat) (s : cmd_subsys) : cmd_subsys :=
  rtw_cmd_thread transmit (3 * s.cmdpriv.cmd_queue.length + 2) s

/-- The pool is fully allocated: no object is left in it and none was given
back. -/
def pool_exhausted (s : cmd_subsys) : Prop :=
  s.pool = [] ∧ s.freed = []

instance (s : cmd_subsys) : Decidable (pool_exhausted s) :=
  inferInstanceAs (Decidable (_ ∧ _))

/-- Exactly one of four propositions holds. -/
def exactly_one (a b c d : Prop) : Prop :=
  (a ∧ ¬ b ∧ ¬ c ∧ ¬ d) ∨ (¬ a ∧ b ∧ ¬ c ∧ ¬ d)
    ∨ (¬ a ∧ ¬ b ∧ c ∧ ¬ d) ∨ (¬ a ∧ ¬ b ∧ ¬ c ∧ d)

/-- The invariant of the command subsystem: every object of the pool is held
in one place, the processed commands followed by the pending ones are the
submitted ones, and the callback log is what the registry prescribes for the
processed commands. -/
def cmd_inv (s : cmd_subsys) : Prop :=
  (∀ a, owners s a = (List.range' 1 FREE_CMDOBJ_SZ).count a)
    ∧ s.processed.map Prod.fst ++ pending s = s.submitted
    ∧ s.callbacks = expected_callbacks s.CONFIG_P2P_NEW s.processed

/-- The moves the worker still has to make to empty the queue: three for
each queued command, two or one for the executing one. -/
def work (s : cmd_subsys) : Nat :=
  3 * s.cmdpriv.cmd_queue.length
    + (match s.executing with
       | none => 0
       | some _ => if s.notified then 1 else 2)

/-! ## The event path

The event demultiplexer is only declared in the header (`rtw_c2h_wk_cmd`,
`rtw_enqueue_evt`); it is modelled from §4.4 of the spec. A raw event is the
list of the bytes received. Every byte the demultiplexer reads from it is
recorded by index, so that "never read past the buffer" can be stated. -/

/-- The event object of the deferred path, `struct evt_obj`: `u16 evtcode`,
`u8 res`, the parameter buffer (here the bytes copied into it), `u32 evtsz`.
The list link is left out: the queue below holds the objects themselves. -/
structure evt_obj where
  evtcode : Nat
  res : Nat
  parmbuf : List Nat
  evtsz : Nat
  deriving DecidableEq, Repr

/-- Where the header of a raw event keeps its fields. The event code leads
the buffer (offset 0); the byte layout beyond that is chip-specific (§6), so
the offset of the declared payload length and the offset at which the payload
starts are parameters. -/
structure c2h_layout where
  len_off : Nat
  payload_off : Nat
  deriving DecidableEq, Repr

/-- One direct invocation of a handler: the handler, the event code and the
payload it was given. -/
structure handler_call where
  handler : cmd_callback_fn
  evtcode : Nat
  payload : List Nat
  deriving DecidableEq, Repr

/-- Modelled from the spec: the event state of one adapter (§3, Event Priv):
the event queue (`evt_queue`, head first), the sequence counter `event_seq`,
and three logs: the handlers invoked directly, the errors logged, and the
indices of the raw-buffer bytes read, oldest first. -/
structure evt_priv where
  evt_queue : List evt_obj
  event_seq : Nat
  invoked : List handler_call
  errors : List cmd_error
  reads : List Nat
  deriving DecidableEq, Repr

/-- Modelled from the spec: `rtw_enqueue_evt` (only declared in the header):
the event object is appended to the tail of the event queue, the discipline
of the command queue (§4.4, §4.2). -/
def rtw_enqueue_evt (pevtpriv : evt_priv) (obj : evt_obj) : Nat × evt_priv :=
  (_SUCCESS, { pevtpriv with evt_queue := pevtpriv.evt_queue ++ [obj] })

/-- An unchecked read of byte `i` of the raw buffer, as C reads memory: the
index is recorded whether or not it lies inside the buffer. -/
def read_byte (pevtpriv : evt_priv) (pbuf : List Nat) (i : Nat) : Nat × evt_priv :=
  (pbuf.getD i 0, { pevtpriv with reads := pevtpriv.reads ++ [i] })

/-- An unchecked read of the `n` bytes from index `off` on. -/
def read_bytes (pevtpriv : evt_priv) (pbuf : List Nat) (off n : Nat) :
    List Nat × evt_priv :=
  ((List.range' off n).map (fun i => pbuf.getD i 0),
    { pevtpriv with reads := pevtpriv.reads ++ List.range' off n })

/-- The declared payload length of a raw event: the byte at the length offset
of the header, when the buffer reaches that far. -/
def declared_len (layout : c2h_layout) (pbuf : List Nat) : Option Nat :=
  pbuf[layout.len_off]?

/-- Modelled from the spec: the event demultiplexer, `deliver_event(buffer,
size)` of §6 and §4.4 (`rtw_c2h_wk_cmd` in the header, declared only). A
buffer too short for its header is dropped. Else the leading event code and
the declared payload length are read; a payload declared larger than what the
received buffer holds behind the header is a malformed event, logged and
dropped. Else the code is looked up in the registry: with a handler, in a
build that permits execution in interrupt context (one without
`CONFIG_EVENT_THREAD_MODE`), the handler is invoked at once; otherwise the
payload is copied into a new event object, which is enqueued. -/
def deliver_event (CONFIG_EVENT_THREAD_MODE CONFIG_P2P_NEW : Bool) (layout : c2h_layout)
    (pevtpriv : evt_priv) (pbuf : List Nat) : evt_priv :=
  if pbuf.length = 0 ∨ pbuf.length ≤ layout.len_off ∨ pbuf.length < layout.payload_off then
    { pevtpriv with errors := pevtpriv.errors ++ [cmd_error.MalformedEvent] }
  else
    let (evtcode, p1) := read_byte pevtpriv pbuf 0
    let (plen, p2) := read_byte p1 pbuf layout.len_off
    if pbuf.length < layout.payload_off + plen then
      { p2 with errors := p2.errors ++ [cmd_error.MalformedEvent] }
    else
      let (payload, p3) := read_bytes p2 pbuf layout.payload_off plen
      let p4 := { p3 with event_seq := p3.event_seq + 1 }
      match (if CONFIG_EVENT_THREAD_MODE then none else lookup CONFIG_P2P_NEW evtcode) with
      | some handler => { p4 with invoked := p4.invoked ++ [⟨handler, evtcode, payload⟩] }
      | none => (rtw_enqueue_evt p4 ⟨evtcode % 2 ^ 16, 0, payload, plen % 2 ^ 32⟩).2

/-! ## The H2C result codes and the indices the header documents -/

/-- The result code `#define H2C_SUCCESS 0x00`. -/
def H2C_SUCCESS : Nat := 0x00

/-- The result code `#define H2C_SUCCESS_RSP 0x01`. -/
def H2C_SUCCESS_RSP : Nat := 0x01

/-- The result code `#define H2C_DUPLICATED 0x02`. -/
def H2C_DUPLICATED : Nat := 0x02

/-- The result code `#define H2C_DROPPED 0x03`. -/
def H2C_DROPPED : Nat := 0x03

/-- The result code `#define H2C_PARAMETERS_ERROR 0x04`. -/
def H2C_PARAMETERS_ERROR : Nat := 0x04

/-- The result code `#define H2C_REJECTED 0x05`. -/
def H2C_REJECTED : Nat := 0x05

/-- The result code `#define H2C_CMD_OVERFLOW 0x06`. -/
def H2C_CMD_OVERFLOW : Nat := 0x06

/-- The result code `#define H2C_RESERVED 0x07`. -/
def H2C_RESERVED : Nat := 0x07

/-- The meanings the comment block "Result:" of the header lists, in its
order. -/
inductive h2c_result_doc where
  | success
  | success_check_response
  | ignored_duplicated_sequence
  | dropped_invalid_code
  | reserved
  deriving DecidableEq, Repr

/-- The value the comment block "Result:" documents for each meaning
(`0x00: success` ... `0x04: reserved.`). -/
def h2c_result_doc.documented : h2c_result_doc → Nat
  | success => 0x00
  | success_check_response => 0x01
  | ignored_duplicated_sequence => 0x02
  | dropped_invalid_code => 0x03
  | reserved => 0x04

/-- The constant the header defines for each documented meaning. -/
def h2c_result_doc.defined : h2c_result_doc → Nat
  | success => H2C_SUCCESS
  | success_check_response => H2C_SUCCESS_RSP
  | ignored_duplicated_sequence => H2C_DUPLICATED
  | dropped_invalid_code => H2C_DROPPED
  | reserved => H2C_RESERVED

open rtw_h2c_cmd in
/-- The comments `/*H2C Handler index: n */` above the parameter structures
of the header: the command each structure belongs to and the index written
in its comment. -/
def h2c_handler_index_comments : List (rtw_h2c_cmd × Nat) :=
  [ (_SetChannel_CMD_, 46),
    (_SetTxPower_CMD_, 47),
    (_SwitchAntenna_CMD_, 48),
    (_SetCrystalCap_CMD_, 49),
    (_SetSingleCarrierTx_CMD_, 50),
    (_SetSingleToneTx_CMD_, 51),
    (_SetCarrierSuppressionTx_CMD_, 52),
    (_SetContinuousTx_CMD_, 53),
    (_SwitchBandwidth_CMD_, 54),
    (_SetChannelPlan_CMD_, 59),
    (_SetChannelSwitch_CMD_, 61),
    (_TDLS_CMD_, 62) ]

open rtw_h2c_cmd in
/-- The index comments written behind enumerators inside `enum rtw_h2c_cmd`
(`/*0*/`, `/*5*/`, `/*10*/`, `/*14*/` ...), each with its enumerator. -/
def enum_index_comments : List (rtw_h2c_cmd × Nat) :=
  [ (_Read_MACREG_CMD_, 0),
    (_Write_RFREG_CMD_, 5),
    (_Read_CAM_CMD_, 10),
    (_JoinBss_CMD_, 14),
    (_DisConnect_CMD_, 15),
    (_SiteSurvey_CMD_, 18),
    (_SetKey_CMD_, 20),
    (_SetBasicRate_CMD_, 25),
    (_GetPhyInfo_CMD_, 30),
    (_SetAtim_CMD_, 35),
    (_GetCCXReport_CMD_, 40),
    (_AddBAReq_CMD_, 45),
    (_SetChannel_CMD_, 46),
    (_SetSingleCarrierTx_CMD_, 50),
    (_SetSingleToneTx_CMD_, 51),
    (_SwitchBandwidth_CMD_, 54),
    (_TX_Beacon_CMD_, 55),
    (_Set_MLME_EVT_CMD_, 56),
    (_Set_Drv_Extra_CMD_, 57),
    (_Set_H2C_MSG_CMD_, 58),
    (_SetChannelPlan_CMD_, 59),
    (_LedBlink_CMD_, 60),
    (_SetChannelSwitch_CMD_, 61),
    (_TDLS_CMD_, 62),
    (_P2P_CMD_, 63) ]

/-! ## The constructor as a statement: what it stores to -/

/-- The memory a call of the constructor runs in: the command objects by
address, and the bytes of memory outside them (the parameter buffers among
them) by address. -/
structure h2c_memory where
  objs : Nat → cmd_obj
  bytes : Nat → Nat

/-- The macro `init_h2fwcmd_w_parm_no_rsp(pcmd, pparm, code)` as a statement
run on the memory: each of its six statements stores to a field of `*pcmd` (the
first through `rtw_init_listhead(&pcmd->list)`), none through `pparm`, which
is only cast and stored as a pointer. -/
def init_h2fwcmd_w_parm_no_rsp_stmt (m : h2c_memory) (pcmd : Nat) (pparm : parm_ptr)
    (code : Nat) : h2c_memory :=
  { m with
    objs := fun a =>
      if a = pcmd then init_h2fwcmd_w_parm_no_rsp pcmd (m.objs a) pparm code else m.objs a }

end rtw_cmd

/-! # Byte-order helpers (rtw_byteorder.h) -/

namespace rtw_byteorder

/-- The `#error` directives of the header. -/
inductive build_error where
  | both_endian
  | no_endian
  deriving DecidableEq, Repr

/-- The preprocessor conditionals of the header, in order, for a
configuration that defines `CONFIG_LITTLE_ENDIAN` and `CONFIG_BIG_ENDIAN` or
not: the `#error` directives reached. The first conditional raises "Shall be
CONFIG_LITTLE_ENDIAN or CONFIG_BIG_ENDIAN, but not both!" when both are
defined; the second selects the little-endian include, else the big-endian
one, else raises "Must be LITTLE/BIG Endian Host". -/
def header_errors (CONFIG_LITTLE_ENDIAN CONFIG_BIG_ENDIAN : Bool) : List build_error :=
  (if CONFIG_LITTLE_ENDIAN && CONFIG_BIG_ENDIAN then [build_error.both_endian] else [])
    ++ (if CONFIG_LITTLE_ENDIAN then []
        else if CONFIG_BIG_ENDIAN then []
        else [build_error.no_endian])

/-- The header is accepted when no `#error` is reached. -/
def header_accepts (CONFIG_LITTLE_ENDIAN CONFIG_BIG_ENDIAN : Bool) : Bool :=
  (header_errors CONFIG_LITTLE_ENDIAN CONFIG_BIG_ENDIAN).isEmpty

/-- How the header provides the four helpers: under `#ifdef CONFIG_BIG_ENDIAN`
as macros that expand to their argument, else as functions it only
declares. -/
inductive helper_kind where
  | identity_macro
  | declared_function
  deriving DecidableEq, Repr

/-- The branch of `#ifdef CONFIG_BIG_ENDIAN` the helpers come from. -/
def helpers (CONFIG_BIG_ENDIAN : Bool) : helper_kind :=
  if CONFIG_BIG_ENDIAN then helper_kind.identity_macro else helper_kind.declared_function

/-- The big-endian macro `#define _htons(x) (x)`. -/
def _htons (x : Nat) : Nat := x

/-- The big-endian macro `#define _ntohs(x) (x)`. -/
def _ntohs (x : Nat) : Nat := x

/-- The big-endian macro `#define _htonl(x) (x)`. -/
def _htonl (x : Nat) : Nat := x

/-- The big-endian macro `#define _ntohl(x) (x)`. -/
def _ntohl (x : Nat) : Nat := x

end rtw_byteorder

/-! # The /dev/testcase driver (kernel_testcase_drv.c) -/

namespace kernel_testcase_drv

/-- The errno value `EINVAL` (errno.h). -/
def EINVAL : Int := 22

/-- The status `OK`. -/
def OK : Int := 0

/-- The status `ERROR`. -/
def ERROR : Int := -1

/-- The commands `kernel_test_drv_ioctl` has a `case` for, in the order of
the `switch`. Their numeric values come from tinyara/testcase_drv.h. -/
inductive testioc where
  | TESTIOC_ANALOG
  | TESTIOC_GET_SELF_PID
  | TESTIOC_GET_SIG_FINDACTION_ADD
  | TESTIOC_IS_ALIVE_THREAD
  | TESTIOC_GET_TCB_SIGPROCMASK
  | TESTIOC_GET_TCB_ADJ_STACK_SIZE
  | TESTIOC_GET_TCB_TIMESLICE
  | TESTIOC_SCHED_FOREACH
  | TESTIOC_SIGNAL_PAUSE
  | TESTIOC_CLOCK_ABSTIME2TICKS_TEST
  | TESTIOC_TIMER_INITIALIZE_TEST
  | TESTIOC_SEM_TICK_WAIT_TEST
  | TESTIOC_GROUP_ADD_FINED_REMOVE_TEST
  | TESTIOC_GROUP_ALLOC_FREE_TEST
  | TESTIOC_GROUP_EXIT_CHILD_TEST
  | TESTIOC_GROUP_REMOVECHILDREN_TEST
  deriving DecidableEq, Repr, Fintype

/-- The build options that guard cases of the `switch`. -/
structure drv_config where
  CONFIG_TC_KERNEL_ROUNDROBIN : Bool
  CONFIG_SCHED_HAVE_PARENT : Bool
  CONFIG_SCHED_CHILD_STATUS : Bool
  deriving DecidableEq, Repr

/-- The fields of a task control block the driver reads. -/
structure tcb_s where
  pid : Int
  sigprocmask : Int
  adj_stack_size : Int
  timeslice : Int
  deriving DecidableEq, Repr

/-- The kernel as the driver sees it: what the kernel functions it calls
return. `selftest_ok c` tells whether the self-test sequence of case `c`
(clock, timer, semaphore and group tests) runs through to its `ret = OK` or
leaves through one of its `ret = ERROR; break;`. -/
structure kernel_env where
  sched_self : Option tcb_s
  sched_gettcb : Nat → Option tcb_s
  sig_findaction : Nat → Int
  pause_interrupted : Bool
  selftest_ok : testioc → Bool

/-- Whether the `case` of a command is compiled into the `switch`. -/
def compiled (cfg : drv_config) : testioc → Bool
  | testioc.TESTIOC_GET_TCB_TIMESLICE => cfg.CONFIG_TC_KERNEL_ROUNDROBIN
  | testioc.TESTIOC_GROUP_ADD_FINED_REMOVE_TEST =>
    cfg.CONFIG_SCHED_HAVE_PARENT && cfg.CONFIG_SCHED_CHILD_STATUS
  | testioc.TESTIOC_GROUP_ALLOC_FREE_TEST =>
    cfg.CONFIG_SCHED_HAVE_PARENT && cfg.CONFIG_SCHED_CHILD_STATUS
  | testioc.TESTIOC_GROUP_EXIT_CHILD_TEST =>
    cfg.CONFIG_SCHED_HAVE_PARENT && cfg.CONFIG_SCHED_CHILD_STATUS
  | testioc.TESTIOC_GROUP_REMOVECHILDREN_TEST =>
    cfg.CONFIG_SCHED_HAVE_PARENT && cfg.CONFIG_SCHED_CHILD_STATUS
  | _ => true

/-- The value of `ret` at the end of the body of a `case`, `ret` holding
`-EINVAL` on entry. -/
def case_body (env : kernel_env) (arg : Nat) : testioc → Int
  | testioc.TESTIOC_ANALOG => -EINVAL
  | testioc.TESTIOC_GET_SELF_PID =>
    match env.sched_self with
    | none => ERROR
    | some tcb => tcb.pid
  | testioc.TESTIOC_GET_SIG_FINDACTION_ADD => env.sig_findaction arg
  | testioc.TESTIOC_IS_ALIVE_THREAD =>
    match env.sched_gettcb arg with
    | none => ERROR
    | some _ => OK
  | testioc.TESTIOC_GET_TCB_SIGPROCMASK =>
    match env.sched_gettcb arg with
    | none => ERROR
    | some tcb => tcb.sigprocmask
  | testioc.TESTIOC_GET_TCB_ADJ_STACK_SIZE =>
    match env.sched_gettcb arg with
    | none => ERROR
    | some tcb => tcb.adj_stack_size
  | testioc.TESTIOC_GET_TCB_TIMESLICE =>
    match env.sched_gettcb arg with
    | none => ERROR
    | some tcb => tcb.timeslice
  | testioc.TESTIOC_SCHED_FOREACH => -EINVAL
  | testioc.TESTIOC_SIGNAL_PAUSE => if env.pause_interrupted then OK else ERROR
  | c => if env.selftest_ok c then OK else ERROR

/-- The cases of the `switch`, in its order. -/
def switch_cases : List testioc :=
  [ testioc.TESTIOC_ANALOG, testioc.TESTIOC_GET_SELF_PID,
    testioc.TESTIOC_GET_SIG_FINDACTION_ADD, testioc.TESTIOC_IS_ALIVE_THREAD,
    testioc.TESTIOC_GET_TCB_SIGPROCMASK, testioc.TESTIOC_GET_TCB_ADJ_STACK_SIZE,
    testioc.TESTIOC_GET_TCB_TIMESLICE, testioc.TESTIOC_SCHED_FOREACH,
    testioc.TESTIOC_SIGNAL_PAUSE, testioc.TESTIOC_CLOCK_ABSTIME2TICKS_TEST,
    testioc.TESTIOC_TIMER_INITIALIZE_TEST, testioc.TESTIOC_SEM_TICK_WAIT_TEST,
    testioc.TESTIOC_GROUP_ADD_FINED_REMOVE_TEST, testioc.TESTIOC_GROUP_ALLOC_FREE_TEST,
    testioc.TESTIOC_GROUP_EXIT_CHILD_TEST, testioc.TESTIOC_GROUP_REMOVECHILDREN_TEST ]

/-- The `switch (cmd)` over a list of cases: the first compiled case whose
label equals `cmd` runs its body; with none, the `default` case leaves `ret`
as it is. `code` gives the value of each `TESTIOC_*` label. -/
def switch_on (cfg : drv_config) (code : testioc → Int) (env : kernel_env) (cmd : Int)
    (arg : Nat) (ret : Int) : List testioc → Int
  | [] => ret
  | c :: cs =>
    if compiled cfg c && decide (cmd = code c) then case_body env arg c
    else switch_on cfg code env cmd arg ret cs

/-- The function `kernel_test_drv_ioctl(filep, cmd, arg)`: `ret` starts as
`-EINVAL`, the `switch` runs, `ret` is returned. -/
def kernel_test_drv_ioctl (cfg : drv_config) (code : testioc → Int) (env : kernel_env)
    (filep : Nat) (cmd : Int) (arg : Nat) : Int :=
  switch_on cfg code env cmd arg (-EINVAL) switch_cases

/-- The conversion of a `size_t` to the `ssize_t` a driver method returns,
both 32 bits wide: values from 2^31 on come out negative. -/
def to_ssize_t (n : Nat) : Int :=
  if n % 2 ^ 32 < 2 ^ 31 then (n % 2 ^ 32 : Nat) else (n % 2 ^ 32 : Nat) - 2 ^ 32

/-- The function `kernel_test_drv_read(filep, buffer, len)`: `return 0;`. -/
def kernel_test_drv_read (filep : Nat) (buffer : Nat) (len : Nat) : Int := 0

/-- The function `kernel_test_drv_write(filep, buffer, len)`: `return len;`,
the `size_t` converted to the `ssize_t` result. -/
def kernel_test_drv_write (filep : Nat) (buffer : Nat) (len : Nat) : Int :=
  to_ssize_t len

end kernel_testcase_drv

/-! # The Wi-Fi manager sample (wm_test.c)

C strings are lists of characters (the bytes before the terminating NUL). A
`char *` is NULL, a pointer to a string, or a pointer read from beyond the
argument vector, whose value nothing defines. Undefined behaviour (a copy
into a buffer that is too small, a string function applied to a pointer that
is no string, a table read out of bounds) is a fault. -/

namespace wm_test

/-- A `char *` value. -/
inductive cptr where
  | null
  | wild
  | str (s : List Char)
  deriving DecidableEq, Repr

/-- The kinds of undefined behaviour the parser can run into. -/
inductive wm_fault where
  | buffer_overflow
  | null_deref
  | table_out_of_bounds
  deriving DecidableEq, Repr

/-- The outcome of a computation that may fault. -/
inductive outcome (α : Type) where
  | ok (v : α)
  | fault (f : wm_fault)
  deriving DecidableEq, Repr

/-- The enumerators of `wifi_manager_ap_auth_type_e` the file uses
(wifi_manager.h declares the type). -/
inductive wifi_manager_ap_auth_type_e where
  | WIFI_MANAGER_AUTH_OPEN
  | WIFI_MANAGER_AUTH_WEP_SHARED
  | WIFI_MANAGER_AUTH_WPA_PSK
  | WIFI_MANAGER_AUTH_WPA2_PSK
  | WIFI_MANAGER_AUTH_WPA_AND_WPA2_PSK
  | WIFI_MANAGER_AUTH_WPA_PSK_ENT
  | WIFI_MANAGER_AUTH_WPA2_PSK_ENT
  | WIFI_MANAGER_AUTH_WPA_AND_WPA2_PSK_ENT
  | WIFI_MANAGER_AUTH_IBSS_OPEN
  | WIFI_MANAGER_AUTH_WPS
  | WIFI_MANAGER_AUTH_UNKNOWN
  deriving DecidableEq, Repr

/-- The enumerators of `wifi_manager_ap_crypto_type_e` the file uses
(wifi_manager.h declares the type). -/
inductive wifi_manager_ap_crypto_type_e where
  | WIFI_MANAGER_CRYPTO_NONE
  | WIFI_MANAGER_CRYPTO_WEP_64
  | WIFI_MANAGER_CRYPTO_WEP_128
  | WIFI_MANAGER_CRYPTO_AES
  | WIFI_MANAGER_CRYPTO_TKIP
  | WIFI_MANAGER_CRYPTO_TKIP_AND_AES
  | WIFI_MANAGER_CRYPTO_AES_ENT
  | WIFI_MANAGER_CRYPTO_TKIP_ENT
  | WIFI_MANAGER_CRYPTO_TKIP_AND_AES_ENT
  | WIFI_MANAGER_CRYPTO_UNKNOWN
  deriving DecidableEq, Repr

open wifi_manager_ap_auth_type_e wifi_manager_ap_crypto_type_e

/-- The table `wifi_test_auth_method[]`. -/
def wifi_test_auth_method : List (List Char) :=
  [ "open".toList, "wep_shared".toList, "wpa".toList, "wpa2".toList, "wpa12".toList,
    "wpa".toList, "wpa2".toList, "wpa12".toList, "ibss_open".toList, "wps".toList ]

/-- The table `wifi_test_crypto_method[]`. -/
def wifi_test_crypto_method : List (List Char) :=
  [ "none".toList, "64".toList, "128".toList, "aes".toList, "tkip".toList,
    "mixed".toList, "aes_ent".toList, "tkip_ent".toList, "mixed_ent".toList ]

/-- The table `auth_type_table[]`. -/
def auth_type_table : List wifi_manager_ap_auth_type_e :=
  [ WIFI_MANAGER_AUTH_OPEN, WIFI_MANAGER_AUTH_WEP_SHARED, WIFI_MANAGER_AUTH_WPA_PSK,
    WIFI_MANAGER_AUTH_WPA2_PSK, WIFI_MANAGER_AUTH_WPA_AND_WPA2_PSK,
    WIFI_MANAGER_AUTH_WPA_PSK_ENT, WIFI_MANAGER_AUTH_WPA2_PSK_ENT,
    WIFI_MANAGER_AUTH_WPA_AND_WPA2_PSK_ENT, WIFI_MANAGER_AUTH_IBSS_OPEN,
    WIFI_MANAGER_AUTH_WPS, WIFI_MANAGER_AUTH_UNKNOWN ]

/-- The table `crypto_type_table[]`. -/
def crypto_type_table : List wifi_manager_ap_crypto_type_e :=
  [ WIFI_MANAGER_CRYPTO_NONE, WIFI_MANAGER_CRYPTO_WEP_64, WIFI_MANAGER_CRYPTO_WEP_128,
    WIFI_MANAGER_CRYPTO_AES, WIFI_MANAGER_CRYPTO_TKIP, WIFI_MANAGER_CRYPTO_TKIP_AND_AES,
    WIFI_MANAGER_CRYPTO_AES_ENT, WIFI_MANAGER_CRYPTO_TKIP_ENT,
    WIFI_MANAGER_CRYPTO_TKIP_AND_AES_ENT, WIFI_MANAGER_CRYPTO_UNKNOWN ]

/-- The C library function `strtok_r(str, delim, &saveptr)` by its contract:
`pos` is the part of the string still to be scanned (none once the scan is
over); the result is the next token, if any, and the part left to scan.
Delimiters in front of the token are skipped; the token ends at the next
delimiter, which is consumed, or at the end of the string. -/
def strtok_r (delim : List Char) (pos : Option (List Char)) :
    Option (List Char) × Option (List Char) :=
  match pos with
  | none => (none, none)
  | some s =>
    match s.dropWhile (fun c => delim.contains c) with
    | [] => (none, none)
    | c :: cs =>
      let token := (c :: cs).takeWhile (fun c => !delim.contains c)
      match (c :: cs).dropWhile (fun c => !delim.contains c) with
      | [] => (some token, none)
      | _ :: rest => (some token, some rest)

/-- What `strtok_r` leaves in `*saveptr` where its contract says nothing:
after a token that runs to the end of the string, and after a call that
found no token. The C library decides (NULL, a pointer to the terminating
NUL, or the variable left untouched). -/
structure strtok_impl where
  save_at_end : cptr
  save_no_token : cptr
  deriving DecidableEq, Repr

/-- The read `auth_type_table[i]`; out of bounds is a fault. -/
def auth_type_table_at (i : Nat) : outcome wifi_manager_ap_auth_type_e :=
  match auth_type_table[i]? with
  | some a => outcome.ok a
  | none => outcome.fault wm_fault.table_out_of_bounds

/-- The body of the `if` of `get_auth_type` once a name matched at index `i`:
with a third token equal to "ent" `auth_type_table[i + 3]`, else
`auth_type_table[i]`. -/
def auth_type_hit (result2 : Option (List Char)) (i : Nat) :
    outcome wifi_manager_ap_auth_type_e :=
  match result2 with
  | none => auth_type_table_at i
  | some r2 => if r2 = "ent".toList then auth_type_table_at (i + 3) else auth_type_table_at i

/-- The `for` loop of `get_auth_type` from index `i` on, over the names left:
a name matches when `strcmp(method, name) == 0` or, evaluated only if that
fails, `strcmp(result[0], name) == 0`, which faults on a NULL `result[0]`.
After the last name the function returns WIFI_MANAGER_AUTH_UNKNOWN. -/
def get_auth_type_loop (method : List Char) (result0 result2 : Option (List Char)) :
    Nat → List (List Char) → outcome wifi_manager_ap_auth_type_e
  | _, [] => outcome.ok WIFI_MANAGER_AUTH_UNKNOWN
  | i, name :: names =>
    if method = name then auth_type_hit result2 i
    else
      match result0 with
      | none => outcome.fault wm_fault.null_deref
      | some r0 =>
        if r0 = name then auth_type_hit result2 i
        else get_auth_type_loop method result0 result2 (i + 1) names

/-- The function `get_auth_type(method)`: `strcpy` into `char data[20]`
(a fault unless the string and its NUL fit), three `strtok_r` calls on "_",
then the loop over `wifi_test_auth_method`. -/
def get_auth_type (method : List Char) : outcome wifi_manager_ap_auth_type_e :=
  if 20 ≤ method.length then outcome.fault wm_fault.buffer_overflow
  else
    let t0 := strtok_r "_".toList (some method)
    let t1 := strtok_r "_".toList t0.2
    let t2 := strtok_r "_".toList t1.2
    get_auth_type_loop method t0.1 t2.1 0 wifi_test_auth_method

/-- The `for` loop of `get_crypto_type` from index `i` on:
`strcmp(result[1], name) == 0` selects `crypto_type_table[i]`; after the last
name the function returns WIFI_MANAGER_CRYPTO_UNKNOWN. -/
def get_crypto_type_loop (result1 : List Char) :
    Nat → List (List Char) → outcome wifi_manager_ap_crypto_type_e
  | _, [] => outcome.ok WIFI_MANAGER_CRYPTO_UNKNOWN
  | i, name :: names =>
    if result1 = name then
      match crypto_type_table[i]? with
      | some c => outcome.ok c
      | none => outcome.fault wm_fault.table_out_of_bounds
    else get_crypto_type_loop result1 (i + 1) names

/-- The function `get_crypto_type(method)`: `strcpy` into `char data[20]`,
one `strtok_r` call, `result[1] = next_ptr` (what is left of the string behind
the first token and its delimiter), then the loop over
`wifi_test_crypto_method`, which faults if `result[1]` is no string. -/
def get_crypto_type (impl : strtok_impl) (method : List Char) :
    outcome wifi_manager_ap_crypto_type_e :=
  if 20 ≤ method.length then outcome.fault wm_fault.buffer_overflow
  else
    let t0 := strtok_r "_".toList (some method)
    let result1 : cptr :=
      match t0.2 with
      | some rest => cptr.str rest
      | none =>
        match t0.1 with
        | some _ => impl.save_at_end
        | none => impl.save_no_token
    match result1 with
    | cptr.str r1 => get_crypto_type_loop r1 0 wifi_test_crypto_method
    | _ => outcome.fault wm_fault.null_deref

/-! ## Command words and handlers -/

/-- The handlers `func_table` can hold (`typedef void (*test_func)(void
*arg)`), by name. -/
inductive test_func where
  | wm_start
  | wm_stop
  | wm_softap_start
  | wm_sta_start
  | wm_connect
  | wm_disconnect
  | wm_cancel
  | wm_set_info
  | wm_get_info
  | wm_reset_info
  | wm_scan
  | wm_display_state
  | wm_get_stats
  | wm_auto_test
  | wm_run_stress_test
  deriving DecidableEq, Repr

/-- The argument parsers `exec_table` can hold (`exec_func`), by name. -/
inductive exec_func where
  | _wm_test_softap
  | _wm_test_join
  | _wm_test_set
  | _wm_test_auto
  deriving DecidableEq, Repr

/-- The `struct options`, field by field; `func` is none for NULL. -/
structure options where
  func : Option test_func
  channel : Nat
  ssid : cptr
  bad_ssid : cptr
  password : cptr
  bad_password : cptr
  auth_type : wifi_manager_ap_auth_type_e
  crypto_type : wifi_manager_ap_crypto_type_e
  softap_ssid : cptr
  softap_password : cptr
  deriving DecidableEq, Repr

/-- The enumerators of `wm_test_e`, in declaration order. -/
inductive wm_test_e where
  | WM_TEST_ERR
  | WM_TEST_START
  | WM_TEST_STOP
  | WM_TEST_SOFTAP
  | WM_TEST_STA
  | WM_TEST_JOIN
  | WM_TEST_LEAVE
  | WM_TEST_CANCEL
  | WM_TEST_SET
  | WM_TEST_GET
  | WM_TEST_RESET
  | WM_TEST_SCAN
  | WM_TEST_MODE
  | WM_TEST_STATS
  | WM_TEST_AUTO
  | WM_TEST_STRESS
  | WM_TEST_MAX
  deriving DecidableEq, Repr

/-- The value of an enumerator of `wm_test_e`: the first is given as -1
(`WM_TEST_ERR = -1`), each further one is its predecessor plus one. -/
def wm_test_e.val (e : wm_test_e) : Int := (e.toCtorIdx : Int) - 1

/-- The table `func_table[WM_TEST_MAX]`; its last entry is
`wm_run_stress_test` under `CONFIG_EXAMPLES_WIFIMANAGER_STRESS_TOOL`, else
NULL. -/
def func_table (CONFIG_EXAMPLES_WIFIMANAGER_STRESS_TOOL : Bool) : List (Option test_func) :=
  [ some test_func.wm_start,
    some test_func.wm_stop,
    some test_func.wm_softap_start,
    some test_func.wm_sta_start,
    some test_func.wm_connect,
    some test_func.wm_disconnect,
    some test_func.wm_cancel,
    some test_func.wm_set_info,
    some test_func.wm_get_info,
    some test_func.wm_reset_info,
    some test_func.wm_scan,
    some test_func.wm_display_state,
    some test_func.wm_get_stats,
    some test_func.wm_auto_test,
    if CONFIG_EXAMPLES_WIFIMANAGER_STRESS_TOOL then some test_func.wm_run_stress_test
    else none ]

/-- The table `exec_table[WM_TEST_MAX]`. -/
def exec_table : List (Option exec_func) :=
  [ none,
    none,
    some exec_func._wm_test_softap,
    none,
    some exec_func._wm_test_join,
    none,
    none,
    some exec_func._wm_test_set,
    none,
    none,
    none,
    none,
    none,
    some exec_func._wm_test_auto,
    none ]

/-- The table `func_name[WM_TEST_MAX]`. -/
def func_name : List (List Char) :=
  [ "start".toList, "stop".toList, "softap".toList, "sta".toList, "join".toList,
    "leave".toList, "cancel".toList, "set".toList, "get".toList, "reset".toList,
    "scan".toList, "mode".toList, "stats".toList, "auto".toList, "stress".toList ]

/-- The read `argv[i]` of an argument vector holding the strings `argv`:
below the number of arguments the argument, right behind them the
terminating NULL, further out a pointer nothing defines. -/
def argv_at (argv : List (List Char)) (i : Nat) : cptr :=
  match argv[i]? with
  | some s => cptr.str s
  | none => if i = argv.length then cptr.null else cptr.wild

/-- What a parser call leaves behind: the value returned (or the fault), the
options written so far, and the indices at which `argv` was read, one entry
for each reading statement executed, in order. -/
structure wm_out where
  ret : outcome Int
  opt : options
  reads : List Nat
  deriving DecidableEq, Repr

/-- The `for` loop of `_wm_get_opt` from index `idx` on:
`strcmp(argv[2], func_name[idx]) == 0` returns `idx`; after the last name
the function returns WM_TEST_ERR. -/
def _wm_get_opt_loop (arg2 : List Char) : Nat → List (List Char) → Int
  | _, [] => wm_test_e.WM_TEST_ERR.val
  | idx, name :: names =>
    if arg2 = name then (idx : Int) else _wm_get_opt_loop arg2 (idx + 1) names

/-- The function `_wm_get_opt(argc, argv)`: the result and the indices of
`argv` read. -/
def _wm_get_opt (argc : Nat) (argv : List (List Char)) : outcome Int × List Nat :=
  if argc < 3 then (outcome.ok wm_test_e.WM_TEST_ERR.val, [])
  else
    match argv_at argv 2 with
    | cptr.str arg2 => (outcome.ok (_wm_get_opt_loop arg2 0 func_name), [2])
    | _ => (outcome.fault wm_fault.null_deref, [2])

/-- The function `_wm_test_softap(opt, argc, argv)`. -/
def _wm_test_softap (opt : options) (argc : Nat) (argv : List (List Char)) : wm_out :=
  let opt := { opt with ssid := argv_at argv 3 }
  let opt := { opt with password := argv_at argv 4 }
  ⟨outcome.ok 0, opt, [3, 4]⟩

/-- The part of `_wm_test_join` and `_wm_test_set` that decides the crypto
type once the auth type `auth` is known to be neither open nor unknown: for
WEP by `strlen(argv[5])` (13, else 5, else failure), otherwise by
`get_crypto_type(argv[4])`; then `opt->password = argv[5]`. `reads` are the
indices read before. -/
def crypto_and_password (impl : strtok_impl) (opt : options) (argv : List (List Char))
    (method : List Char) (reads : List Nat) : wm_out :=
  if opt.auth_type = WIFI_MANAGER_AUTH_WEP_SHARED then
    match argv_at argv 5 with
    | cptr.str pw =>
      if pw.length = 13 then
        ⟨outcome.ok 0,
          { opt with crypto_type := WIFI_MANAGER_CRYPTO_WEP_128, password := argv_at argv 5 },
          reads ++ [5, 5]⟩
      else if pw.length = 5 then
        ⟨outcome.ok 0,
          { opt with crypto_type := WIFI_MANAGER_CRYPTO_WEP_64, password := argv_at argv 5 },
          reads ++ [5, 5, 5]⟩
      else ⟨outcome.ok (-1), opt, reads ++ [5, 5]⟩
    | _ => ⟨outcome.fault wm_fault.null_deref, opt, reads ++ [5]⟩
  else
    match get_crypto_type impl method with
    | outcome.fault f => ⟨outcome.fault f, opt, reads ++ [4]⟩
    | outcome.ok crypto =>
      let opt := { opt with crypto_type := crypto }
      if crypto = WIFI_MANAGER_CRYPTO_UNKNOWN then ⟨outcome.ok (-1), opt, reads ++ [4]⟩
      else ⟨outcome.ok 0, { opt with password := argv_at argv 5 }, reads ++ [4, 5]⟩

/-- The function `_wm_test_join(opt, argc, argv)`. -/
def _wm_test_join (impl : strtok_impl) (opt : options) (argc : Nat)
    (argv : List (List Char)) : wm_out :=
  if argc < 5 then ⟨outcome.ok (-1), opt, []⟩
  else
    let opt := { opt with ssid := argv_at argv 3 }
    match argv_at argv 4 with
    | cptr.str method =>
      match get_auth_type method with
      | outcome.fault f => ⟨outcome.fault f, opt, [3, 4]⟩
      | outcome.ok auth =>
        let opt := { opt with auth_type := auth }
        if auth = WIFI_MANAGER_AUTH_OPEN ∨ auth = WIFI_MANAGER_AUTH_IBSS_OPEN then
          ⟨outcome.ok 0,
            { opt with password := cptr.str [], crypto_type := WIFI_MANAGER_CRYPTO_NONE },
            [3, 4]⟩
        else if argc = 5 then
          ⟨outcome.ok 0,
            { opt with
              auth_type := WIFI_MANAGER_AUTH_UNKNOWN
              crypto_type := WIFI_MANAGER_CRYPTO_UNKNOWN
              password := argv_at argv 4 },
            [3, 4, 4]⟩
        else if auth = WIFI_MANAGER_AUTH_UNKNOWN then ⟨outcome.ok (-1), opt, [3, 4]⟩
        else crypto_and_password impl opt argv method [3, 4]
    | _ => ⟨outcome.fault wm_fault.null_deref, opt, [3, 4]⟩

/-- The function `_wm_test_set(opt, argc, argv)`. -/
def _wm_test_set (impl : strtok_impl) (opt : options) (argc : Nat)
    (argv : List (List Char)) : wm_out :=
  if argc < 5 then ⟨outcome.ok (-1), opt, []⟩
  else
    let opt := { opt with ssid := argv_at argv 3 }
    match argv_at argv 4 with
    | cptr.str method =>
      match get_auth_type method with
      | outcome.fault f => ⟨outcome.fault f, opt, [3, 4]⟩
      | outcome.ok auth =>
        let opt := { opt with auth_type := auth }
        if auth = WIFI_MANAGER_AUTH_UNKNOWN then ⟨outcome.ok (-1), opt, [3, 4]⟩
        else if auth = WIFI_MANAGER_AUTH_OPEN ∨ auth = WIFI_MANAGER_AUTH_IBSS_OPEN then
          ⟨outcome.ok 0,
            { opt with crypto_type := WIFI_MANAGER_CRYPTO_NONE, password := cptr.str [] },
            [3, 4]⟩
        else crypto_and_password impl opt argv method [3, 4]
    | _ => ⟨outcome.fault wm_fault.null_deref, opt, [3, 4]⟩

/-- The function `_wm_test_auto(opt, argc, argv)`. -/
def _wm_test_auto (impl : strtok_impl) (opt : options) (argc : Nat)
    (argv : List (List Char)) : wm_out :=
  if argc < 7 then ⟨outcome.ok (-1), opt, []⟩
  else
    let opt := { opt with softap_ssid := argv_at argv 3 }
    let opt := { opt with softap_password := argv_at argv 4 }
    let opt := { opt with ssid := argv_at argv 5 }
    match argv_at argv 6 with
    | cptr.str method =>
      match get_auth_type method with
      | outcome.fault f => ⟨outcome.fault f, opt, [3, 4, 5, 6]⟩
      | outcome.ok auth =>
        let opt := { opt with auth_type := auth }
        if auth = WIFI_MANAGER_AUTH_UNKNOWN then ⟨outcome.ok (-1), opt, [3, 4, 5, 6]⟩
        else if auth = WIFI_MANAGER_AUTH_OPEN then ⟨outcome.ok 0, opt, [3, 4, 5, 6]⟩
        else
          match get_crypto_type impl method with
          | outcome.fault f => ⟨outcome.fault f, opt, [3, 4, 5, 6, 6]⟩
          | outcome.ok crypto =>
            ⟨outcome.ok 0, { opt with crypto_type := crypto, password := argv_at argv 7 },
              [3, 4, 5, 6, 6, 7]⟩
    | _ => ⟨outcome.fault wm_fault.null_deref, opt, [3, 4, 5, 6]⟩

/-- The call `(exec_table[options])(opt, argc, argv)` of a parser held in
`exec_table`. -/
def exec_func.call (impl : strtok_impl) : exec_func → options → Nat → List (List Char) → wm_out
  | exec_func._wm_test_softap => wm_test._wm_test_softap
  | exec_func._wm_test_join => wm_test._wm_test_join impl
  | exec_func._wm_test_set => wm_test._wm_test_set impl
  | exec_func._wm_test_auto => wm_test._wm_test_auto impl

/-- The function `wm_parse_commands(opt, argc, argv)`. A value of
`_wm_get_opt` other than WM_TEST_ERR is an index below WM_TEST_MAX into
`func_table` and `exec_table`. -/
def wm_parse_commands (CONFIG_EXAMPLES_WIFIMANAGER_STRESS_TOOL : Bool) (impl : strtok_impl)
    (opt : options) (argc : Nat) (argv : List (List Char)) : wm_out :=
  match _wm_get_opt argc argv with
  | (outcome.fault f, reads) => ⟨outcome.fault f, opt, reads⟩
  | (outcome.ok options, reads) =>
    if options = wm_test_e.WM_TEST_ERR.val then ⟨outcome.ok (-1), opt, reads⟩
    else
      match (func_table CONFIG_EXAMPLES_WIFIMANAGER_STRESS_TOOL)[options.toNat]? with
      | none => ⟨outcome.fault wm_fault.table_out_of_bounds, opt, reads⟩
      | some func =>
        let opt := { opt with func := func }
        if func = none then ⟨outcome.ok (-1), opt, reads⟩
        else
          match exec_table[options.toNat]? with
          | some (some exec) =>
            let out := exec.call impl opt argc argv
            { out with reads := reads ++ out.reads }
          | _ => ⟨outcome.ok 0, opt, reads⟩

/-- The command words of the usage text (`USAGE`), each with the handler of
the command and the argument parser it takes, if any. -/
def usage_commands : List (List Char × test_func × Option exec_func) :=
  [ ("start".toList, test_func.wm_start, none),
    ("stop".toList, test_func.wm_stop, none),
    ("stats".toList, test_func.wm_get_stats, none),
    ("softap".toList, test_func.wm_softap_start, some exec_func._wm_test_softap),
    ("sta".toList, test_func.wm_sta_start, none),
    ("join".toList, test_func.wm_connect, some exec_func._wm_test_join),
    ("leave".toList, test_func.wm_disconnect, none),
    ("cancel".toList, test_func.wm_cancel, none),
    ("scan".toList, test_func.wm_scan, none),
    ("mode".toList, test_func.wm_display_state, none),
    ("set".toList, test_func.wm_set_info, some exec_func._wm_test_set),
    ("get".toList, test_func.wm_get_info, none),
    ("reset".toList, test_func.wm_reset_info, none),
    ("auto".toList, test_func.wm_auto_test, some exec_func._wm_test_auto) ]

/-- What `wm_parse_commands` does once the command word selected handler
`h`: the handler is stored in `opt->func`; a command without argument parser
returns 0, one with a parser returns what the parser returns on these
options. The read of `argv[2]` by `_wm_get_opt` comes first in the trace. -/
def after_selection (impl : strtok_impl) (opt : options) (argc : Nat)
    (argv : List (List Char)) (h : test_func) : Option exec_func → wm_out
  | none => ⟨outcome.ok 0, { opt with func := some h }, [2]⟩
  | some exec =>
    { exec.call impl { opt with func := some h } argc argv with
      reads := [2] ++ (exec.call impl { opt with func := some h } argc argv).reads }

/-! ## Printing the security mode -/

/-- The C library function `strcat(dest, src)` on a buffer of `size` bytes
that holds the string `dest`: the concatenation, a fault unless it and its NUL
fit the buffer. -/
def strcat (size : Nat) (dest src : List Char) : outcome (List Char) :=
  if dest.length + src.length + 1 ≤ size then outcome.ok (dest ++ src)
  else outcome.fault wm_fault.buffer_overflow

/-- The function `print_wifi_ap_profile(config, title)`, the text it prints
behind "SECURITY: " (the other lines print the title and the SSID as they
are): "unknown" for an unknown auth or crypto type; else `char
security_type[20] = {0,}` takes `wifi_test_auth_method[config->ap_auth_type]`
and, unless the auth type is open, IBSS open or WEP shared, "_" and
`wifi_test_crypto_method[config->ap_crypto_type]`. `auth_val` and `crypto_val`
give the values of the enumerators, which wifi_manager.h defines. -/
def print_wifi_ap_profile (auth_val : wifi_manager_ap_auth_type_e → Nat)
    (crypto_val : wifi_manager_ap_crypto_type_e → Nat)
    (ap_auth_type : wifi_manager_ap_auth_type_e)
    (ap_crypto_type : wifi_manager_ap_crypto_type_e) : outcome (List Char) :=
  if ap_auth_type = WIFI_MANAGER_AUTH_UNKNOWN ∨ ap_crypto_type = WIFI_MANAGER_CRYPTO_UNKNOWN then
    outcome.ok "unknown".toList
  else
    match wifi_test_auth_method[auth_val ap_auth_type]? with
    | none => outcome.fault wm_fault.table_out_of_bounds
    | some auth_name =>
      match strcat 20 [] auth_name with
      | outcome.fault f => outcome.fault f
      | outcome.ok security_type =>
        if ap_auth_type = WIFI_MANAGER_AUTH_OPEN ∨ ap_auth_type = WIFI_MANAGER_AUTH_IBSS_OPEN
            ∨ ap_auth_type = WIFI_MANAGER_AUTH_WEP_SHARED then
          outcome.ok security_type
        else
          match strcat 20 security_type "_".toList with
          | outcome.fault f => outcome.fault f
          | outcome.ok security_type =>
            match wifi_test_crypto_method[crypto_val ap_crypto_type]? with
            | none => outcome.fault wm_fault.table_out_of_bounds
            | some crypto_name => strcat 20 security_type crypto_name

/-- The pairs (auth type, crypto type) of the round trip: a personal auth
type with a personal crypto type, or an enterprise auth type with an
enterprise crypto type. -/
def round_trip_pairs : List (wifi_manager_ap_auth_type_e × wifi_manager_ap_crypto_type_e) :=
  ([WIFI_MANAGER_AUTH_WPA_PSK, WIFI_MANAGER_AUTH_WPA2_PSK,
      WIFI_MANAGER_AUTH_WPA_AND_WPA2_PSK].product
    [WIFI_MANAGER_CRYPTO_AES, WIFI_MANAGER_CRYPTO_TKIP, WIFI_MANAGER_CRYPTO_TKIP_AND_AES])
  ++ ([WIFI_MANAGER_AUTH_WPA_PSK_ENT, WIFI_MANAGER_AUTH_WPA2_PSK_ENT,
      WIFI_MANAGER_AUTH_WPA_AND_WPA2_PSK_ENT].product
    [WIFI_MANAGER_CRYPTO_AES_ENT, WIFI_MANAGER_CRYPTO_TKIP_ENT,
      WIFI_MANAGER_CRYPTO_TKIP_AND_AES_ENT])
/-- The round trip on one pair, as a check that is computed: the string
printed fits the 20-byte buffer with its NUL and is parsed back to the pair. -/
def round_trip_ok (impl : strtok_impl) (auth_val : wifi_manager_ap_auth_type_e → Nat)
    (crypto_val : wifi_manager_ap_crypto_type_e → Nat)
    (p : wifi_manager_ap_auth_type_e × wifi_manager_ap_crypto_type_e) : Bool :=
  match print_wifi_ap_profile auth_val crypto_val p.1 p.2 with
  | outcome.ok s =>
    decide (s.length + 1 ≤ 20) && decide (get_auth_type s = outcome.ok p.1)
      && decide (get_crypto_type impl s = outcome.ok p.2)
  | outcome.fault _ => false

end wm_test

/-! # Widgets (ui_widget.c)

Widget bodies are addressed by `Nat`, `UI_NULL` being 0. The type
`ui_widget_body_t` is declared in ui_widget_internal.h; the fields modelled
are the ones ui_widget.c reads or writes. -/

namespace ui_widget

/-- The null widget pointer `UI_NULL`. -/
def UI_NULL : Nat := 0

/-- A coordinate, `ui_coord_t`. -/
structure ui_coord_t where
  x : Int
  y : Int
  deriving DecidableEq, Repr

/-- A rectangle, `ui_rect_t`. -/
structure ui_rect_t where
  x : Int
  y : Int
  width : Int
  height : Int
  deriving DecidableEq, Repr

/-! ## Search by coordinate

`ui_widget_search_by_coord` only reads the widgets, so it is modelled on the
finite tree they form: a node carries the address of the body and the fields
the function reads, and its children in the order of the `children` vector. -/

/-- A finite widget tree. -/
inductive ui_widget_tree where
  | node (addr : Nat) (global_rect : ui_rect_t) (visible touchable : Bool)
      (children : List ui_widget_tree)
  deriving Repr

/-- The field `global_rect` of the root of a tree. -/
def ui_widget_tree.global_rect : ui_widget_tree → ui_rect_t
  | node _ r _ _ _ => r

/-- The field `visible` of the root of a tree. -/
def ui_widget_tree.visible : ui_widget_tree → Bool
  | node _ _ v _ _ => v

/-- The field `touchable` of the root of a tree. -/
def ui_widget_tree.touchable : ui_widget_tree → Bool
  | node _ _ _ t _ => t

/-- The children of the root of a tree. -/
def ui_widget_tree.children : ui_widget_tree → List ui_widget_tree
  | node _ _ _ _ cs => cs

mutual
/-- The function `ui_widget_search_by_coord(widget, coord)` on a non-NULL
widget: outside the rectangle or invisible it returns NULL; else `result`
starts as the widget itself if touchable and each child, in vector order,
replaces it by what the search of the child found, if that is touchable.
`inside` is `ui_coord_inside_rect`, declared outside the file. -/
def ui_widget_search_by_coord (inside : ui_coord_t → ui_rect_t → Bool) :
    ui_widget_tree → ui_coord_t → Option ui_widget_tree
  | ui_widget_tree.node addr rect visible touchable children, coord =>
    if inside coord rect && visible then
      search_children inside children coord
        (if touchable then some (ui_widget_tree.node addr rect visible touchable children)
         else none)
    else none
/-- The `vec_foreach` loop of `ui_widget_search_by_coord` over the children
left, `result` being the value found so far. -/
def search_children (inside : ui_coord_t → ui_rect_t → Bool) :
    List ui_widget_tree → ui_coord_t → Option ui_widget_tree → Option ui_widget_tree
  | [], _, result => result
  | child :: rest, coord, result =>
    search_children inside rest coord
      (match ui_widget_search_by_coord inside child coord with
       | some found => if found.touchable then some found else result
       | none => result)
end

/-- A widget is visible and contains the coordinate in its `global_rect`. -/
def under_coord (inside : ui_coord_t → ui_rect_t → Bool) (coord : ui_coord_t)
    (w : ui_widget_tree) : Bool :=
  inside coord w.global_rect && w.visible

mutual
/-- The widgets of a tree in pre-order (a parent before its children, the
children in vector order), each with its ancestors up to the searched root,
nearest first; `ancestors` are those of the root itself. -/
def preorder (ancestors : List ui_widget_tree) :
    ui_widget_tree → List (ui_widget_tree × List ui_widget_tree)
  | ui_widget_tree.node addr rect visible touchable children =>
    (ui_widget_tree.node addr rect visible touchable children, ancestors)
      :: preorder_children
          (ui_widget_tree.node addr rect visible touchable children :: ancestors) children
/-- The pre-order listing of a list of sibling subtrees. -/
def preorder_children (ancestors : List ui_widget_tree) :
    List ui_widget_tree → List (ui_widget_tree × List ui_widget_tree)
  | [] => []
  | child :: rest => preorder ancestors child ++ preorder_children ancestors rest
end

/-- A widget, given with its ancestors, can take the touch: it is touchable,
and it and each of its ancestors is visible and contains the coordinate. -/
def can_take_touch (inside : ui_coord_t → ui_rect_t → Bool) (coord : ui_coord_t)
    (p : ui_widget_tree × List ui_widget_tree) : Bool :=
  p.1.touchable && under_coord inside coord p.1 && p.2.all (under_coord inside coord)

/-- The top-most widget under a coordinate, as the claim words it: the last
widget in pre-order that can take the touch, if there is one. -/
def topmost_touchable (inside : ui_coord_t → ui_rect_t → Bool) (root : ui_widget_tree)
    (coord : ui_coord_t) : Option ui_widget_tree :=
  (((preorder [] root).filter (can_take_touch inside coord)).getLast?).map Prod.fst

/-! ## The public mutators

The state is the content of every widget body together with the requests
handed to `ui_request_callback` and not yet run. `ui_is_running`, `UI_ALLOC`
and `ui_request_callback` are declared outside the file: whether each
succeeds is given by the environment of the call. -/

/-- The error codes of `ui_error_t` the file returns. -/
inductive ui_error_t where
  | UI_OK
  | UI_NOT_RUNNING
  | UI_INVALID_PARAM
  | UI_NOT_ENOUGH_MEMORY
  | UI_OPERATION_FAIL
  deriving DecidableEq, Repr

/-- A C `float`, by its IEEE-754 single-precision bit pattern. -/
structure c_float where
  bits : Nat
  deriving DecidableEq, Repr

/-- The comparison `f <= 0` on a `float`: false for a NaN, else true for
either zero and for every value with the sign bit set. -/
def c_float.le_zero (f : c_float) : Bool :=
  let b := f.bits % 2 ^ 32
  let is_nan := decide ((b / 2 ^ 23) % 256 = 255) && decide (b % 2 ^ 23 ≠ 0)
  !is_nan && (decide (b % 2 ^ 31 = 0) || decide (2 ^ 31 ≤ b))

/-- The field `interval_info` of a widget body. -/
structure interval_info_t where
  timeout : Nat
  current : Nat
  deriving DecidableEq, Repr

/-- The widget body, `ui_widget_body_t`: the fields ui_widget.c uses. Pointers
to widgets and to callbacks are addresses, 0 for NULL. -/
structure ui_widget_body_t where
  visible : Bool
  touchable : Bool
  update_flag : Bool
  local_rect : ui_rect_t
  global_rect : ui_rect_t
  parent : Nat
  children : List Nat
  tick_cb : Nat
  interval_cb : Nat
  interval_info : interval_info_t
  tween_cb : Nat
  remove_cb : Nat
  pivot_x : Int
  pivot_y : Int
  scale_x : c_float
  scale_y : c_float
  degree : Int
  userdata : Nat
  deriving DecidableEq, Repr

/-- A request handed to `ui_request_callback(func, userdata)`: the callback
`func`, named by the constructor, with the content of the info block (or
the widget) passed as `userdata`. -/
inductive ui_request where
  | _ui_widget_set_visible_func (body : Nat) (visible : Bool)
  | _ui_widget_set_position_func (body : Nat) (x y : Int)
  | _ui_widget_set_size_func (body : Nat) (width height : Int)
  | _ui_widget_tween_moveto_func (body : Nat) (x y : Int) (duration type : Nat)
      (tween_finished_cb : Nat)
  | _ui_widget_destroy_func (body : Nat)
  | _ui_widget_add_child_func (body child : Nat) (x y : Int)
  | _ui_widget_remove_child_func (body child : Nat)
  | _ui_widget_remove_all_children_func (widget : Nat)
  | _ui_widget_set_pivot_point_func (body : Nat) (x y : Int)
  | _ui_widget_set_scale_func (body : Nat) (scale_x scale_y : c_float)
  | _ui_widget_set_rotation_func (body : Nat) (degree : Int)
  deriving DecidableEq, Repr

/-- The state the mutators act on: the widget bodies by address and the
queue of pending requests, oldest first. -/
structure ui_state where
  widgets : Nat → ui_widget_body_t
  requests : List ui_request

/-- What the collaborators answer during one call: `ui_is_running()`, whether
`UI_ALLOC` returns a block, whether `ui_request_callback` returns UI_OK. -/
structure ui_env where
  running : Bool
  alloc_ok : Bool
  request_ok : Bool
  deriving DecidableEq, Repr

/-- What can go wrong inside a mutator: a read from a block that `UI_FREE`
has released. -/
inductive ui_fault where
  | use_after_free
  deriving DecidableEq, Repr

/-- How a call of a mutator ends: it returns an error code, or it runs into a
fault and returns nothing; `st` is the state it leaves (at the fault: the
state reached when the fault occurs). -/
inductive ui_result where
  | returned (code : ui_error_t) (st : ui_state)
  | fault (f : ui_fault) (st : ui_state)

/-- The error code a call returned, if it returned. -/
def ui_result.code? : ui_result → Option ui_error_t
  | returned code _ => some code
  | fault _ _ => none

/-- The fault a call ran into, if it did. -/
def ui_result.fault? : ui_result → Option ui_fault
  | returned _ _ => none
  | fault f _ => some f

/-- The state a call leaves. -/
def ui_result.state : ui_result → ui_state
  | returned _ st => st
  | fault _ st => st

/-- The result of a mutator that cannot fault. -/
def ui_result.of (r : ui_error_t × ui_state) : ui_result := ui_result.returned r.1 r.2

/-- A store to fields of the body at address `widget`. -/
def ui_state.write (st : ui_state) (widget : Nat) (f : ui_widget_body_t → ui_widget_body_t) :
    ui_state :=
  { st with widgets := fun a => if a = widget then f (st.widgets a) else st.widgets a }

/-- The common shape of the mutators that only queue a request: the running
check, the parameter check, `UI_ALLOC` of the info block, then
`ui_request_callback`, on whose failure the block is freed. -/
def queue_request (env : ui_env) (st : ui_state) (invalid : Bool) (req : ui_request) :
    ui_error_t × ui_state :=
  if !env.running then (ui_error_t.UI_NOT_RUNNING, st)
  else if invalid then (ui_error_t.UI_INVALID_PARAM, st)
  else if !env.alloc_ok then (ui_error_t.UI_NOT_ENOUGH_MEMORY, st)
  else if !env.request_ok then (ui_error_t.UI_OPERATION_FAIL, st)
  else (ui_error_t.UI_OK, { st with requests := st.requests ++ [req] })

/-- The function `ui_widget_set_visible(widget, visible)`. -/
def ui_widget_set_visible (env : ui_env) (st : ui_state) (widget : Nat) (visible : Bool) :
    ui_error_t × ui_state :=
  queue_request env st (widget = UI_NULL) (ui_request._ui_widget_set_visible_func widget visible)

/-- The function `ui_widget_set_position(widget, x, y)`. -/
def ui_widget_set_position (env : ui_env) (st : ui_state) (widget : Nat) (x y : Int) :
    ui_error_t × ui_state :=
  queue_request env st (widget = UI_NULL) (ui_request._ui_widget_set_position_func widget x y)

/-- The function `ui_widget_set_size(widget, width, height)`. -/
def ui_widget_set_size (env : ui_env) (st : ui_state) (widget : Nat) (width height : Int) :
    ui_error_t × ui_state :=
  queue_request env st (widget = UI_NULL)
    (ui_request._ui_widget_set_size_func widget width height)

/-- The function `ui_widget_set_tick_callback(widget, tick_cb)`: it stores
into the body at once. -/
def ui_widget_set_tick_callback (env : ui_env) (st : ui_state) (widget : Nat) (tick_cb : Nat) :
    ui_error_t × ui_state :=
  if !env.running then (ui_error_t.UI_NOT_RUNNING, st)
  else if widget = UI_NULL then (ui_error_t.UI_INVALID_PARAM, st)
  else (ui_error_t.UI_OK, st.write widget (fun body => { body with tick_cb := tick_cb }))

/-- The function `ui_widget_set_interval_callback(widget, interval_cb,
timeout)`: it stores into the body at once. -/
def ui_widget_set_interval_callback (env : ui_env) (st : ui_state) (widget : Nat)
    (interval_cb : Nat) (timeout : Nat) : ui_error_t × ui_state :=
  if !env.running then (ui_error_t.UI_NOT_RUNNING, st)
  else if widget = UI_NULL then (ui_error_t.UI_INVALID_PARAM, st)
  else
    (ui_error_t.UI_OK,
      st.write widget (fun body =>
        { body with interval_cb := interval_cb, interval_info := ⟨timeout, 0⟩ }))

/-- The function `ui_widget_tween_moveto(widget, x, y, duration, type,
tween_finished_cb)`. -/
def ui_widget_tween_moveto (env : ui_env) (st : ui_state) (widget : Nat) (x y : Int)
    (duration type tween_finished_cb : Nat) : ui_error_t × ui_state :=
  queue_request env st (widget = UI_NULL)
    (ui_request._ui_widget_tween_moveto_func widget x y duration type tween_finished_cb)

/-- The function `ui_widget_destroy(widget)`: it clears `tick_cb` and
`interval_cb` of the body at once, then requests `_ui_widget_destroy_func`
with the body itself as userdata (nothing is allocated). -/
def ui_widget_destroy (env : ui_env) (st : ui_state) (widget : Nat) : ui_error_t × ui_state :=
  if !env.running then (ui_error_t.UI_NOT_RUNNING, st)
  else if widget = UI_NULL then (ui_error_t.UI_INVALID_PARAM, st)
  else
    let st := st.write widget (fun body => { body with tick_cb := 0, interval_cb := 0 })
    if !env.request_ok then (ui_error_t.UI_OPERATION_FAIL, st)
    else
      (ui_error_t.UI_OK,
        { st with requests := st.requests ++ [ui_request._ui_widget_destroy_func widget] })

/-- The function `ui_widget_add_child(widget, child, x, y)`: it sets
`info->child->parent = info->body` at once, before the request. When
`ui_request_callback` fails it calls `UI_FREE(info)` and then executes
`info->child->parent = UI_NULL`, which reads `info->child` from the block
just released: a fault, met with the parent of the child already set to
`widget`. -/
def ui_widget_add_child (env : ui_env) (st : ui_state) (widget child : Nat) (x y : Int) :
    ui_result :=
  if !env.running then ui_result.returned ui_error_t.UI_NOT_RUNNING st
  else if widget = UI_NULL ∨ child = UI_NULL then
    ui_result.returned ui_error_t.UI_INVALID_PARAM st
  else if !env.alloc_ok then ui_result.returned ui_error_t.UI_NOT_ENOUGH_MEMORY st
  else
    let st := st.write child (fun body => { body with parent := widget })
    if !env.request_ok then ui_result.fault ui_fault.use_after_free st
    else
      ui_result.returned ui_error_t.UI_OK
        { st with
          requests := st.requests ++ [ui_request._ui_widget_add_child_func widget child x y] }

/-- The function `ui_widget_remove_child(widget, child)`. -/
def ui_widget_remove_child (env : ui_env) (st : ui_state) (widget child : Nat) :
    ui_error_t × ui_state :=
  queue_request env st (widget = UI_NULL ∨ child = UI_NULL)
    (ui_request._ui_widget_remove_child_func widget child)

/-- The function `ui_widget_remove_all_children(widget)`: the widget itself is
the userdata, nothing is allocated. -/
def ui_widget_remove_all_children (env : ui_env) (st : ui_state) (widget : Nat) :
    ui_error_t × ui_state :=
  if !env.running then (ui_error_t.UI_NOT_RUNNING, st)
  else if widget = UI_NULL then (ui_error_t.UI_INVALID_PARAM, st)
  else if !env.request_ok then (ui_error_t.UI_OPERATION_FAIL, st)
  else
    (ui_error_t.UI_OK,
      { st with
        requests := st.requests ++ [ui_request._ui_widget_remove_all_children_func widget] })

/-- The function `ui_widget_set_pivot_point(widget, x, y)`. -/
def ui_widget_set_pivot_point (env : ui_env) (st : ui_state) (widget : Nat) (x y : Int) :
    ui_error_t × ui_state :=
  queue_request env st (widget = UI_NULL)
    (ui_request._ui_widget_set_pivot_point_func widget x y)

/-- The function `ui_widget_set_scale(widget, scale_x, scale_y)`. -/
def ui_widget_set_scale (env : ui_env) (st : ui_state) (widget : Nat)
    (scale_x scale_y : c_float) : ui_error_t × ui_state :=
  queue_request env st (widget = UI_NULL ∨ scale_x.le_zero = true ∨ scale_y.le_zero = true)
    (ui_request._ui_widget_set_scale_func widget scale_x scale_y)

/-- The function `ui_widget_set_rotation(widget, degree)`. -/
def ui_widget_set_rotation (env : ui_env) (st : ui_state) (widget : Nat) (degree : Int) :
    ui_error_t × ui_state :=
  queue_request env st (widget = UI_NULL)
    (ui_request._ui_widget_set_rotation_func widget degree)

/-- A call of one of the thirteen public mutators, with its arguments. -/
inductive ui_call where
  | set_visible (widget : Nat) (visible : Bool)
  | set_position (widget : Nat) (x y : Int)
  | set_size (widget : Nat) (width height : Int)
  | set_tick_callback (widget : Nat) (tick_cb : Nat)
  | set_interval_callback (widget : Nat) (interval_cb timeout : Nat)
  | tween_moveto (widget : Nat) (x y : Int) (duration type tween_finished_cb : Nat)
  | destroy (widget : Nat)
  | add_child (widget child : Nat) (x y : Int)
  | remove_child (widget child : Nat)
  | remove_all_children (widget : Nat)
  | set_pivot_point (widget : Nat) (x y : Int)
  | set_scale (widget : Nat) (scale_x scale_y : c_float)
  | set_rotation (widget : Nat) (degree : Int)
  deriving DecidableEq, Repr

/-- The mutator a call names, applied. -/
def ui_call.run (env : ui_env) (st : ui_state) : ui_call → ui_result
  | set_visible w v => ui_result.of (ui_widget_set_visible env st w v)
  | set_position w x y => ui_result.of (ui_widget_set_position env st w x y)
  | set_size w width height => ui_result.of (ui_widget_set_size env st w width height)
  | set_tick_callback w cb => ui_result.of (ui_widget_set_tick_callback env st w cb)
  | set_interval_callback w cb t =>
    ui_result.of (ui_widget_set_interval_callback env st w cb t)
  | tween_moveto w x y d t cb => ui_result.of (ui_widget_tween_moveto env st w x y d t cb)
  | destroy w => ui_result.of (ui_widget_destroy env st w)
  | add_child w c x y => ui_widget_add_child env st w c x y
  | remove_child w c => ui_result.of (ui_widget_remove_child env st w c)
  | remove_all_children w => ui_result.of (ui_widget_remove_all_children env st w)
  | set_pivot_point w x y => ui_result.of (ui_widget_set_pivot_point env st w x y)
  | set_scale w sx sy => ui_result.of (ui_widget_set_scale env st w sx sy)
  | set_rotation w d => ui_result.of (ui_widget_set_rotation env st w d)

/-- The mutators that write to a widget body in the call itself:
`ui_widget_set_tick_callback`, `ui_widget_set_interval_callback`,
`ui_widget_destroy` and `ui_widget_add_child`. -/
def ui_call.writes_at_once : ui_call → Bool
  | set_tick_callback _ _ => true
  | set_interval_callback _ _ _ => true
  | destroy _ => true
  | add_child _ _ _ _ => true
  | _ => false

/-- The request a call queues when it returns UI_OK, if it queues one. -/
def ui_call.request : ui_call → Option ui_request
  | set_visible w v => some (ui_request._ui_widget_set_visible_func w v)
  | set_position w x y => some (ui_request._ui_widget_set_position_func w x y)
  | set_size w width height => some (ui_request._ui_widget_set_size_func w width height)
  | set_tick_callback _ _ => none
  | set_interval_callback _ _ _ => none
  | tween_moveto w x y d t cb => some (ui_request._ui_widget_tween_moveto_func w x y d t cb)
  | destroy w => some (ui_request._ui_widget_destroy_func w)
  | add_child w c x y => some (ui_request._ui_widget_add_child_func w c x y)
  | remove_child w c => some (ui_request._ui_widget_remove_child_func w c)
  | remove_all_children w => some (ui_request._ui_widget_remove_all_children_func w)
  | set_pivot_point w x y => some (ui_request._ui_widget_set_pivot_point_func w x y)
  | set_scale w sx sy => some (ui_request._ui_widget_set_scale_func w sx sy)
  | set_rotation w d => some (ui_request._ui_widget_set_rotation_func w d)

/-- A widget body as `memset(body, 0, sizeof(ui_widget_body_t))` leaves it. -/
def zero_body : ui_widget_body_t :=
  { visible := false, touchable := false, update_flag := false
    local_rect := ⟨0, 0, 0, 0⟩, global_rect := ⟨0, 0, 0, 0⟩
    parent := UI_NULL, children := []
    tick_cb := 0, interval_cb := 0, interval_info := ⟨0, 0⟩
    tween_cb := 0, remove_cb := 0
    pivot_x := 0, pivot_y := 0, scale_x := ⟨0⟩, scale_y := ⟨0⟩
    degree := 0, userdata := 0 }

/-! ## The work queue

`g_widget_body_queue` is a static of type `ui_widget_body_queue_t`, which
ui_widget_internal.h declares: an array `queue` of body pointers, whose
length is a constant of that header, and the indices `start` and `end`. The
queue functions are modelled with the static passed in and out; an access to
`queue` outside the array is a fault (none). -/

/-- The type `ui_widget_body_queue_t`; the field `end` is written `end_`. The
length of the list `queue` is the length of the array. -/
structure ui_widget_body_queue_t where
  start : Nat
  end_ : Nat
  queue : List Nat
  deriving DecidableEq, Repr

/-- The function `ui_widget_queue_init()`. -/
def ui_widget_queue_init (g : ui_widget_body_queue_t) : ui_widget_body_queue_t :=
  { g with start := 0, end_ := 0 }

/-- The function `ui_widget_is_queue_empty()`. -/
def ui_widget_is_queue_empty (g : ui_widget_body_queue_t) : Bool :=
  if g.start = g.end_ then true else false

/-- The function `ui_widget_queue_enqueue(body)`: the store
`queue[end] = body`, then `end++`. -/
def ui_widget_queue_enqueue (g : ui_widget_body_queue_t) (body : Nat) :
    Option ui_widget_body_queue_t :=
  if g.end_ < g.queue.length then
    some { g with queue := g.queue.set g.end_ body, end_ := g.end_ + 1 }
  else none

/-- The function `ui_widget_queue_dequeue()`: `curr_point = start`, `start++`,
and the read `queue[curr_point]`; the result is the body read and the static
afterwards. -/
def ui_widget_queue_dequeue (g : ui_widget_body_queue_t) :
    Option (Nat × ui_widget_body_queue_t) :=
  match g.queue[g.start]? with
  | some body => some (body, { g with start := g.start + 1 })
  | none => none

/-- A call of the queue: an enqueue of a body, or a dequeue. -/
inductive queue_op where
  | enqueue (body : Nat)
  | dequeue
  deriving DecidableEq, Repr

/-- One call on the static; `out` collects the bodies the dequeues returned,
in order. -/
def queue_step (s : ui_widget_body_queue_t × List Nat) :
    queue_op → Option (ui_widget_body_queue_t × List Nat)
  | queue_op.enqueue body => (ui_widget_queue_enqueue s.1 body).map (fun g => (g, s.2))
  | queue_op.dequeue => (ui_widget_queue_dequeue s.1).map (fun r => (r.2, s.2 ++ [r.1]))

/-- A sequence of calls, one after the other. -/
def queue_run (s : ui_widget_body_queue_t × List Nat) :
    List queue_op → Option (ui_widget_body_queue_t × List Nat)
  | [] => some s
  | op :: rest => (queue_step s op).bind (fun s1 => queue_run s1 rest)

/-- The bodies a sequence of calls enqueues, in order. -/
def enqueued : List queue_op → List Nat
  | [] => []
  | queue_op.enqueue body :: rest => body :: enqueued rest
  | queue_op.dequeue :: rest => enqueued rest

/-- The number of dequeues in a sequence of calls. -/
def dequeues (ops : List queue_op) : Nat := ops.count queue_op.dequeue
/-! ## Destruction

`_ui_widget_destroy_recur` runs on the widget bodies in memory. A body that
`UI_FREE` has released must not be accessed again: an access to a freed body
is a fault, as is an access to `queue` outside the array. `vec_remove`
(vec/vec.h) removes the first occurrence of the value from the vector. The
callback `remove_cb` is user code; its call is recorded. -/

/-- What `_ui_widget_destroy_recur` does to a widget, in the order of the
statements of the loop body. -/
inductive destroy_event where
  | remove_cb (widget cb : Nat)
  | vec_remove (parent widget : Nat)
  | ui_widget_deinit (widget : Nat)
  | UI_FREE (widget : Nat)
  deriving DecidableEq, Repr

/-- The ways the destruction can go wrong. -/
inductive destroy_fault where
  | use_after_free (body : Nat)
  | queue_out_of_bounds
  deriving DecidableEq, Repr

/-- The state `_ui_widget_destroy_recur` acts on: the widget bodies by
address, the addresses released by `UI_FREE`, the static
`g_widget_body_queue`, and the record of what has been done, oldest first. -/
structure destroy_state where
  widgets : Nat → ui_widget_body_t
  freed : List Nat
  g : ui_widget_body_queue_t
  log : List destroy_event

/-- How a run of the loop ends: the queue ran empty, a fault occurred, or the
iterations granted were used up with bodies still queued. -/
inductive destroy_result where
  | done (st : destroy_state)
  | fault (f : destroy_fault) (st : destroy_state)
  | out_of_fuel (st : destroy_state)

/-- The fault of a run, if it ended in one. -/
def destroy_result.fault? : destroy_result → Option destroy_fault
  | done _ => none
  | fault f _ => some f
  | out_of_fuel _ => none

/-- Whether the run ended with the queue empty. -/
def destroy_result.finished : destroy_result → Bool
  | done _ => true
  | _ => false

/-- The state a run ended in. -/
def destroy_result.state : destroy_result → destroy_state
  | done st => st
  | fault _ st => st
  | out_of_fuel st => st

/-- The loop `vec_foreach(&curr_widget->children, child, iter)
ui_widget_queue_enqueue(child);` over the children left. -/
def enqueue_children (g : ui_widget_body_queue_t) : List Nat → Option ui_widget_body_queue_t
  | [] => some g
  | child :: rest => (ui_widget_queue_enqueue g child).bind (fun g1 => enqueue_children g1 rest)

/-- The body of the `while` loop of `_ui_widget_destroy_recur` on the body
`curr_widget` just dequeued (not NULL): the call of `remove_cb` if set,
`vec_remove` on the children of the parent if the parent is set, the
enqueueing of the children, `ui_widget_deinit` (which releases the children
vector) and `UI_FREE`. -/
def destroy_body (st : destroy_state) (curr_widget : Nat) : destroy_result :=
  if curr_widget ∈ st.freed then
    destroy_result.fault (destroy_fault.use_after_free curr_widget) st
  else
    let body := st.widgets curr_widget
    let st :=
      if body.remove_cb ≠ 0 then
        { st with log := st.log ++ [destroy_event.remove_cb curr_widget body.remove_cb] }
      else st
    if body.parent ≠ UI_NULL ∧ body.parent ∈ st.freed then
      destroy_result.fault (destroy_fault.use_after_free body.parent) st
    else
      let st :=
        if body.parent ≠ UI_NULL then
          { st with
            widgets := fun a =>
              if a = body.parent then
                { st.widgets a with children := (st.widgets a).children.erase curr_widget }
              else st.widgets a
            log := st.log ++ [destroy_event.vec_remove body.parent curr_widget] }
        else st
      match enqueue_children st.g (st.widgets curr_widget).children with
      | none => destroy_result.fault destroy_fault.queue_out_of_bounds st
      | some g =>
        destroy_result.done
          { widgets := fun a =>
              if a = curr_widget then { st.widgets a with children := [] } else st.widgets a
            freed := curr_widget :: st.freed
            g := g
            log := st.log ++ [destroy_event.ui_widget_deinit curr_widget,
              destroy_event.UI_FREE curr_widget] }

/-- The `while (!ui_widget_is_queue_empty())` loop of
`_ui_widget_destroy_recur`, for at most `fuel` iterations. -/
def destroy_loop : Nat → destroy_state → destroy_result
  | 0, st => if ui_widget_is_queue_empty st.g then destroy_result.done st
    else destroy_result.out_of_fuel st
  | fuel + 1, st =>
    if ui_widget_is_queue_empty st.g then destroy_result.done st
    else
      match ui_widget_queue_dequeue st.g with
      | none => destroy_result.fault destroy_fault.queue_out_of_bounds st
      | some (curr_widget, g) =>
        if curr_widget = UI_NULL then destroy_loop fuel { st with g := g }
        else
          match destroy_body { st with g := g } curr_widget with
          | destroy_result.done st1 => destroy_loop fuel st1
          | r => r

/-- The function `_ui_widget_destroy_recur(widget)`, its loop run for at most
`fuel` iterations. -/
def _ui_widget_destroy_recur (fuel : Nat) (st : destroy_state) (widget : Nat) : destroy_result :=
  if widget = UI_NULL then destroy_result.done st
  else
    match ui_widget_queue_enqueue (ui_widget_queue_init st.g) widget with
    | none => destroy_result.fault destroy_fault.queue_out_of_bounds st
    | some g => destroy_loop fuel { st with g := g }

/-- A widget with one child: body 1 has the child 2, whose parent it is. -/
def parent_with_child (a : Nat) : ui_widget_body_t :=
  if a = 1 then { zero_body with children := [2] }
  else if a = 2 then { zero_body with parent := 1 }
  else zero_body
/-! ## Position propagation

`ui_widget_update_position_info` runs on the widget bodies in memory and on
the redraw list of the window. `ui_window_add_redraw_list` is declared
outside the file: whether it accepts a region, given the regions it holds, is
the parameter `accepts`; a region it accepts is appended. -/

/-- The value of an `int32_t` expression: the result wraps around at 32
bits. -/
def to_int32 (v : Int) : Int := (v + 2 ^ 31) % 2 ^ 32 - 2 ^ 31

/-- The state `ui_widget_update_position_info` acts on: the widget bodies by
address and the regions of the redraw list. -/
structure position_state where
  widgets : Nat → ui_widget_body_t
  redraw_list : List ui_rect_t

/-- The call `ui_window_add_redraw_list(rect)`: the error code and the list
afterwards. -/
def ui_window_add_redraw_list (accepts : List ui_rect_t → ui_rect_t → Bool)
    (st : position_state) (rect : ui_rect_t) : ui_error_t × position_state :=
  if accepts st.redraw_list rect then
    (ui_error_t.UI_OK, { st with redraw_list := st.redraw_list ++ [rect] })
  else (ui_error_t.UI_OPERATION_FAIL, st)

/-- The stores of `ui_widget_update_position_info` to `widget->global_rect`:
width and height are the local ones, x and y the local ones plus those of
the global rectangle of the parent, if there is a parent. -/
def update_global_rect (st : position_state) (widget : Nat) : position_state :=
  let body := st.widgets widget
  let x := if body.parent ≠ UI_NULL then
      to_int32 (body.local_rect.x + (st.widgets body.parent).global_rect.x)
    else body.local_rect.x
  let y := if body.parent ≠ UI_NULL then
      to_int32 (body.local_rect.y + (st.widgets body.parent).global_rect.y)
    else body.local_rect.y
  { st with
    widgets := fun a =>
      if a = widget then
        { st.widgets a with
          global_rect := ⟨x, y, body.local_rect.width, body.local_rect.height⟩ }
      else st.widgets a }

/-- The loop `vec_foreach(&widget->children, child, iter)
ui_widget_update_position_info(child);` over the children left, `call` being
the function called: what a call returns is not looked at. -/
def update_children (call : position_state → Nat → Option (ui_error_t × position_state)) :
    position_state → List Nat → Option position_state
  | st, [] => some st
  | st, child :: rest =>
    match call st child with
    | none => none
    | some (_, st1) => update_children call st1 rest

/-- The function `ui_widget_update_position_info(widget)`, with calls nested
at most `fuel` deep (none when that does not suffice): UI_INVALID_PARAM for
NULL; the old region is added to the redraw list, the global rectangle is
stored, the new region is added (a failure of either returns
UI_OPERATION_FAIL at once); then the function calls itself on each child and
returns UI_OK. -/
def ui_widget_update_position_info (accepts : List ui_rect_t → ui_rect_t → Bool) :
    Nat → position_state → Nat → Option (ui_error_t × position_state)
  | 0, _, _ => none
  | fuel + 1, st, widget =>
    if widget = UI_NULL then some (ui_error_t.UI_INVALID_PARAM, st)
    else
      match ui_window_add_redraw_list accepts st (st.widgets widget).global_rect with
      | (ui_error_t.UI_OK, st1) =>
        match ui_window_add_redraw_list accepts (update_global_rect st1 widget)
            ((update_global_rect st1 widget).widgets widget).global_rect with
        | (ui_error_t.UI_OK, st2) =>
          (update_children (ui_widget_update_position_info accepts fuel) st2
            (st2.widgets widget).children).map (fun st3 => (ui_error_t.UI_OK, st3))
        | (_, st2) => some (ui_error_t.UI_OPERATION_FAIL, st2)
      | (_, st1) => some (ui_error_t.UI_OPERATION_FAIL, st1)

/-- The global rectangle of a widget agrees with its local one: same width
and height, and x and y the local ones plus those of the global rectangle of
the parent (the local ones alone without parent). -/
def global_rect_consistent (widgets : Nat → ui_widget_body_t) (widget : Nat) : Prop :=
  (widgets widget).global_rect.width = (widgets widget).local_rect.width
    ∧ (widgets widget).global_rect.height = (widgets widget).local_rect.height
    ∧ (widgets widget).global_rect.x
        = (widgets widget).local_rect.x
          + (if (widgets widget).parent ≠ UI_NULL then
              (widgets (widgets widget).parent).global_rect.x else 0)
    ∧ (widgets widget).global_rect.y
        = (widgets widget).local_rect.y
          + (if (widgets widget).parent ≠ UI_NULL then
              (widgets (widgets widget).parent).global_rect.y else 0)

instance (widgets : Nat → ui_widget_body_t) (widget : Nat) :
    Decidable (global_rect_consistent widgets widget) :=
  inferInstanceAs (Decidable (_ ∧ _))

/-- A widget at (10, 20) of size 100 x 50 with one child at (1, 2) of size 30
x 40; no global rectangle has been computed yet. -/
def placed_parent_with_child (a : Nat) : ui_widget_body_t :=
  if a = 1 then { zero_body with local_rect := ⟨10, 20, 100, 50⟩, children := [2] }
  else if a = 2 then { zero_body with local_rect := ⟨1, 2, 30, 40⟩, parent := 1 }
  else zero_body

end ui_widget

/-! # Theorems -/

namespace rtw_cmd

/-! ## The registry -/

theorem MAX_H2CCMD_eq : MAX_H2CCMD = 64 := by decide

theorem rtw_cmd_callback_length (p2p : Bool) :
    (rtw_cmd_callback p2p).length = if p2p then 64 else 63 := by
  cases p2p <;> decide

theorem rtw_cmd_callback_codes (p2p : Bool) :
    (rtw_cmd_callback p2p).map _cmd_callback.cmd_code
      = List.range (rtw_cmd_callback p2p).length := by
  cases p2p <;> decide

/-- C1, as stated, fails: in the build without CONFIG_P2P_NEW the table has
63 entries, not MAX_H2CCMD = 64, and the defined code _P2P (63) has no entry. -/
theorem C1_counterexample_no_p2p_entry :
    (rtw_cmd_callback false).length ≠ MAX_H2CCMD
      ∧ rtw_h2c_cmd._P2P_CMD_.val < MAX_H2CCMD
      ∧ (rtw_cmd_callback false)[rtw_h2c_cmd._P2P_CMD_.val]? = none := by
  decide

/-- C1, amended: with CONFIG_P2P_NEW the table has exactly MAX_H2CCMD
entries, without it MAX_H2CCMD - 1; in either build a code c has a table
entry exactly when c < MAX_H2CCMD and, in the build without CONFIG_P2P_NEW,
c is not _P2P. -/
theorem C1_registry_complete_up_to_p2p (p2p : Bool) (c : Nat) :
    (rtw_cmd_callback p2p).length = (if p2p then MAX_H2CCMD else MAX_H2CCMD - 1)
      ∧ ((∃ e, (rtw_cmd_callback p2p)[c]? = some e)
          ↔ (c < MAX_H2CCMD ∧ (p2p = true ∨ c ≠ rtw_h2c_cmd._P2P_CMD_.val))) := by
  have hv : rtw_h2c_cmd._P2P_CMD_.val = 63 := by decide
  have hlen := rtw_cmd_callback_length p2p
  rw [MAX_H2CCMD_eq, hv]
  refine ⟨by cases p2p <;> simp [hlen], ?_⟩
  constructor
  · rintro ⟨e, he⟩
    have hlt : c < (rtw_cmd_callback p2p).length := (List.getElem?_eq_some.mp he).1
    cases p2p <;> simp at hlen <;> simp <;> omega
  · rintro ⟨hc, hp⟩
    have hlt : c < (rtw_cmd_callback p2p).length := by
      cases p2p <;> simp at hlen hp <;> omega
    exact ⟨(rtw_cmd_callback p2p)[c], List.getElem?_eq_getElem hlt⟩

/-- C2: the values of enum rtw_h2c_cmd are the consecutive integers from 0
(first enumerator) to MAX_H2CCMD, each taken by exactly one enumerator, and
in either build the entry at position i of rtw_cmd_callback has cmd_code i,
so direct indexing by a code returns the entry registered for that code. -/
theorem C2_direct_indexing_sound (p2p : Bool) :
    rtw_h2c_cmd._Read_MACREG_CMD_.val = 0
      ∧ (∀ c d : rtw_h2c_cmd, c.val = d.val → c = d)
      ∧ (∀ n : Nat, (∃ c : rtw_h2c_cmd, c.val = n) ↔ n ≤ MAX_H2CCMD)
      ∧ (∀ (i : Nat) (e : _cmd_callback),
          (rtw_cmd_callback p2p)[i]? = some e → e.cmd_code = i) := by
  refine ⟨by decide, by decide, ?_, ?_⟩
  · intro n
    rw [MAX_H2CCMD_eq]
    constructor
    · rintro ⟨c, rfl⟩
      revert c
      decide
    · intro hn
      have key : ∀ m, m ≤ 64 → ∃ c : rtw_h2c_cmd, c.val = m := by decide
      exact key n hn
  · intro i e he
    have hcodes := rtw_cmd_callback_codes p2p
    have h1 : ((rtw_cmd_callback p2p).map _cmd_callback.cmd_code)[i]? = some e.cmd_code := by
      rw [List.getElem?_map, he]; rfl
    rw [hcodes] at h1
    have hlt : i < (rtw_cmd_callback p2p).length := (List.getElem?_eq_some.mp he).1
    rw [List.getElem?_range hlt] at h1
    exact (Option.some.inj h1).symm

/-- C3, as stated, fails: in the build with every entry present, the entries
for key installation by _SetKey and for the power-state commands _SetPwrMode
and _SetStaPwrState hold NULL. -/
theorem C3_counterexample_null_callbacks :
    (rtw_cmd_callback true)[rtw_h2c_cmd._SetKey_CMD_.val]?
        = some ⟨rtw_h2c_cmd._SetKey_CMD_.val, none⟩
      ∧ (rtw_cmd_callback true)[rtw_h2c_cmd._SetPwrMode_CMD_.val]?
        = some ⟨rtw_h2c_cmd._SetPwrMode_CMD_.val, none⟩
      ∧ (rtw_cmd_callback true)[rtw_h2c_cmd._SetStaPwrState_CMD_.val]?
        = some ⟨rtw_h2c_cmd._SetStaPwrState_CMD_.val, none⟩ := by
  decide

/-- C3, amended: in either build the registry holds a completion callback
for join (_JoinBss), disassociate (_DisConnect), site-survey (_SiteSurvey)
and station-key installation (_SetStaKey); the entries of _SetKey,
_SetPwrMode and _SetStaPwrState exist and hold NULL. -/
theorem C3_registered_command_classes (p2p : Bool) :
    (rtw_cmd_callback p2p)[rtw_h2c_cmd._JoinBss_CMD_.val]?
        = some ⟨rtw_h2c_cmd._JoinBss_CMD_.val, some cmd_callback_fn.rtw_joinbss_cmd_callback⟩
      ∧ (rtw_cmd_callback p2p)[rtw_h2c_cmd._DisConnect_CMD_.val]?
        = some ⟨rtw_h2c_cmd._DisConnect_CMD_.val, some cmd_callback_fn.rtw_disassoc_cmd_callback⟩
      ∧ (rtw_cmd_callback p2p)[rtw_h2c_cmd._SiteSurvey_CMD_.val]?
        = some ⟨rtw_h2c_cmd._SiteSurvey_CMD_.val, some cmd_callback_fn.rtw_survey_cmd_callback⟩
      ∧ (rtw_cmd_callback p2p)[rtw_h2c_cmd._SetStaKey_CMD_.val]?
        = some ⟨rtw_h2c_cmd._SetStaKey_CMD_.val, some cmd_callback_fn.rtw_setstaKey_cmdrsp_callback⟩
      ∧ (rtw_cmd_callback p2p)[rtw_h2c_cmd._SetKey_CMD_.val]?
        = some ⟨rtw_h2c_cmd._SetKey_CMD_.val, none⟩
      ∧ (rtw_cmd_callback p2p)[rtw_h2c_cmd._SetPwrMode_CMD_.val]?
        = some ⟨rtw_h2c_cmd._SetPwrMode_CMD_.val, none⟩
      ∧ (rtw_cmd_callback p2p)[rtw_h2c_cmd._SetStaPwrState_CMD_.val]?
        = some ⟨rtw_h2c_cmd._SetStaPwrState_CMD_.val, none⟩ := by
  cases p2p <;> decide

/-- C4: a code that is not an index of rtw_cmd_callback (code at or beyond
the number of entries) looks up to no callback, and a code inside the table
looks up to exactly the optional callback stored at that index. -/
theorem C4_lookup_total (p2p : Bool) (code : Nat) :
    ((rtw_cmd_callback p2p).length ≤ code → lookup p2p code = none)
      ∧ (∀ h : code < (rtw_cmd_callback p2p).length,
          lookup p2p code = ((rtw_cmd_callback p2p).get ⟨code, h⟩).callback) := by
  constructor
  · intro h
    simp [lookup, List.getElem?_eq_none h]
  · intro h
    simp [lookup, List.getElem?_eq_getElem h]

/-- C4 at concrete codes: 64 and 1000 are outside the 63-entry table and miss;
14 is inside and yields the join callback; 0 is inside and yields its stored
NULL. -/
theorem C4_lookup_total_witness :
    lookup false 63 = none ∧ lookup true 64 = none ∧ lookup false 1000 = none
      ∧ lookup false 14 = some cmd_callback_fn.rtw_joinbss_cmd_callback
      ∧ lookup true 0 = none := by
  refine ⟨(C4_lookup_total false 63).1 (by decide), (C4_lookup_total true 64).1 (by decide),
    (C4_lookup_total false 1000).1 (by decide), ?_, ?_⟩
  · rw [(C4_lookup_total false 14).2 (by decide)]; decide
  · rw [(C4_lookup_total true 0).2 (by decide)]; decide

/-! ## The constructor -/

theorem rtw_h2c_cmd_val_lt_u16 (c : rtw_h2c_cmd) : c.val < 2 ^ 16 := by
  revert c; decide

/-- C5: for every command object, parameter pointer and command code, the
constructor yields an object whose cmdcode is the code, whose parmbuf is
pparm, whose cmdsz is sizeof(*pparm), whose rsp is NULL with rspsz 0, and
whose list link is an empty list head (linked to itself). The size of the
parameter structure is taken to fit the u32 it is stored in. -/
theorem C5_constructor_fields (pcmd : Nat) (obj : cmd_obj) (pparm : parm_ptr)
    (code : rtw_h2c_cmd) (hsz : pparm.sizeof < 2 ^ 32) :
    (init_h2fwcmd_w_parm_no_rsp pcmd obj pparm code.val).cmdcode = code.val
      ∧ (init_h2fwcmd_w_parm_no_rsp pcmd obj pparm code.val).parmbuf = pparm.addr
      ∧ (init_h2fwcmd_w_parm_no_rsp pcmd obj pparm code.val).cmdsz = pparm.sizeof
      ∧ (init_h2fwcmd_w_parm_no_rsp pcmd obj pparm code.val).rsp = NULL
      ∧ (init_h2fwcmd_w_parm_no_rsp pcmd obj pparm code.val).rspsz = 0
      ∧ list_is_empty_head pcmd (init_h2fwcmd_w_parm_no_rsp pcmd obj pparm code.val).list := by
  have hc := rtw_h2c_cmd_val_lt_u16 code
  refine ⟨?_, rfl, ?_, rfl, rfl, rfl, rfl⟩
  · show code.val % 2 ^ 16 = code.val
    exact Nat.mod_eq_of_lt hc
  · show pparm.sizeof % 2 ^ 32 = pparm.sizeof
    exact Nat.mod_eq_of_lt hsz

/-- C5 at a concrete call: a join command built in a used object at address
4096 (stale response pointer, stale links) over a 64-byte parameter block. -/
theorem C5_constructor_fields_witness :
    (64 : Nat) < 2 ^ 32
      ∧ init_h2fwcmd_w_parm_no_rsp 4096 ⟨7, 3, 1, 8, 9, 600, 12, ⟨5000, 6000⟩⟩ ⟨8192, 64⟩ 14
          = ⟨7, 14, 1, 8192, 64, 0, 0, ⟨4096, 4096⟩⟩
      ∧ list_is_empty_head 4096
          (init_h2fwcmd_w_parm_no_rsp 4096 ⟨7, 3, 1, 8, 9, 600, 12, ⟨5000, 6000⟩⟩ ⟨8192, 64⟩
            rtw_h2c_cmd._JoinBss_CMD_.val).list :=
  ⟨by decide, by decide,
    (C5_constructor_fields 4096 ⟨7, 3, 1, 8, 9, 600, 12, ⟨5000, 6000⟩⟩ ⟨8192, 64⟩
      rtw_h2c_cmd._JoinBss_CMD_ (by decide)).2.2.2.2.2⟩

/-! ## The command queue -/

theorem enqueue_all_spec (p : cmd_priv) (xs : List Nat) :
    (enqueue_all p xs).1 = List.replicate xs.length _SUCCESS
      ∧ (enqueue_all p xs).2 = { p with cmd_queue := p.cmd_queue ++ xs } := by
  induction xs generalizing p with
  | nil => simp [enqueue_all]
  | cons x xs ih =>
    obtain ⟨h1, h2⟩ := ih (rtw_enqueue_cmd p x).2
    simp only [enqueue_all, h1, h2]
    simp [rtw_enqueue_cmd, List.replicate_succ]

theorem dequeue_n_spec (p : cmd_priv) (n : Nat) :
    (dequeue_n p n).1
        = (p.cmd_queue.take n).map some ++ List.replicate (n - p.cmd_queue.length) none
      ∧ (dequeue_n p n).2 = { p with cmd_queue := p.cmd_queue.drop n } := by
  induction n generalizing p with
  | zero => simp [dequeue_n]
  | succ n ih =>
    obtain ⟨q, r, a⟩ := p
    cases q with
    | nil =>
      obtain ⟨h1, h2⟩ := ih ⟨[], r, a⟩
      simp only [dequeue_n, rtw_dequeue_cmd, h1, h2]
      simp [List.replicate_succ]
    | cons x q =>
      obtain ⟨h1, h2⟩ := ih ⟨q, r, a⟩
      simp only [dequeue_n, rtw_dequeue_cmd, h1, h2]
      simp

/-- C7: rtw_enqueue_cmd appends at the tail and always returns success;
rtw_dequeue_cmd returns and removes the head, and returns none on an empty
queue, leaving it empty; hence, for every queue state and every sequence of
objects enqueued onto it, successive dequeues return first the objects that
were pending and then the enqueued ones, each in the order of its enqueue,
and none from then on. -/
theorem C7_queue_fifo (p : cmd_priv) (obj : Nat) (objs : List Nat) (k : Nat) :
    rtw_enqueue_cmd p obj = (_SUCCESS, { p with cmd_queue := p.cmd_queue ++ [obj] })
      ∧ rtw_dequeue_cmd { p with cmd_queue := obj :: objs }
          = (some obj, { p with cmd_queue := objs })
      ∧ rtw_dequeue_cmd { p with cmd_queue := [] } = (none, { p with cmd_queue := [] })
      ∧ (enqueue_all p objs).1 = List.replicate objs.length _SUCCESS
      ∧ (dequeue_n (enqueue_all p objs).2 ((p.cmd_queue ++ objs).length + k)).1
          = (p.cmd_queue ++ objs).map some ++ List.replicate k none := by
  refine ⟨rfl, rfl, rfl, (enqueue_all_spec p objs).1, ?_⟩
  rw [(dequeue_n_spec _ _).1, (enqueue_all_spec p objs).2]
  have hle : (p.cmd_queue ++ objs).length ≤ (p.cmd_queue ++ objs).length + k :=
    Nat.le_add_right _ _
  simp only [List.take_of_length_le hle, Nat.add_sub_cancel_left]

/-! ## The command subsystem: the invariant -/

theorem range_count_le_one (a : Nat) : (List.range' 1 FREE_CMDOBJ_SZ).count a ≤ 1 :=
  List.nodup_iff_count_le_one.mp (List.nodup_range' 1 FREE_CMDOBJ_SZ) a

theorem range_count_eq (a : Nat) :
    (List.range' 1 FREE_CMDOBJ_SZ).count a
      = if 1 ≤ a ∧ a ≤ FREE_CMDOBJ_SZ then 1 else 0 := by
  rw [List.count_eq_of_nodup (List.nodup_range' 1 FREE_CMDOBJ_SZ)]
  simp only [List.mem_range', FREE_CMDOBJ_SZ]
  have : (∃ i, i < 128 ∧ a = 1 + 1 * i) ↔ (1 ≤ a ∧ a ≤ 128) := by
    constructor
    · rintro ⟨i, hi, rfl⟩; omega
    · rintro ⟨h1, h2⟩; exact ⟨a - 1, by omega, by omega⟩
  simp only [this]

theorem cmd_inv_init (p2p : Bool) (padapter : Nat) :
    cmd_inv (rtw_init_cmd_priv p2p padapter) := by
  refine ⟨?_, rfl, rfl⟩
  intro a
  simp [owners, rtw_init_cmd_priv]

theorem request_of_congr (m m2 : Nat → cmd_obj) (l : List Nat)
    (h : ∀ a ∈ l, request_of m2 a = request_of m a) :
    l.map (request_of m2) = l.map (request_of m) :=
  List.map_congr_left h

theorem allocate_some (s s1 : cmd_subsys) (pcmd : Nat) (h : allocate s = some (pcmd, s1)) :
    s1.CONFIG_P2P_NEW = s.CONFIG_P2P_NEW ∧ s1.cmdpriv = s.cmdpriv
      ∧ s1.executing = s.executing ∧ s1.notified = s.notified ∧ s1.mem = s.mem
      ∧ s1.submitted = s.submitted ∧ s1.processed = s.processed
      ∧ s1.callbacks = s.callbacks
      ∧ ∀ a, s.pool.count a + s.freed.count a
          = s1.pool.count a + s1.freed.count a + (if a = pcmd then 1 else 0) := by
  unfold allocate at h
  cases hf : s.freed with
  | cons x rest =>
    rw [hf] at h
    simp only [Option.some.injEq, Prod.mk.injEq] at h
    obtain ⟨rfl, rfl⟩ := h
    refine ⟨rfl, rfl, rfl, rfl, rfl, rfl, rfl, rfl, ?_⟩
    intro a
    by_cases hx : a = x
    · subst hx; simp; omega
    · have hx2 : ¬ (x = a) := fun e => hx e.symm
      simp [List.count_cons, hx, hx2]
  | nil =>
    rw [hf] at h
    cases hp : s.pool with
    | nil => rw [hp] at h; simp at h
    | cons x rest =>
      rw [hp] at h
      simp only [Option.some.injEq, Prod.mk.injEq] at h
      obtain ⟨rfl, rfl⟩ := h
      refine ⟨rfl, rfl, rfl, rfl, rfl, rfl, rfl, rfl, ?_⟩
      intro a
      by_cases hx : a = x
      · subst hx; simp [hf]
      · have hx2 : ¬ (x = a) := fun e => hx e.symm
        simp [List.count_cons, hx, hx2, hf]

theorem allocate_none (s : cmd_subsys) : allocate s = none ↔ pool_exhausted s := by
  unfold allocate pool_exhausted
  cases hf : s.freed <;> cases hp : s.pool <;> simp

theorem cmd_inv_submit (s : cmd_subsys) (code : Nat) (pparm : parm_ptr) (h : cmd_inv s) :
    cmd_inv (submit s code pparm).2 := by
  obtain ⟨h1, h2, h3⟩ := h
  unfold submit
  cases ha : allocate s with
  | none => exact ⟨h1, h2, h3⟩
  | some r =>
    obtain ⟨pcmd, s1⟩ := r
    obtain ⟨e1, e2, e3, e4, e5, e6, e7, e8, e9⟩ := allocate_some s s1 pcmd ha
    have hown := h1 pcmd
    have hle := range_count_le_one pcmd
    have h9 := e9 pcmd
    simp only [owners, if_true] at hown h9
    have hq : pcmd ∉ s.cmdpriv.cmd_queue := by
      apply List.count_eq_zero.mp; omega
    have hx : pcmd ∉ s.executing.toList := by
      apply List.count_eq_zero.mp; omega
    refine ⟨?_, ?_, ?_⟩
    · intro a
      have := h1 a
      have := e9 a
      simp only [owners, rtw_enqueue_cmd, e2, e3, List.count_append, List.count_cons,
        List.count_nil] at *
      by_cases hap : a = pcmd
      · subst hap; simp at *; omega
      · have hpa : ¬ (pcmd = a) := fun e => hap e.symm
        simp [hap, hpa] at *; omega
    · simp only [pending, rtw_enqueue_cmd, e2, e3, e4, e5, e6, e7]
      rw [← h2]
      simp only [pending, List.map_append, List.map_cons, List.map_nil, List.append_assoc]
      have hcongr : ∀ l : List Nat, pcmd ∉ l →
          l.map (request_of fun a =>
              if a = pcmd then init_h2fwcmd_w_parm_no_rsp pcmd (s.mem pcmd) pparm code
              else s.mem a)
            = l.map (request_of s.mem) := by
        intro l hl
        apply List.map_congr_left
        intro a ha
        have : a ≠ pcmd := fun e => hl (e ▸ ha)
        simp [request_of, this]
      rw [hcongr _ hq]
      have hx2 : pcmd ∉ (if s.notified = true then [] else s.executing.toList) := by
        split
        · simp
        · exact hx
      rw [hcongr _ hx2]
    · simp only [e1, e7, e8]; exact h3

theorem cmd_inv_dequeue (s : cmd_subsys) (h : cmd_inv s) : cmd_inv (worker_dequeue s) := by
  obtain ⟨h1, h2, h3⟩ := h
  unfold worker_dequeue
  cases hx : s.executing with
  | some x => exact ⟨h1, h2, h3⟩
  | none =>
    unfold rtw_dequeue_cmd
    cases hq : s.cmdpriv.cmd_queue with
    | nil => exact ⟨h1, h2, h3⟩
    | cons x q =>
      refine ⟨?_, ?_, h3⟩
      · intro a
        have := h1 a
        simp only [owners, hx, hq, Option.toList, List.count_cons, List.count_nil] at *
        omega
      · rw [← h2]
        simp [pending, hx, hq]

theorem request_of_update (m : Nat → cmd_obj) (x : Nat) (o : cmd_obj)
    (hc : o.cmdcode = (m x).cmdcode) (hp : o.parmbuf = (m x).parmbuf)
    (hs : o.cmdsz = (m x).cmdsz) :
    request_of (fun a => if a = x then o else m a) = request_of m := by
  funext a
  by_cases hax : a = x
  · subst hax; simp [request_of, hc, hp, hs]
  · simp [request_of, hax]

theorem worker_complete_shape (s : cmd_subsys) (res x : Nat) (hx : s.executing = some x)
    (hn : s.notified = false) :
    ∃ m : Nat → cmd_obj, request_of m = request_of s.mem
      ∧ worker_complete s res =
          { s with
            mem := m
            notified := true
            processed := s.processed ++ [(request_of s.mem x, res % 2 ^ 8)]
            callbacks :=
              match lookup s.CONFIG_P2P_NEW (s.mem x).cmdcode with
              | none => s.callbacks
              | some cb => s.callbacks ++ [⟨cb, request_of s.mem x, res % 2 ^ 8⟩] } := by
  have hfun := request_of_update s.mem x { s.mem x with res := res % 2 ^ 8 } rfl rfl rfl
  refine ⟨_, hfun, ?_⟩
  unfold worker_complete
  simp only [hx, hn]
  have hreq := congrFun hfun x
  simp only [] at hreq ⊢
  rw [hreq]
  simp

theorem cmd_inv_complete (s : cmd_subsys) (res : Nat) (h : cmd_inv s) :
    cmd_inv (worker_complete s res) := by
  obtain ⟨h1, h2, h3⟩ := h
  cases hx : s.executing with
  | none => unfold worker_complete; rw [hx]; exact ⟨h1, h2, h3⟩
  | some x =>
    cases hn : s.notified with
    | true => unfold worker_complete; rw [hx]; simp only [hn, if_true]; exact ⟨h1, h2, h3⟩
    | false =>
      obtain ⟨m, hm, heq⟩ := worker_complete_shape s res x hx hn
      rw [heq]
      refine ⟨?_, ?_, ?_⟩
      · intro a
        have := h1 a
        simp only [owners, hx] at *
        exact this
      · rw [← h2]
        simp only [pending, hx, hn, hm]
        simp
      · simp only []
        rw [h3]
        simp only [expected_callbacks, List.filterMap_append, List.filterMap_cons,
          List.filterMap_nil, request_of]
        cases hl : lookup s.CONFIG_P2P_NEW (s.mem x).cmdcode <;> simp [hl]

theorem cmd_inv_reclaim (s : cmd_subsys) (h : cmd_inv s) : cmd_inv (worker_reclaim s) := by
  obtain ⟨h1, h2, h3⟩ := h
  unfold worker_reclaim
  cases hx : s.executing with
  | none => exact ⟨h1, h2, h3⟩
  | some x =>
    by_cases hn : s.notified = true
    · simp only [hn, if_true]
      refine ⟨?_, ?_, h3⟩
      · intro a
        have := h1 a
        simp only [owners, rtw_free_cmd_obj, hx, Option.toList, List.count_cons,
          List.count_nil] at *
        omega
      · rw [← h2]
        simp [pending, rtw_free_cmd_obj, hx, hn]
    · simp only [hn]; exact ⟨h1, h2, h3⟩

theorem cmd_inv_step (s : cmd_subsys) (e : cmd_event) (h : cmd_inv s) : cmd_inv (step s e) := by
  cases e with
  | submit code pparm => exact cmd_inv_submit s code pparm h
  | dequeue => exact cmd_inv_dequeue s h
  | complete res => exact cmd_inv_complete s res h
  | reclaim => exact cmd_inv_reclaim s h

theorem cmd_inv_run (s : cmd_subsys) (evs : List cmd_event) (h : cmd_inv s) :
    cmd_inv (run s evs) := by
  induction evs generalizing s with
  | nil => exact h
  | cons e evs ih => exact ih (step s e) (cmd_inv_step s e h)

/-! ## The worker loop -/

theorem cmd_inv_worker_step (t : cmd_obj → Nat) (s : cmd_subsys) (h : cmd_inv s) :
    cmd_inv (worker_step t s) := by
  unfold worker_step
  cases hx : s.executing with
  | none => exact cmd_inv_dequeue s h
  | some x =>
    cases hn : s.notified with
    | true => simpa using cmd_inv_reclaim s h
    | false => simpa using cmd_inv_complete s _ h

theorem cmd_inv_thread (t : cmd_obj → Nat) (n : Nat) (s : cmd_subsys) (h : cmd_inv s) :
    cmd_inv (rtw_cmd_thread t n s) := by
  induction n generalizing s with
  | zero => exact h
  | succ n ih => exact ih _ (cmd_inv_worker_step t s h)

theorem worker_dequeue_frame (s : cmd_subsys) :
    (worker_dequeue s).submitted = s.submitted
      ∧ (worker_dequeue s).CONFIG_P2P_NEW = s.CONFIG_P2P_NEW
      ∧ (worker_dequeue s).pool = s.pool ∧ (worker_dequeue s).freed = s.freed := by
  unfold worker_dequeue rtw_dequeue_cmd
  cases s.executing <;> cases s.cmdpriv.cmd_queue <;> simp

theorem worker_complete_frame (s : cmd_subsys) (res : Nat) :
    (worker_complete s res).submitted = s.submitted
      ∧ (worker_complete s res).CONFIG_P2P_NEW = s.CONFIG_P2P_NEW
      ∧ (worker_complete s res).pool = s.pool ∧ (worker_complete s res).freed = s.freed
      ∧ (worker_complete s res).cmdpriv = s.cmdpriv
      ∧ (worker_complete s res).executing = s.executing := by
  unfold worker_complete
  cases hx : s.executing <;> cases hn : s.notified <;> simp [hx, hn]

theorem worker_reclaim_frame (s : cmd_subsys) :
    (worker_reclaim s).submitted = s.submitted
      ∧ (worker_reclaim s).CONFIG_P2P_NEW = s.CONFIG_P2P_NEW := by
  unfold worker_reclaim rtw_free_cmd_obj
  cases s.executing <;> cases s.notified <;> simp

theorem worker_step_frame (t : cmd_obj → Nat) (s : cmd_subsys) :
    (worker_step t s).submitted = s.submitted
      ∧ (worker_step t s).CONFIG_P2P_NEW = s.CONFIG_P2P_NEW := by
  unfold worker_step
  cases hx : s.executing with
  | none => exact ⟨(worker_dequeue_frame s).1, (worker_dequeue_frame s).2.1⟩
  | some x =>
    cases hn : s.notified with
    | true => simpa using worker_reclaim_frame s
    | false =>
      simpa using
        (⟨(worker_complete_frame s _).1, (worker_complete_frame s _).2.1⟩ :
          (worker_complete s (t (s.mem x))).submitted = s.submitted
            ∧ (worker_complete s (t (s.mem x))).CONFIG_P2P_NEW = s.CONFIG_P2P_NEW)

theorem thread_frame (t : cmd_obj → Nat) (n : Nat) (s : cmd_subsys) :
    (rtw_cmd_thread t n s).submitted = s.submitted
      ∧ (rtw_cmd_thread t n s).CONFIG_P2P_NEW = s.CONFIG_P2P_NEW := by
  induction n generalizing s with
  | zero => exact ⟨rfl, rfl⟩
  | succ n ih =>
    obtain ⟨h1, h2⟩ := ih (worker_step t s)
    obtain ⟨h3, h4⟩ := worker_step_frame t s
    exact ⟨h1.trans h3, h2.trans h4⟩

theorem step_config (s : cmd_subsys) (e : cmd_event) :
    (step s e).CONFIG_P2P_NEW = s.CONFIG_P2P_NEW := by
  cases e with
  | submit code pparm =>
    simp only [step, submit]
    cases ha : allocate s with
    | none => rfl
    | some r => exact (allocate_some s r.2 r.1 ha).1
  | dequeue => exact (worker_dequeue_frame s).2.1
  | complete res => exact (worker_complete_frame s res).2.1
  | reclaim => exact (worker_reclaim_frame s).2

theorem run_config (s : cmd_subsys) (evs : List cmd_event) :
    (run s evs).CONFIG_P2P_NEW = s.CONFIG_P2P_NEW := by
  induction evs generalizing s with
  | nil => rfl
  | cons e evs ih => exact (ih (step s e)).trans (step_config s e)

theorem work_worker_step (t : cmd_obj → Nat) (s : cmd_subsys) :
    work (worker_step t s) = work s - 1 := by
  unfold worker_step
  cases hx : s.executing with
  | none =>
    unfold worker_dequeue rtw_dequeue_cmd
    cases hq : s.cmdpriv.cmd_queue with
    | nil => simp [work, hx, hq]
    | cons a q => simp [work, hx, hq]; omega
  | some x =>
    cases hn : s.notified with
    | true => simp [work, worker_reclaim, rtw_free_cmd_obj, hx, hn]
    | false =>
      obtain ⟨h1, h2, h3, h4, h5, h6⟩ := worker_complete_frame s (t (s.mem x))
      have h7 : (worker_complete s (t (s.mem x))).notified = true := by
        simp [worker_complete, hx, hn]
      simp [work, h5, h6, h7, hx, hn]

theorem work_thread (t : cmd_obj → Nat) (n : Nat) (s : cmd_subsys) :
    work (rtw_cmd_thread t n s) = work s - n := by
  induction n generalizing s with
  | zero => rfl
  | succ n ih =>
    simp only [rtw_cmd_thread]
    rw [ih, work_worker_step]
    omega

theorem work_zero (s : cmd_subsys) (h : work s = 0) :
    s.cmdpriv.cmd_queue = [] ∧ s.executing = none := by
  unfold work at h
  cases hx : s.executing with
  | none =>
    refine ⟨?_, rfl⟩
    rw [hx] at h
    exact List.length_eq_zero.mp (by omega)
  | some x =>
    rw [hx] at h
    cases hn : s.notified <;> simp [hn] at h

theorem drain_drained (t : cmd_obj → Nat) (s : cmd_subsys) :
    (drain t s).cmdpriv.cmd_queue = [] ∧ (drain t s).executing = none := by
  apply work_zero
  unfold drain
  rw [work_thread]
  have : work s ≤ 3 * s.cmdpriv.cmd_queue.length + 2 := by
    unfold work
    cases s.executing <;> cases s.notified <;> simp
  omega

theorem expected_callbacks_requests (p2p : Bool) (done : List (cmd_request × Nat)) :
    (expected_callbacks p2p done).map callback_call.request
      = (done.map Prod.fst).filter (fun r => (lookup p2p r.cmdcode).isSome) := by
  induction done with
  | nil => rfl
  | cons d done ih =>
    simp only [expected_callbacks, List.filterMap_cons, List.map_cons, List.filter_cons] at ih ⊢
    cases hl : lookup p2p d.1.cmdcode <;> simp [hl, ih]

/-! ## Completions and callbacks -/

/-- C6, as stated, fails: three commands (set key, join, set power mode) are
submitted and processed, each once and in order, yet only the join has a
callback in the registry, so one callback is invoked, not three. -/
theorem C6_counterexample_null_callback_codes :
    (drain (fun _ => 0) (run (rtw_init_cmd_priv false 0)
        [cmd_event.submit rtw_h2c_cmd._SetKey_CMD_.val ⟨4096, 16⟩,
         cmd_event.submit rtw_h2c_cmd._JoinBss_CMD_.val ⟨8192, 64⟩,
         cmd_event.submit rtw_h2c_cmd._SetPwrMode_CMD_.val ⟨12288, 4⟩])).submitted.length = 3
      ∧ (drain (fun _ => 0) (run (rtw_init_cmd_priv false 0)
        [cmd_event.submit rtw_h2c_cmd._SetKey_CMD_.val ⟨4096, 16⟩,
         cmd_event.submit rtw_h2c_cmd._JoinBss_CMD_.val ⟨8192, 64⟩,
         cmd_event.submit rtw_h2c_cmd._SetPwrMode_CMD_.val ⟨12288, 4⟩])).processed
          = [(⟨1, 20, 4096, 16⟩, 0), (⟨2, 14, 8192, 64⟩, 0), (⟨3, 36, 12288, 4⟩, 0)]
      ∧ (drain (fun _ => 0) (run (rtw_init_cmd_priv false 0)
        [cmd_event.submit rtw_h2c_cmd._SetKey_CMD_.val ⟨4096, 16⟩,
         cmd_event.submit rtw_h2c_cmd._JoinBss_CMD_.val ⟨8192, 64⟩,
         cmd_event.submit rtw_h2c_cmd._SetPwrMode_CMD_.val ⟨12288, 4⟩])).callbacks
          = [⟨cmd_callback_fn.rtw_joinbss_cmd_callback, ⟨2, 14, 8192, 64⟩, 0⟩] := by
  decide

/-- C6, amended: after any history of submissions and worker moves, once the
worker loop has run the queue empty (which it does, whatever the transport
returns), the commands processed are exactly the N accepted ones, one per
command and in submission order, each with its result code; a completion
callback is invoked, with that result code, for exactly those of them whose
code has a non-NULL entry in rtw_cmd_callback, in submission order. -/
theorem C6_completions_in_submission_order (p2p : Bool) (padapter : Nat)
    (evs : List cmd_event) (transmit : cmd_obj → Nat) :
    (drain transmit (run (rtw_init_cmd_priv p2p padapter) evs)).cmdpriv.cmd_queue = []
      ∧ (drain transmit (run (rtw_init_cmd_priv p2p padapter) evs)).executing = none
      ∧ (drain transmit (run (rtw_init_cmd_priv p2p padapter) evs)).submitted
          = (run (rtw_init_cmd_priv p2p padapter) evs).submitted
      ∧ (drain transmit (run (rtw_init_cmd_priv p2p padapter) evs)).processed.map Prod.fst
          = (run (rtw_init_cmd_priv p2p padapter) evs).submitted
      ∧ (drain transmit (run (rtw_init_cmd_priv p2p padapter) evs)).callbacks
          = expected_callbacks p2p
              (drain transmit (run (rtw_init_cmd_priv p2p padapter) evs)).processed
      ∧ (drain transmit (run (rtw_init_cmd_priv p2p padapter) evs)).callbacks.map
            callback_call.request
          = (run (rtw_init_cmd_priv p2p padapter) evs).submitted.filter
              (fun r => (lookup p2p r.cmdcode).isSome) := by
  have hinv0 := cmd_inv_run _ evs (cmd_inv_init p2p padapter)
  have hcfg0 : (run (rtw_init_cmd_priv p2p padapter) evs).CONFIG_P2P_NEW = p2p :=
    run_config _ evs
  generalize run (rtw_init_cmd_priv p2p padapter) evs = s at hinv0 hcfg0
  obtain ⟨hq, hx⟩ := drain_drained transmit s
  have hinv : cmd_inv (drain transmit s) := cmd_inv_thread transmit _ s hinv0
  obtain ⟨hsub, hcfg⟩ : (drain transmit s).submitted = s.submitted
      ∧ (drain transmit s).CONFIG_P2P_NEW = s.CONFIG_P2P_NEW := thread_frame transmit _ s
  obtain ⟨_, h2, h3⟩ := hinv
  have hpend : pending (drain transmit s) = [] := by
    simp [pending, hq, hx]
  rw [hpend, List.append_nil, hsub] at h2
  rw [hcfg, hcfg0] at h3
  refine ⟨hq, hx, hsub, h2, h3, ?_⟩
  rw [h3, expected_callbacks_requests, h2]

/-! ## Pool exhaustion -/

theorem owners_length (s : cmd_subsys) (h : cmd_inv s) :
    s.pool.length + s.cmdpriv.cmd_queue.length + s.executing.toList.length + s.freed.length
      = FREE_CMDOBJ_SZ := by
  have hperm : (s.pool ++ s.cmdpriv.cmd_queue ++ s.executing.toList ++ s.freed).Perm
      (List.range' 1 FREE_CMDOBJ_SZ) := by
    rw [List.perm_iff_count]
    intro a
    rw [← h.1 a]
    simp only [owners, List.count_append]
  have := hperm.length_eq
  simp only [List.length_append, List.length_range'] at this
  exact this

/-- C8: in every state the subsystem can reach in which the pool is fully
allocated (nothing left in it, nothing given back), all FREE_CMDOBJ_SZ objects
are pending or executing, allocate returns none, and one more submission
fails with ResourceExhausted and leaves the whole state, so the queue of
pending commands and their order, unchanged. -/
theorem C8_pool_exhaustion (p2p : Bool) (padapter : Nat) (evs : List cmd_event)
    (code : Nat) (pparm : parm_ptr)
    (hfull : pool_exhausted (run (rtw_init_cmd_priv p2p padapter) evs)) :
    (run (rtw_init_cmd_priv p2p padapter) evs).cmdpriv.cmd_queue.length
        + (run (rtw_init_cmd_priv p2p padapter) evs).executing.toList.length = FREE_CMDOBJ_SZ
      ∧ allocate (run (rtw_init_cmd_priv p2p padapter) evs) = none
      ∧ submit (run (rtw_init_cmd_priv p2p padapter) evs) code pparm
          = (Except.error cmd_error.ResourceExhausted, run (rtw_init_cmd_priv p2p padapter) evs)
      ∧ (submit (run (rtw_init_cmd_priv p2p padapter) evs) code pparm).2.cmdpriv.cmd_queue
          = (run (rtw_init_cmd_priv p2p padapter) evs).cmdpriv.cmd_queue := by
  have hinv := cmd_inv_run _ evs (cmd_inv_init p2p padapter)
  generalize run (rtw_init_cmd_priv p2p padapter) evs = s at hinv hfull
  have hnone : allocate s = none := (allocate_none s).mpr hfull
  have hlen := owners_length s hinv
  obtain ⟨hp, hf⟩ := hfull
  have hsub : submit s code pparm = (Except.error cmd_error.ResourceExhausted, s) := by
    unfold submit; rw [hnone]
  refine ⟨?_, hnone, hsub, by rw [hsub]⟩
  rw [hp, hf] at hlen
  simpa using hlen

/-- C8 at a concrete history: FREE_CMDOBJ_SZ join commands are submitted and
none is processed; the pool is then exhausted and the next submission is
refused with ResourceExhausted. -/
theorem C8_pool_exhaustion_witness :
    pool_exhausted (run (rtw_init_cmd_priv false 0)
        (List.replicate FREE_CMDOBJ_SZ (cmd_event.submit 14 ⟨4096, 64⟩)))
      ∧ (submit (run (rtw_init_cmd_priv false 0)
          (List.replicate FREE_CMDOBJ_SZ (cmd_event.submit 14 ⟨4096, 64⟩))) 18 ⟨8192, 8⟩).1
          = Except.error cmd_error.ResourceExhausted
      ∧ (submit (run (rtw_init_cmd_priv false 0)
          (List.replicate FREE_CMDOBJ_SZ (cmd_event.submit 14 ⟨4096, 64⟩))) 18
            ⟨8192, 8⟩).2.cmdpriv.cmd_queue
          = List.range' 1 FREE_CMDOBJ_SZ :=
  have hfull : pool_exhausted (run (rtw_init_cmd_priv false 0)
      (List.replicate FREE_CMDOBJ_SZ (cmd_event.submit 14 ⟨4096, 64⟩))) := by decide
  have h := C8_pool_exhaustion false 0
    (List.replicate FREE_CMDOBJ_SZ (cmd_event.submit 14 ⟨4096, 64⟩)) 18 ⟨8192, 8⟩ hfull
  ⟨hfull, by rw [h.2.2.1], by rw [h.2.2.2]; decide⟩

/-! ## Ownership of command objects -/

theorem submit_freed_subset (s : cmd_subsys) (code : Nat) (pparm : parm_ptr) (a : Nat)
    (h : a ∈ (submit s code pparm).2.freed) : a ∈ s.freed := by
  unfold submit allocate at h
  cases hf : s.freed with
  | cons x rest =>
    rw [hf] at h
    simp only [] at h
    exact List.mem_cons_of_mem x h
  | nil =>
    rw [hf] at h
    cases hp : s.pool with
    | nil => rw [hp] at h; simp only [] at h; rw [hf] at h; exact h
    | cons x rest => rw [hp] at h; simp only [] at h; exact h

theorem freed_grows_by_reclaim (s : cmd_subsys) (e : cmd_event) (a : Nat)
    (h : a ∈ (step s e).freed) (hn : a ∉ s.freed) :
    e = cmd_event.reclaim ∧ s.executing = some a ∧ s.notified = true := by
  cases e with
  | submit code pparm => exact absurd (submit_freed_subset s code pparm a h) hn
  | dequeue =>
    simp only [step] at h
    rw [(worker_dequeue_frame s).2.2.2] at h
    exact absurd h hn
  | complete res =>
    simp only [step] at h
    rw [(worker_complete_frame s res).2.2.2.1] at h
    exact absurd h hn
  | reclaim =>
    simp only [step, worker_reclaim, rtw_free_cmd_obj] at h
    cases hx : s.executing with
    | none => rw [hx] at h; exact absurd h hn
    | some x =>
      rw [hx] at h
      cases hnot : s.notified with
      | false => simp only [hnot] at h; exact absurd h hn
      | true =>
        simp only [hnot, if_true, List.mem_cons] at h
        rcases h with h | h
        · exact ⟨rfl, by rw [h], rfl⟩
        · exact absurd h hn

theorem exactly_one_of_owners (s : cmd_subsys) (a : Nat) (h : owners s a = 1) :
    exactly_one (a ∈ s.pool) (a ∈ s.cmdpriv.cmd_queue) (s.executing = some a)
      (a ∈ s.freed) := by
  have hp : a ∈ s.pool ↔ 0 < s.pool.count a := List.count_pos_iff.symm
  have hq : a ∈ s.cmdpriv.cmd_queue ↔ 0 < s.cmdpriv.cmd_queue.count a :=
    List.count_pos_iff.symm
  have hf : a ∈ s.freed ↔ 0 < s.freed.count a := List.count_pos_iff.symm
  have hx : s.executing = some a ↔ 0 < s.executing.toList.count a := by
    cases hx : s.executing with
    | none => simp
    | some x =>
      by_cases hxa : x = a
      · subst hxa; simp
      · simp [Option.toList, List.count_cons, hxa]
  unfold owners at h
  unfold exactly_one
  rw [hp, hq, hf, hx]
  omega

/-- C10: in every state the command subsystem can reach, each object of the
pool (addresses 1 to FREE_CMDOBJ_SZ) is held exactly once, in exactly one of
pool, queue, executing slot (in flight) and freed, and no other address is
held anywhere; in particular no object is twice in the command queue. The
step that invokes the completion callback leaves pool, queue, executing slot
and freed objects as they are, and an object enters the freed ones only by
the reclaim move of the worker, made on the executing object after its
completion was delivered. -/
theorem C10_ownership_invariant (p2p : Bool) (padapter : Nat) (evs : List cmd_event)
    (pcmd : Nat) (e : cmd_event) (res : Nat) :
    owners (run (rtw_init_cmd_priv p2p padapter) evs) pcmd
        = (if 1 ≤ pcmd ∧ pcmd ≤ FREE_CMDOBJ_SZ then 1 else 0)
      ∧ ((1 ≤ pcmd ∧ pcmd ≤ FREE_CMDOBJ_SZ) →
          exactly_one (pcmd ∈ (run (rtw_init_cmd_priv p2p padapter) evs).pool)
            (pcmd ∈ (run (rtw_init_cmd_priv p2p padapter) evs).cmdpriv.cmd_queue)
            ((run (rtw_init_cmd_priv p2p padapter) evs).executing = some pcmd)
            (pcmd ∈ (run (rtw_init_cmd_priv p2p padapter) evs).freed))
      ∧ (run (rtw_init_cmd_priv p2p padapter) evs).cmdpriv.cmd_queue.Nodup
      ∧ ((worker_complete (run (rtw_init_cmd_priv p2p padapter) evs) res).pool
            = (run (rtw_init_cmd_priv p2p padapter) evs).pool
          ∧ (worker_complete (run (rtw_init_cmd_priv p2p padapter) evs) res).cmdpriv.cmd_queue
            = (run (rtw_init_cmd_priv p2p padapter) evs).cmdpriv.cmd_queue
          ∧ (worker_complete (run (rtw_init_cmd_priv p2p padapter) evs) res).executing
            = (run (rtw_init_cmd_priv p2p padapter) evs).executing
          ∧ (worker_complete (run (rtw_init_cmd_priv p2p padapter) evs) res).freed
            = (run (rtw_init_cmd_priv p2p padapter) evs).freed)
      ∧ (pcmd ∈ (step (run (rtw_init_cmd_priv p2p padapter) evs) e).freed →
          pcmd ∉ (run (rtw_init_cmd_priv p2p padapter) evs).freed →
            e = cmd_event.reclaim
              ∧ (run (rtw_init_cmd_priv p2p padapter) evs).executing = some pcmd
              ∧ (run (rtw_init_cmd_priv p2p padapter) evs).notified = true) := by
  have hinv := cmd_inv_run _ evs (cmd_inv_init p2p padapter)
  generalize run (rtw_init_cmd_priv p2p padapter) evs = s at hinv
  have hown : ∀ a, owners s a = if 1 ≤ a ∧ a ≤ FREE_CMDOBJ_SZ then 1 else 0 := by
    intro a; rw [hinv.1 a, range_count_eq]
  obtain ⟨_, _, h3, h4, h5, h6⟩ := worker_complete_frame s res
  refine ⟨hown pcmd, ?_, ?_, ⟨h3, by rw [h5], h6, h4⟩, freed_grows_by_reclaim s e pcmd⟩
  · intro hr
    apply exactly_one_of_owners
    rw [hown pcmd, if_pos hr]
  · rw [List.nodup_iff_count_le_one]
    intro a
    have h1 := hinv.1 a
    have h2 := range_count_le_one a
    unfold owners at h1
    omega

/-! ## The event path -/

theorem deliver_event_reads_in_bounds (thread p2p : Bool) (layout : c2h_layout)
    (st : evt_priv) (pbuf : List Nat) :
    ∃ new : List Nat,
      (deliver_event thread p2p layout st pbuf).reads = st.reads ++ new
        ∧ ∀ i ∈ new, i < pbuf.length := by
  unfold deliver_event
  split
  · exact ⟨[], by simp, by simp⟩
  · rename_i hhdr
    simp only [not_or, not_le, not_lt] at hhdr
    obtain ⟨h0, hl, hp⟩ := hhdr
    simp only [read_byte, read_bytes, rtw_enqueue_evt]
    split
    · refine ⟨[0, layout.len_off], by simp, ?_⟩
      intro i hi
      simp only [List.mem_cons, List.mem_singleton, List.not_mem_nil, or_false] at hi
      rcases hi with rfl | rfl
      · exact Nat.pos_of_ne_zero h0
      · exact hl
    · rename_i hfit
      simp only [not_lt] at hfit
      refine ⟨[0, layout.len_off] ++ List.range' layout.payload_off
        (pbuf.getD layout.len_off 0), ?_, ?_⟩
      · split <;> simp
      · intro i hi
        simp only [List.mem_append, List.mem_cons, List.mem_singleton, List.not_mem_nil,
          or_false, List.mem_range'] at hi
        rcases hi with (rfl | rfl) | ⟨j, hj, rfl⟩
        · exact Nat.pos_of_ne_zero h0
        · exact hl
        · omega

/-- C9: for every raw event whose declared payload length exceeds the length
of the received buffer, whatever the build, the header layout and the state,
the demultiplexer drops the event: no handler is invoked, no event object is
enqueued, the event is not counted, a MalformedEvent is logged, and every
byte it read from the buffer lies inside the buffer. -/
theorem C9_malformed_event_dropped (thread p2p : Bool) (layout : c2h_layout)
    (st : evt_priv) (pbuf : List Nat) (n : Nat)
    (hn : declared_len layout pbuf = some n) (hlong : pbuf.length < n) :
    (deliver_event thread p2p layout st pbuf).invoked = st.invoked
      ∧ (deliver_event thread p2p layout st pbuf).evt_queue = st.evt_queue
      ∧ (deliver_event thread p2p layout st pbuf).event_seq = st.event_seq
      ∧ (deliver_event thread p2p layout st pbuf).errors
          = st.errors ++ [cmd_error.MalformedEvent]
      ∧ ∃ new : List Nat,
          (deliver_event thread p2p layout st pbuf).reads = st.reads ++ new
            ∧ ∀ i ∈ new, i < pbuf.length := by
  refine ⟨?_, ?_, ?_, ?_, deliver_event_reads_in_bounds thread p2p layout st pbuf⟩
  all_goals
    unfold deliver_event
    split
    · rfl
    · have hget : pbuf.getD layout.len_off 0 = n := by
        unfold declared_len at hn
        rw [List.getD_eq_getElem?_getD, hn]; rfl
      simp only [read_byte, hget]
      rw [if_pos (by omega)]

/-- C9 at a concrete event: a 5-byte buffer with code 14 (join, which has a
handler) whose header declares a 9-byte payload, delivered in the direct
build after an earlier well-formed event. -/
theorem C9_malformed_event_dropped_witness :
    declared_len ⟨1, 2⟩ [14, 9, 7, 8, 9] = some 9
      ∧ [14, 9, 7, 8, 9].length < 9
      ∧ deliver_event false false ⟨1, 2⟩
          ⟨[], 1, [⟨cmd_callback_fn.rtw_survey_cmd_callback, 18, [5]⟩], [], [0, 1, 2]⟩
          [14, 9, 7, 8, 9]
        = ⟨[], 1, [⟨cmd_callback_fn.rtw_survey_cmd_callback, 18, [5]⟩],
            [cmd_error.MalformedEvent], [0, 1, 2, 0, 1]⟩
      ∧ (deliver_event false false ⟨1, 2⟩
          ⟨[], 1, [⟨cmd_callback_fn.rtw_survey_cmd_callback, 18, [5]⟩], [], [0, 1, 2]⟩
          [14, 9, 7, 8, 9]).invoked
        = [⟨cmd_callback_fn.rtw_survey_cmd_callback, 18, [5]⟩] :=
  ⟨by decide, by decide, by decide,
    (C9_malformed_event_dropped false false ⟨1, 2⟩
      ⟨[], 1, [⟨cmd_callback_fn.rtw_survey_cmd_callback, 18, [5]⟩], [], [0, 1, 2]⟩
      [14, 9, 7, 8, 9] 9 (by decide) (by decide)).1⟩

/-! ## Documented indices, result codes, and the contents of the registry -/

/-- C11: every index the header documents for a command is the value of that
command in enum rtw_h2c_cmd: the twelve "H2C Handler index" comments
(SetChannel 46 ... TDLS 62) and the index comments inside the enum (0, 5, 10,
JoinBss 14, DisConnect 15, SiteSurvey 18 ... P2P 63); MAX_H2CCMD is 64. -/
theorem C11_documented_indices_match :
    (∀ p ∈ h2c_handler_index_comments, p.1.val = p.2)
      ∧ (∀ p ∈ enum_index_comments, p.1.val = p.2)
      ∧ h2c_handler_index_comments.map Prod.snd
          = [46, 47, 48, 49, 50, 51, 52, 53, 54, 59, 61, 62]
      ∧ rtw_h2c_cmd._JoinBss_CMD_.val = 14 ∧ rtw_h2c_cmd._DisConnect_CMD_.val = 15
      ∧ rtw_h2c_cmd._SiteSurvey_CMD_.val = 18 ∧ rtw_h2c_cmd._P2P_CMD_.val = 63
      ∧ MAX_H2CCMD = 64 := by
  decide

/-- C12 fails on the header: the first four result constants carry the
documented values, but the value the comment documents as reserved, 0x04, is
defined as H2C_PARAMETERS_ERROR, and H2C_RESERVED is 0x07. -/
theorem C12_reserved_code_differs :
    h2c_result_doc.reserved.documented = 0x04
      ∧ h2c_result_doc.reserved.defined = 0x07
      ∧ H2C_PARAMETERS_ERROR = 0x04
      ∧ (∀ r : h2c_result_doc, r ≠ h2c_result_doc.reserved → r.defined = r.documented) := by
  refine ⟨rfl, rfl, rfl, ?_⟩
  intro r hr
  cases r <;> first | rfl | exact absurd rfl hr

/-- C20: in either build rtw_cmd_callback holds a callback at exactly five
codes, _JoinBss (14), _DisConnect (15), _SiteSurvey (18), _SetStaKey (21) and
_SetChannelPlan (59), each the callback named for it, and NULL in the entry
of every other code. -/
theorem C20_registry_contents (p2p : Bool) :
    (rtw_cmd_callback p2p).filter (fun e => e.callback.isSome)
        = [ ⟨14, some cmd_callback_fn.rtw_joinbss_cmd_callback⟩,
            ⟨15, some cmd_callback_fn.rtw_disassoc_cmd_callback⟩,
            ⟨18, some cmd_callback_fn.rtw_survey_cmd_callback⟩,
            ⟨21, some cmd_callback_fn.rtw_setstaKey_cmdrsp_callback⟩,
            ⟨59, some cmd_callback_fn.rtw_set_channel_plan_cmd_callback⟩ ]
      ∧ rtw_h2c_cmd._JoinBss_CMD_.val = 14 ∧ rtw_h2c_cmd._DisConnect_CMD_.val = 15
      ∧ rtw_h2c_cmd._SiteSurvey_CMD_.val = 18 ∧ rtw_h2c_cmd._SetStaKey_CMD_.val = 21
      ∧ rtw_h2c_cmd._SetChannelPlan_CMD_.val = 59
      ∧ (∀ (i : Nat) (e : _cmd_callback), (rtw_cmd_callback p2p)[i]? = some e →
          e.callback =
            if i = 14 then some cmd_callback_fn.rtw_joinbss_cmd_callback
            else if i = 15 then some cmd_callback_fn.rtw_disassoc_cmd_callback
            else if i = 18 then some cmd_callback_fn.rtw_survey_cmd_callback
            else if i = 21 then some cmd_callback_fn.rtw_setstaKey_cmdrsp_callback
            else if i = 59 then some cmd_callback_fn.rtw_set_channel_plan_cmd_callback
            else none) := by
  refine ⟨by cases p2p <;> decide, by decide, by decide, by decide, by decide, by decide, ?_⟩
  intro i e he
  have hlt : i < (rtw_cmd_callback p2p).length := (List.getElem?_eq_some.mp he).1
  have hi : i < 64 := by
    have := rtw_cmd_callback_length p2p
    cases p2p <;> simp at this <;> omega
  have key : ∀ j, j < 64 → ∀ b : Bool,
      ((rtw_cmd_callback b)[j]?).map _cmd_callback.callback = none
        ∨ ((rtw_cmd_callback b)[j]?).map _cmd_callback.callback = some
          (if j = 14 then some cmd_callback_fn.rtw_joinbss_cmd_callback
            else if j = 15 then some cmd_callback_fn.rtw_disassoc_cmd_callback
            else if j = 18 then some cmd_callback_fn.rtw_survey_cmd_callback
            else if j = 21 then some cmd_callback_fn.rtw_setstaKey_cmdrsp_callback
            else if j = 59 then some cmd_callback_fn.rtw_set_channel_plan_cmd_callback
            else none) := by
    decide
  rcases key i hi p2p with h | h
  · rw [he] at h; simp at h
  · rw [he] at h
    simpa using h

/-! ## The frame of the constructor -/

/-- C22: init_h2fwcmd_w_parm_no_rsp changes only the fields list, cmdcode,
parmbuf, cmdsz, rsp and rspsz of the command object: the object afterwards is
the object before with these six fields replaced, so padapter and res keep
their values; no other command object changes, and no byte of memory outside
the command objects, the parameter buffer included, is modified. -/
theorem C22_constructor_frame (m : h2c_memory) (pcmd : Nat) (pparm : parm_ptr) (code : Nat) :
    ((init_h2fwcmd_w_parm_no_rsp_stmt m pcmd pparm code).objs pcmd).padapter
        = (m.objs pcmd).padapter
      ∧ ((init_h2fwcmd_w_parm_no_rsp_stmt m pcmd pparm code).objs pcmd).res = (m.objs pcmd).res
      ∧ (init_h2fwcmd_w_parm_no_rsp_stmt m pcmd pparm code).objs pcmd
          = { m.objs pcmd with
              list := ((init_h2fwcmd_w_parm_no_rsp_stmt m pcmd pparm code).objs pcmd).list
              cmdcode := ((init_h2fwcmd_w_parm_no_rsp_stmt m pcmd pparm code).objs pcmd).cmdcode
              parmbuf := ((init_h2fwcmd_w_parm_no_rsp_stmt m pcmd pparm code).objs pcmd).parmbuf
              cmdsz := ((init_h2fwcmd_w_parm_no_rsp_stmt m pcmd pparm code).objs pcmd).cmdsz
              rsp := ((init_h2fwcmd_w_parm_no_rsp_stmt m pcmd pparm code).objs pcmd).rsp
              rspsz := ((init_h2fwcmd_w_parm_no_rsp_stmt m pcmd pparm code).objs pcmd).rspsz }
      ∧ (∀ a, a ≠ pcmd → (init_h2fwcmd_w_parm_no_rsp_stmt m pcmd pparm code).objs a = m.objs a)
      ∧ (init_h2fwcmd_w_parm_no_rsp_stmt m pcmd pparm code).bytes = m.bytes
      ∧ (∀ i, i < pparm.sizeof →
          (init_h2fwcmd_w_parm_no_rsp_stmt m pcmd pparm code).bytes (pparm.addr + i)
            = m.bytes (pparm.addr + i)) := by
  have hobj : (init_h2fwcmd_w_parm_no_rsp_stmt m pcmd pparm code).objs pcmd
      = init_h2fwcmd_w_parm_no_rsp pcmd (m.objs pcmd) pparm code := by
    simp [init_h2fwcmd_w_parm_no_rsp_stmt]
  refine ⟨?_, ?_, ?_, ?_, rfl, fun _ _ => rfl⟩
  · rw [hobj]; rfl
  · rw [hobj]; rfl
  · rw [hobj]; rfl
  · intro a ha
    simp [init_h2fwcmd_w_parm_no_rsp_stmt, ha]

end rtw_cmd

namespace rtw_byteorder

/-- C18: the header is accepted exactly when one and only one of
CONFIG_LITTLE_ENDIAN and CONFIG_BIG_ENDIAN is defined (both defined raises the
first error, neither the second); on a big-endian host the four helpers are
the identity macros, so _ntohs(_htons(x)) = x and _ntohl(_htonl(x)) = x for
every x. -/
theorem C18_byteorder_helpers (le be : Bool) (x : Nat) :
    (header_accepts le be = true ↔ (le = true ∧ be = false) ∨ (le = false ∧ be = true))
      ∧ header_errors true true = [build_error.both_endian]
      ∧ header_errors false false = [build_error.no_endian]
      ∧ helpers true = helper_kind.identity_macro
      ∧ _htons x = x ∧ _ntohs x = x ∧ _htonl x = x ∧ _ntohl x = x
      ∧ _ntohs (_htons x) = x ∧ _ntohl (_htonl x) = x := by
  refine ⟨?_, rfl, rfl, rfl, rfl, rfl, rfl, rfl, rfl, rfl⟩
  cases le <;> cases be <;> decide

end rtw_byteorder

namespace kernel_testcase_drv

theorem switch_on_default (cfg : drv_config) (code : testioc → Int) (env : kernel_env)
    (cmd : Int) (arg : Nat) (ret : Int) (cs : List testioc)
    (h : ∀ c ∈ cs, compiled cfg c = true → cmd ≠ code c) :
    switch_on cfg code env cmd arg ret cs = ret := by
  induction cs with
  | nil => rfl
  | cons c cs ih =>
    have hc : (compiled cfg c && decide (cmd = code c)) = false := by
      cases hcomp : compiled cfg c with
      | false => rfl
      | true => simpa using h c (List.mem_cons_self c cs) hcomp
    simp only [switch_on, hc]
    exact ih (fun d hd => h d (List.mem_cons_of_mem c hd))

/-- C19, as stated, fails: kernel_test_drv_write does not return len for every
len. The size_t len is returned as an ssize_t, so for len = 2^31, the first
length the result cannot hold, the value returned is -2^31. -/
theorem C19_counterexample_write_beyond_ssize_max :
    kernel_test_drv_write 3 4096 2147483648 = -2147483648
      ∧ kernel_test_drv_write 3 4096 2147483648 ≠ 2147483648 := by
  decide

/-- C19, amended: kernel_test_drv_read returns 0 whatever the file, buffer and
length; kernel_test_drv_write returns len whatever the file and buffer, for
every len the ssize_t result can hold (len < 2^31); kernel_test_drv_ioctl
returns -EINVAL for every cmd that is the label of no case compiled into the
switch, whatever the build, the label values, the kernel state and the
argument. -/
theorem C19_trivial_data_path (cfg : drv_config) (code : testioc → Int) (env : kernel_env)
    (filep buffer len arg : Nat) (cmd : Int) (hlen : len < 2 ^ 31)
    (hcmd : ∀ c : testioc, compiled cfg c = true → cmd ≠ code c) :
    kernel_test_drv_read filep buffer len = 0
      ∧ kernel_test_drv_write filep buffer len = len
      ∧ kernel_test_drv_ioctl cfg code env filep cmd arg = -EINVAL := by
  refine ⟨rfl, ?_, ?_⟩
  · have h1 : len % 2 ^ 32 = len := Nat.mod_eq_of_lt (by omega)
    simp only [kernel_test_drv_write, to_ssize_t, h1, if_pos hlen]
  · exact switch_on_default cfg code env cmd arg _ _ (fun c _ hc => hcmd c hc)

/-- C19 at a concrete call: a build without round-robin and group tests, the
labels numbered from 100, a 512-byte write, and the ioctl commands 7 (no
label) and 106 (the label of the time-slice case, not compiled in). -/
theorem C19_trivial_data_path_witness :
    kernel_test_drv_read 3 4096 512 = 0
      ∧ kernel_test_drv_write 3 4096 512 = 512
      ∧ kernel_test_drv_ioctl ⟨false, false, false⟩ (fun c => 100 + c.toCtorIdx)
          ⟨none, fun _ => none, fun _ => 0, false, fun _ => true⟩ 3 7 0 = -22
      ∧ kernel_test_drv_ioctl ⟨false, false, false⟩ (fun c => 100 + c.toCtorIdx)
          ⟨none, fun _ => none, fun _ => 0, false, fun _ => true⟩ 3 106 0 = -EINVAL :=
  ⟨by decide, by decide, by decide,
    (C19_trivial_data_path ⟨false, false, false⟩ (fun c => 100 + c.toCtorIdx)
      ⟨none, fun _ => none, fun _ => 0, false, fun _ => true⟩ 3 4096 512 0 106 (by decide)
      (by decide)).2.2⟩

end kernel_testcase_drv

namespace wm_test

open wifi_manager_ap_auth_type_e wifi_manager_ap_crypto_type_e

/-! ## Command-word dispatch -/

theorem _wm_get_opt_loop_not_mem (w : List Char) (idx : Nat) (names : List (List Char))
    (h : w ∉ names) : _wm_get_opt_loop w idx names = -1 := by
  induction names generalizing idx with
  | nil => rfl
  | cons n ns ih =>
    have hn : w ≠ n := fun e => h (e ▸ List.mem_cons_self _ _)
    simp only [_wm_get_opt_loop, hn, if_false]
    exact ih (idx + 1) (fun hm => h (List.mem_cons_of_mem _ hm))

theorem _wm_get_opt_of_word (argc : Nat) (argv : List (List Char)) (w : List Char)
    (hargc : 3 ≤ argc) (h2 : argv[2]? = some w) :
    _wm_get_opt argc argv = (outcome.ok (_wm_get_opt_loop w 0 func_name), [2]) := by
  simp [_wm_get_opt, argv_at, h2, Nat.not_lt.mpr hargc]

theorem wm_parse_commands_at (cfg : Bool) (impl : strtok_impl) (opt : options) (argc : Nat)
    (argv : List (List Char)) (w : List Char) (k : Nat) (h : test_func)
    (e : Option exec_func) (hargc : 3 ≤ argc) (h2 : argv[2]? = some w)
    (hk : _wm_get_opt_loop w 0 func_name = (k : Int))
    (hf : (func_table cfg)[k]? = some (some h)) (he : exec_table[k]? = some e) :
    wm_parse_commands cfg impl opt argc argv = after_selection impl opt argc argv h e := by
  have hne : ¬ ((k : Int) = wm_test_e.WM_TEST_ERR.val) := by
    have : wm_test_e.WM_TEST_ERR.val = -1 := by decide
    rw [this]; omega
  simp only [wm_parse_commands, _wm_get_opt_of_word argc argv w hargc h2, hk, hne, if_false,
    Int.toNat_ofNat, hf, he]
  cases e <;> simp [after_selection]

theorem exec_call_func (impl : strtok_impl) (exec : exec_func) (opt : options) (argc : Nat)
    (argv : List (List Char)) : (exec.call impl opt argc argv).opt.func = opt.func := by
  cases exec
  · rfl
  · simp only [exec_func.call, _wm_test_join, crypto_and_password]
    repeat' split
    all_goals rfl
  · simp only [exec_func.call, _wm_test_set, crypto_and_password]
    repeat' split
    all_goals rfl
  · simp only [exec_func.call, _wm_test_auto]
    repeat' split
    all_goals rfl

/-- C13: with argc >= 3, for every command word of the usage text
wm_parse_commands selects the handler of that command (start -> wm_start,
stop -> wm_stop, stats -> wm_get_stats, softap -> wm_softap_start, sta ->
wm_sta_start, join -> wm_connect, leave -> wm_disconnect, cancel ->
wm_cancel, scan -> wm_scan, mode -> wm_display_state, set -> wm_set_info, get
-> wm_get_info, reset -> wm_reset_info, auto -> wm_auto_test) and runs the
argument parser of that command on the options holding it, or returns 0 when
the command has none; with argc < 3, or with argv[2] none of the names in
func_name, it returns -1 and leaves the options, so the handler, as they
were. -/
theorem C13_command_word_dispatch (cfg : Bool) (impl : strtok_impl) (opt : options)
    (argc : Nat) (argv : List (List Char)) (w : List Char) :
    (∀ (h : test_func) (e : Option exec_func), (w, h, e) ∈ usage_commands →
        3 ≤ argc → argv[2]? = some w →
          (wm_parse_commands cfg impl opt argc argv).opt.func = some h
            ∧ wm_parse_commands cfg impl opt argc argv
                = after_selection impl opt argc argv h e)
      ∧ (argc < 3 → wm_parse_commands cfg impl opt argc argv = ⟨outcome.ok (-1), opt, []⟩)
      ∧ (3 ≤ argc → argv[2]? = some w → w ∉ func_name →
          wm_parse_commands cfg impl opt argc argv = ⟨outcome.ok (-1), opt, [2]⟩) := by
  refine ⟨?_, ?_, ?_⟩
  · intro h e hmem hargc h2
    have key : ∀ t ∈ usage_commands, ∃ k : Nat, k < 14
        ∧ _wm_get_opt_loop t.1 0 func_name = (k : Int)
        ∧ (func_table cfg)[k]? = some (some t.2.1) ∧ exec_table[k]? = some t.2.2 := by
      cases cfg <;> decide
    obtain ⟨k, _, hk, hf, he⟩ := key (w, h, e) hmem
    have hp := wm_parse_commands_at cfg impl opt argc argv w k h e hargc h2 hk hf he
    refine ⟨?_, hp⟩
    rw [hp]
    cases e with
    | none => rfl
    | some exec => exact exec_call_func impl exec _ argc argv
  · intro hargc
    simp [wm_parse_commands, _wm_get_opt, hargc]
  · intro hargc h2 hw
    have hloop := _wm_get_opt_loop_not_mem w 0 func_name hw
    have herr : wm_test_e.WM_TEST_ERR.val = -1 := by decide
    simp [wm_parse_commands, _wm_get_opt_of_word argc argv w hargc h2, hloop, herr]

/-- C13 at concrete command lines: "wm_test join ap wpa2_aes secret12" selects
wm_connect through _wm_test_join, "wm_test scan" selects wm_scan, and
"wm_test bogus" and a command line without command word return -1. -/
theorem C13_command_word_dispatch_witness :
    (wm_parse_commands false ⟨cptr.null, cptr.wild⟩
        ⟨none, 0, cptr.wild, cptr.wild, cptr.wild, cptr.wild, WIFI_MANAGER_AUTH_UNKNOWN,
          WIFI_MANAGER_CRYPTO_UNKNOWN, cptr.wild, cptr.wild⟩ 6
        ["t".toList, "wm_test".toList, "join".toList, "ap".toList, "wpa2_aes".toList,
          "secret12".toList]).opt.func = some test_func.wm_connect
      ∧ wm_parse_commands false ⟨cptr.null, cptr.wild⟩
          ⟨none, 0, cptr.wild, cptr.wild, cptr.wild, cptr.wild, WIFI_MANAGER_AUTH_UNKNOWN,
            WIFI_MANAGER_CRYPTO_UNKNOWN, cptr.wild, cptr.wild⟩ 6
          ["t".toList, "wm_test".toList, "join".toList, "ap".toList, "wpa2_aes".toList,
            "secret12".toList]
        = ⟨outcome.ok 0,
            ⟨some test_func.wm_connect, 0, cptr.str "ap".toList, cptr.wild,
              cptr.str "secret12".toList, cptr.wild, WIFI_MANAGER_AUTH_WPA2_PSK,
              WIFI_MANAGER_CRYPTO_AES, cptr.wild, cptr.wild⟩, [2, 3, 4, 4, 5]⟩
      ∧ (wm_parse_commands false ⟨cptr.null, cptr.wild⟩
          ⟨none, 0, cptr.wild, cptr.wild, cptr.wild, cptr.wild, WIFI_MANAGER_AUTH_UNKNOWN,
            WIFI_MANAGER_CRYPTO_UNKNOWN, cptr.wild, cptr.wild⟩ 3
          ["t".toList, "wm_test".toList, "bogus".toList]).ret = outcome.ok (-1)
      ∧ (wm_parse_commands false ⟨cptr.null, cptr.wild⟩
          ⟨none, 0, cptr.wild, cptr.wild, cptr.wild, cptr.wild, WIFI_MANAGER_AUTH_UNKNOWN,
            WIFI_MANAGER_CRYPTO_UNKNOWN, cptr.wild, cptr.wild⟩ 2
          ["t".toList, "wm_test".toList]).ret = outcome.ok (-1) :=
  ⟨((C13_command_word_dispatch false ⟨cptr.null, cptr.wild⟩ _ 6
      ["t".toList, "wm_test".toList, "join".toList, "ap".toList, "wpa2_aes".toList,
        "secret12".toList] "join".toList).1 test_func.wm_connect
      (some exec_func._wm_test_join) (by decide) (by decide) (by decide)).1,
    by decide, by decide, by decide⟩

/-! ## Security-mode strings -/

/-- C14: every security-mode string the usage text lists is parsed to the
matching pair. get_auth_type maps "open" to AUTH_OPEN, "wep_shared" to
AUTH_WEP_SHARED, "wpa_C", "wpa2_C", "wpa12_C" (C one of aes, tkip, mixed) to
WPA_PSK, WPA2_PSK, WPA_AND_WPA2_PSK, and with the suffix "_ent" to the three
_ENT auth types; get_crypto_type, whatever the C library leaves in the save
pointer of strtok_r, maps the same strings to CRYPTO_AES, CRYPTO_TKIP,
CRYPTO_TKIP_AND_AES for C = aes, tkip, mixed and to the three _ENT crypto
types with the suffix "_ent". -/
theorem C14_security_mode_strings (impl : strtok_impl) :
    get_auth_type "open".toList = outcome.ok WIFI_MANAGER_AUTH_OPEN
      ∧ get_auth_type "wep_shared".toList = outcome.ok WIFI_MANAGER_AUTH_WEP_SHARED
      ∧ (∀ c ∈ ["aes".toList, "tkip".toList, "mixed".toList],
          get_auth_type ("wpa_".toList ++ c) = outcome.ok WIFI_MANAGER_AUTH_WPA_PSK
            ∧ get_auth_type ("wpa2_".toList ++ c) = outcome.ok WIFI_MANAGER_AUTH_WPA2_PSK
            ∧ get_auth_type ("wpa12_".toList ++ c)
                = outcome.ok WIFI_MANAGER_AUTH_WPA_AND_WPA2_PSK
            ∧ get_auth_type ("wpa_".toList ++ c ++ "_ent".toList)
                = outcome.ok WIFI_MANAGER_AUTH_WPA_PSK_ENT
            ∧ get_auth_type ("wpa2_".toList ++ c ++ "_ent".toList)
                = outcome.ok WIFI_MANAGER_AUTH_WPA2_PSK_ENT
            ∧ get_auth_type ("wpa12_".toList ++ c ++ "_ent".toList)
                = outcome.ok WIFI_MANAGER_AUTH_WPA_AND_WPA2_PSK_ENT)
      ∧ (∀ p ∈ ["wpa_".toList, "wpa2_".toList, "wpa12_".toList],
          get_crypto_type impl (p ++ "aes".toList) = outcome.ok WIFI_MANAGER_CRYPTO_AES
            ∧ get_crypto_type impl (p ++ "tkip".toList) = outcome.ok WIFI_MANAGER_CRYPTO_TKIP
            ∧ get_crypto_type impl (p ++ "mixed".toList)
                = outcome.ok WIFI_MANAGER_CRYPTO_TKIP_AND_AES
            ∧ get_crypto_type impl (p ++ "aes_ent".toList)
                = outcome.ok WIFI_MANAGER_CRYPTO_AES_ENT
            ∧ get_crypto_type impl (p ++ "tkip_ent".toList)
                = outcome.ok WIFI_MANAGER_CRYPTO_TKIP_ENT
            ∧ get_crypto_type impl (p ++ "mixed_ent".toList)
                = outcome.ok WIFI_MANAGER_CRYPTO_TKIP_AND_AES_ENT) := by
  refine ⟨by decide, by decide, by decide, ?_⟩
  intro p hp
  simp only [List.mem_cons, List.mem_singleton, List.not_mem_nil, or_false] at hp
  rcases hp with rfl | rfl | rfl <;> exact ⟨rfl, rfl, rfl, rfl, rfl, rfl⟩

/-! ## The join command -/

/-- C15 fails on the code: "wm_test join ap <password>" with argc = 5 and a
password of 20 characters, which is no open mode, does not succeed with the
password taken from argv[4]: _wm_test_join first hands argv[4] to
get_auth_type, whose strcpy into char data[20] overflows; with an empty
password the strcmp on the missing first token faults. -/
theorem C15_join_faults_on_password (impl : strtok_impl) (opt : options) :
    ("a_20_character_pass".toList ++ ['!']).length = 20
      ∧ get_auth_type ("a_20_character_pass".toList ++ ['!'])
          = outcome.fault wm_fault.buffer_overflow
      ∧ (_wm_test_join impl opt 5
          ["t".toList, "wm_test".toList, "join".toList, "ap".toList,
            "a_20_character_pass".toList ++ ['!']]).ret
          = outcome.fault wm_fault.buffer_overflow
      ∧ (_wm_test_join impl opt 5
          ["t".toList, "wm_test".toList, "join".toList, "ap".toList, []]).ret
          = outcome.fault wm_fault.null_deref :=
  ⟨rfl, rfl, rfl, rfl⟩

/-- The rules of the join command hold wherever get_auth_type is defined on
argv[4]: -1 for argc < 5; success with an empty password and CRYPTO_NONE for
an open mode; for argc = 5 and any other result, success with argv[4] as the
password and both types UNKNOWN. -/
theorem _wm_test_join_rules (impl : strtok_impl) (opt : options) (argc : Nat)
    (argv : List (List Char)) (method : List Char) (auth : wifi_manager_ap_auth_type_e) :
    (argc < 5 → _wm_test_join impl opt argc argv = ⟨outcome.ok (-1), opt, []⟩)
      ∧ (5 ≤ argc → argv[4]? = some method → get_auth_type method = outcome.ok auth →
          (auth = WIFI_MANAGER_AUTH_OPEN ∨ auth = WIFI_MANAGER_AUTH_IBSS_OPEN) →
            _wm_test_join impl opt argc argv =
              ⟨outcome.ok 0,
                { opt with
                  ssid := argv_at argv 3
                  auth_type := auth
                  password := cptr.str []
                  crypto_type := WIFI_MANAGER_CRYPTO_NONE }, [3, 4]⟩)
      ∧ (argc = 5 → argv[4]? = some method → get_auth_type method = outcome.ok auth →
          ¬ (auth = WIFI_MANAGER_AUTH_OPEN ∨ auth = WIFI_MANAGER_AUTH_IBSS_OPEN) →
            _wm_test_join impl opt argc argv =
              ⟨outcome.ok 0,
                { opt with
                  ssid := argv_at argv 3
                  auth_type := WIFI_MANAGER_AUTH_UNKNOWN
                  crypto_type := WIFI_MANAGER_CRYPTO_UNKNOWN
                  password := cptr.str method }, [3, 4, 4]⟩) := by
  refine ⟨?_, ?_, ?_⟩
  · intro h; simp [_wm_test_join, h]
  · intro h h4 ha hopen
    have hlt : ¬ argc < 5 := Nat.not_lt.mpr h
    simp [_wm_test_join, hlt, argv_at, h4, ha, hopen]
  · intro h h4 ha hopen
    subst h
    simp [_wm_test_join, argv_at, h4, ha, hopen]

/-! ## Reads of the argument vector -/

/-- C23 fails on the code: "wm_test softap" without further arguments (argc =
3) makes _wm_test_softap read argv[3] and argv[4]; "wm_test set ap wep_shared"
(argc = 5) makes _wm_test_set read argv[5]; "wm_test auto a b ap wpa2_aes"
(argc = 7) makes _wm_test_auto read argv[7]. -/
theorem C23_reads_beyond_argc (cfg : Bool) (impl : strtok_impl) (opt : options) :
    (wm_parse_commands cfg impl opt 3 ["t".toList, "wm_test".toList, "softap".toList]).reads
        = [2, 3, 4]
      ∧ (wm_parse_commands cfg impl opt 3
          ["t".toList, "wm_test".toList, "softap".toList]).ret = outcome.ok 0
      ∧ (wm_parse_commands cfg impl opt 3
          ["t".toList, "wm_test".toList, "softap".toList]).opt.ssid = cptr.null
      ∧ (wm_parse_commands cfg impl opt 3
          ["t".toList, "wm_test".toList, "softap".toList]).opt.password = cptr.wild
      ∧ (_wm_test_softap opt 3 ["t".toList, "wm_test".toList, "softap".toList]).reads = [3, 4]
      ∧ (_wm_test_set impl opt 5
          ["t".toList, "wm_test".toList, "set".toList, "ap".toList, "wep_shared".toList]).reads
          = [3, 4, 5]
      ∧ (_wm_test_auto impl opt 7
          ["t".toList, "wm_test".toList, "auto".toList, "a".toList, "b".toList, "ap".toList,
            "wpa2_aes".toList]).reads = [3, 4, 5, 6, 6, 7] := by
  refine ⟨?_, ?_, ?_, ?_, rfl, rfl, rfl⟩ <;> cases cfg <;> rfl

/-! ## Table bounds -/

/-- C24 fails on the code: for "wps_x_ent" the name "wps" matches at index 9
and get_auth_type reads auth_type_table[12], beyond the 11 entries of the
table; for "open_x_ent" the name "open" matches at index 0 and the value
returned, auth_type_table[3], is WPA2_PSK, no enterprise type. -/
theorem C24_auth_table_read_out_of_bounds :
    auth_type_table.length = 11
      ∧ (strtok_r "_".toList (some "wps_x_ent".toList)).1 = some "wps".toList
      ∧ wifi_test_auth_method[9]? = some "wps".toList
      ∧ auth_type_hit (some "ent".toList) 9 = outcome.fault wm_fault.table_out_of_bounds
      ∧ get_auth_type "wps_x_ent".toList = outcome.fault wm_fault.table_out_of_bounds
      ∧ get_auth_type "open_x_ent".toList = outcome.ok WIFI_MANAGER_AUTH_WPA2_PSK := by
  decide
/-! ## The round trip of the security mode -/

theorem auth_type_table_index (i : Nat) (a : wifi_manager_ap_auth_type_e)
    (h : auth_type_table[i]? = some a) : i = a.toCtorIdx := by
  have hlt : i < 11 := (List.getElem?_eq_some.mp h).1
  interval_cases i <;> simp [auth_type_table] at h <;> subst h <;> rfl

theorem crypto_type_table_index (i : Nat) (c : wifi_manager_ap_crypto_type_e)
    (h : crypto_type_table[i]? = some c) : i = c.toCtorIdx := by
  have hlt : i < 10 := (List.getElem?_eq_some.mp h).1
  interval_cases i <;> simp [crypto_type_table] at h <;> subst h <;> rfl

theorem round_trip_pairs_ok (impl : strtok_impl) :
    round_trip_pairs.all
      (round_trip_ok impl wifi_manager_ap_auth_type_e.toCtorIdx
        wifi_manager_ap_crypto_type_e.toCtorIdx) = true := by
  rfl

/-- C25: with the enum values the positions in auth_type_table and
crypto_type_table, for every pair of a personal auth type (WPA_PSK, WPA2_PSK,
WPA_AND_WPA2_PSK) with a personal crypto type (AES, TKIP, TKIP_AND_AES), or of
an enterprise auth type with an enterprise crypto type, print_wifi_ap_profile
builds a string (auth name, "_", crypto name) that fits the 20-byte buffer
with its NUL, and get_auth_type and get_crypto_type parse it back to the same
pair. -/
theorem C25_print_parse_round_trip (impl : strtok_impl)
    (auth_val : wifi_manager_ap_auth_type_e → Nat)
    (crypto_val : wifi_manager_ap_crypto_type_e → Nat)
    (hauth : ∀ a, auth_type_table[auth_val a]? = some a)
    (hcrypto : ∀ c, crypto_type_table[crypto_val c]? = some c)
    (auth : wifi_manager_ap_auth_type_e) (crypto : wifi_manager_ap_crypto_type_e)
    (hpair : (auth, crypto) ∈ round_trip_pairs) :
    ∃ s, print_wifi_ap_profile auth_val crypto_val auth crypto = outcome.ok s
      ∧ s.length + 1 ≤ 20
      ∧ get_auth_type s = outcome.ok auth
      ∧ get_crypto_type impl s = outcome.ok crypto := by
  have ha : auth_val = wifi_manager_ap_auth_type_e.toCtorIdx :=
    funext (fun a => auth_type_table_index _ a (hauth a))
  have hc : crypto_val = wifi_manager_ap_crypto_type_e.toCtorIdx :=
    funext (fun c => crypto_type_table_index _ c (hcrypto c))
  subst ha hc
  have hok := List.all_eq_true.mp (round_trip_pairs_ok impl) (auth, crypto) hpair
  unfold round_trip_ok at hok
  cases hprint : print_wifi_ap_profile wifi_manager_ap_auth_type_e.toCtorIdx
      wifi_manager_ap_crypto_type_e.toCtorIdx auth crypto with
  | fault f => rw [hprint] at hok; cases hok
  | ok s =>
    rw [hprint] at hok
    simp only [Bool.and_eq_true, decide_eq_true_eq] at hok
    exact ⟨s, rfl, hok.1.1, hok.1.2, hok.2⟩

/-- C25 at the pair (WPA_AND_WPA2_PSK_ENT, TKIP_AND_AES_ENT), with the
enumerators numbered from 0 in declaration order: the string is
"wpa12_mixed_ent". -/
theorem C25_print_parse_round_trip_witness :
    print_wifi_ap_profile wifi_manager_ap_auth_type_e.toCtorIdx
        wifi_manager_ap_crypto_type_e.toCtorIdx WIFI_MANAGER_AUTH_WPA_AND_WPA2_PSK_ENT
        WIFI_MANAGER_CRYPTO_TKIP_AND_AES_ENT = outcome.ok "wpa12_mixed_ent".toList
      ∧ ∃ s, print_wifi_ap_profile wifi_manager_ap_auth_type_e.toCtorIdx
            wifi_manager_ap_crypto_type_e.toCtorIdx WIFI_MANAGER_AUTH_WPA_AND_WPA2_PSK_ENT
            WIFI_MANAGER_CRYPTO_TKIP_AND_AES_ENT = outcome.ok s
          ∧ s.length + 1 ≤ 20
          ∧ get_auth_type s = outcome.ok WIFI_MANAGER_AUTH_WPA_AND_WPA2_PSK_ENT
          ∧ get_crypto_type ⟨cptr.null, cptr.null⟩ s
              = outcome.ok WIFI_MANAGER_CRYPTO_TKIP_AND_AES_ENT :=
  ⟨by decide,
    C25_print_parse_round_trip ⟨cptr.null, cptr.null⟩ wifi_manager_ap_auth_type_e.toCtorIdx
      wifi_manager_ap_crypto_type_e.toCtorIdx (fun a => by cases a <;> rfl)
      (fun c => by cases c <;> rfl) _ _ (by decide)⟩

/-! ## The WEP key-length rule -/

/-- The rule where a password argument is present: in _wm_test_join and
_wm_test_set called with argv[5] present (argc >= 6) and a security mode
argv[4] that get_auth_type recognises, for wep_shared the password length
alone decides (13 gives CRYPTO_WEP_128, 5 gives CRYPTO_WEP_64, both with the
password argv[5]; every other length returns -1); for any other mode that is
not open the parser returns -1 exactly when get_crypto_type returns
CRYPTO_UNKNOWN, and when it returns 0 the crypto type is the one
get_crypto_type returned and the password is argv[5]. -/
theorem wep_key_length_rule (impl : strtok_impl) (opt : options) (argc : Nat)
    (argv : List (List Char)) (method pw : List Char) (auth : wifi_manager_ap_auth_type_e)
    (hargc : 6 ≤ argc) (h4 : argv[4]? = some method) (h5 : argv[5]? = some pw)
    (hauth : get_auth_type method = outcome.ok auth) :
    ∀ parse ∈ [_wm_test_join impl, _wm_test_set impl],
      (auth = WIFI_MANAGER_AUTH_WEP_SHARED →
        (pw.length = 13 →
            (parse opt argc argv).ret = outcome.ok 0
              ∧ (parse opt argc argv).opt.crypto_type = WIFI_MANAGER_CRYPTO_WEP_128
              ∧ (parse opt argc argv).opt.password = cptr.str pw)
          ∧ (pw.length = 5 →
            (parse opt argc argv).ret = outcome.ok 0
              ∧ (parse opt argc argv).opt.crypto_type = WIFI_MANAGER_CRYPTO_WEP_64
              ∧ (parse opt argc argv).opt.password = cptr.str pw)
          ∧ (pw.length ≠ 13 → pw.length ≠ 5 → (parse opt argc argv).ret = outcome.ok (-1)))
      ∧ (auth ≠ WIFI_MANAGER_AUTH_WEP_SHARED → auth ≠ WIFI_MANAGER_AUTH_OPEN →
          auth ≠ WIFI_MANAGER_AUTH_IBSS_OPEN → auth ≠ WIFI_MANAGER_AUTH_UNKNOWN →
            ((parse opt argc argv).ret = outcome.ok (-1)
                ↔ get_crypto_type impl method = outcome.ok WIFI_MANAGER_CRYPTO_UNKNOWN)
              ∧ ((parse opt argc argv).ret = outcome.ok 0 →
                  get_crypto_type impl method = outcome.ok (parse opt argc argv).opt.crypto_type
                    ∧ (parse opt argc argv).opt.password = cptr.str pw)) := by
  intro parse hparse
  have h5lt : ¬ argc < 5 := by omega
  have h5ne : ¬ argc = 5 := by omega
  simp only [List.mem_cons, List.mem_singleton, List.not_mem_nil, or_false] at hparse
  refine ⟨?_, ?_⟩
  · intro hwep
    subst hwep
    rcases hparse with rfl | rfl <;>
      simp [_wm_test_join, _wm_test_set, crypto_and_password, argv_at, h4, h5, hauth, h5lt,
        h5ne] <;>
      refine ⟨?_, ?_, ?_⟩ <;> intro h <;> simp [h] <;> intro h2 <;> simp [h2]
  · intro h1 h2 h3 h4'
    rcases hparse with rfl | rfl <;>
      simp only [_wm_test_join, _wm_test_set, crypto_and_password, argv_at, h4, h5, hauth, h5lt,
        h5ne, h1, h2, h3, h4', if_false, or_self] <;>
      cases hc : get_crypto_type impl method with
      | fault f => simp
      | ok c =>
        by_cases hu : c = WIFI_MANAGER_CRYPTO_UNKNOWN <;> simp [hu]

/-- C29 fails on the code: "wm_test set ap wep_shared" (argc = 5, no password
argument) is a call of _wm_test_set with the security mode wep_shared; the
parser neither decides the crypto type by a password length nor returns -1:
it passes argv[5], the NULL that ends the argument vector, to strlen.
_wm_test_join on the same arguments does not read argv[5]. -/
theorem C29_set_without_password_faults (impl : strtok_impl) (opt : options) :
    get_auth_type "wep_shared".toList = outcome.ok WIFI_MANAGER_AUTH_WEP_SHARED
      ∧ argv_at ["t".toList, "wm_test".toList, "set".toList, "ap".toList, "wep_shared".toList]
          5 = cptr.null
      ∧ (_wm_test_set impl opt 5
          ["t".toList, "wm_test".toList, "set".toList, "ap".toList, "wep_shared".toList]).ret
          = outcome.fault wm_fault.null_deref
      ∧ (_wm_test_set impl opt 5
          ["t".toList, "wm_test".toList, "set".toList, "ap".toList, "wep_shared".toList]).reads
          = [3, 4, 5]
      ∧ (_wm_test_join impl opt 5
          ["t".toList, "wm_test".toList, "join".toList, "ap".toList, "wep_shared".toList]).ret
          = outcome.ok 0
      ∧ (_wm_test_join impl opt 5
          ["t".toList, "wm_test".toList, "join".toList, "ap".toList, "wep_shared".toList]).reads
          = [3, 4, 4] :=
  ⟨rfl, rfl, rfl, rfl, rfl, rfl⟩

end wm_test

namespace ui_widget

/-! ## Search by coordinate -/

mutual
theorem preorder_filter_nil (inside : ui_coord_t → ui_rect_t → Bool) (coord : ui_coord_t) :
    ∀ (w : ui_widget_tree) (anc : List ui_widget_tree),
      anc.all (under_coord inside coord) = false →
        (preorder anc w).filter (can_take_touch inside coord) = []
  | ui_widget_tree.node addr rect visible touchable children, anc, h => by
    have hc : (ui_widget_tree.node addr rect visible touchable children :: anc).all
        (under_coord inside coord) = false := by
      simp only [List.all_cons, h, Bool.and_false]
    simp only [preorder, List.filter_cons, can_take_touch, h, Bool.and_false]
    exact preorder_children_filter_nil inside coord children _ hc
theorem preorder_children_filter_nil (inside : ui_coord_t → ui_rect_t → Bool)
    (coord : ui_coord_t) :
    ∀ (cs : List ui_widget_tree) (anc : List ui_widget_tree),
      anc.all (under_coord inside coord) = false →
        (preorder_children anc cs).filter (can_take_touch inside coord) = []
  | [], _, _ => rfl
  | c :: cs, anc, h => by
    simp only [preorder_children, List.filter_append,
      preorder_filter_nil inside coord c anc h,
      preorder_children_filter_nil inside coord cs anc h, List.append_nil]
end

theorem getLast_filter_touchable (inside : ui_coord_t → ui_rect_t → Bool)
    (coord : ui_coord_t) (l : List (ui_widget_tree × List ui_widget_tree))
    (p : ui_widget_tree × List ui_widget_tree)
    (h : (l.filter (can_take_touch inside coord)).getLast? = some p) :
    p.1.touchable = true := by
  have hm := List.mem_of_getLast?_eq_some h
  have hq := (List.mem_filter.mp hm).2
  simp only [can_take_touch, Bool.and_eq_true] at hq
  exact hq.1.1

mutual
theorem search_eq_last (inside : ui_coord_t → ui_rect_t → Bool) (coord : ui_coord_t) :
    ∀ (w : ui_widget_tree) (anc : List ui_widget_tree),
      anc.all (under_coord inside coord) = true →
        ui_widget_search_by_coord inside w coord
          = (((preorder anc w).filter (can_take_touch inside coord)).getLast?).map Prod.fst
  | ui_widget_tree.node addr rect visible touchable children, anc, h => by
    cases hu : (inside coord rect && visible) with
    | false =>
      have hc : (ui_widget_tree.node addr rect visible touchable children :: anc).all
          (under_coord inside coord) = false := by
        simp only [List.all_cons, under_coord, ui_widget_tree.global_rect,
          ui_widget_tree.visible, hu, Bool.false_and]
      simp only [ui_widget_search_by_coord, hu, preorder, List.filter_cons, can_take_touch,
        under_coord, ui_widget_tree.global_rect, ui_widget_tree.visible, Bool.and_false,
        Bool.false_and, preorder_children_filter_nil inside coord children _ hc]
      rfl
    | true =>
      have hc : (ui_widget_tree.node addr rect visible touchable children :: anc).all
          (under_coord inside coord) = true := by
        simp only [List.all_cons, under_coord, ui_widget_tree.global_rect,
          ui_widget_tree.visible, hu, h, Bool.and_self]
      have ih := search_children_eq_last inside coord children _
        (if touchable then some (ui_widget_tree.node addr rect visible touchable children)
         else none) hc
      simp only [ui_widget_search_by_coord, hu, if_true, ih, preorder, List.filter_cons,
        can_take_touch, under_coord, ui_widget_tree.global_rect, ui_widget_tree.visible,
        ui_widget_tree.touchable, h, Bool.and_true]
      cases touchable <;>
        cases hl : ((preorder_children
          (ui_widget_tree.node addr rect visible _ children :: anc) children).filter
            (can_take_touch inside coord)).getLast? <;>
        simp [hl, List.getLast?_cons]
theorem search_children_eq_last (inside : ui_coord_t → ui_rect_t → Bool)
    (coord : ui_coord_t) :
    ∀ (cs : List ui_widget_tree) (anc : List ui_widget_tree)
      (result : Option ui_widget_tree),
      anc.all (under_coord inside coord) = true →
        search_children inside cs coord result
          = match ((preorder_children anc cs).filter (can_take_touch inside coord)).getLast? with
            | some p => some p.1
            | none => result
  | [], _, _, _ => rfl
  | c :: cs, anc, result, h => by
    have ihc := search_eq_last inside coord c anc h
    have ihcs := search_children_eq_last inside coord cs anc
    simp only [search_children, preorder_children, List.filter_append, List.getLast?_append]
    rw [ihcs _ h, ihc]
    cases h2 : ((preorder_children anc cs).filter (can_take_touch inside coord)).getLast? with
    | some p => simp
    | none =>
      cases h1 : ((preorder anc c).filter (can_take_touch inside coord)).getLast? with
      | none => simp
      | some q =>
        have ht := getLast_filter_touchable inside coord _ q h1
        simp [ht]
end

/-- C16: for every finite widget tree and every coordinate,
ui_widget_search_by_coord returns the last widget in pre-order (a parent
before its children, children in vector order) that is touchable and such
that it and each of its ancestors up to the searched root is visible and
contains the coordinate in its global_rect; it returns NULL exactly when no
such widget exists, and a widget it returns is touchable. -/
theorem C16_search_by_coord_topmost (inside : ui_coord_t → ui_rect_t → Bool)
    (root : ui_widget_tree) (coord : ui_coord_t) :
    ui_widget_search_by_coord inside root coord = topmost_touchable inside root coord
      ∧ (ui_widget_search_by_coord inside root coord = none
          ↔ ∀ p ∈ preorder [] root, can_take_touch inside coord p = false)
      ∧ (∀ found, ui_widget_search_by_coord inside root coord = some found →
          found.touchable = true) := by
  have hs := search_eq_last inside coord root [] rfl
  refine ⟨hs, ?_, ?_⟩
  · rw [hs]
    simp only [Option.map_eq_none', List.getLast?_eq_none_iff, List.filter_eq_nil_iff,
      Bool.not_eq_true]
  · intro found hf
    rw [hs] at hf
    cases hl : ((preorder [] root).filter (can_take_touch inside coord)).getLast? with
    | none => rw [hl] at hf; cases hf
    | some p =>
      rw [hl] at hf
      have ht := getLast_filter_touchable inside coord _ p hl
      simp only [Option.map_some', Option.some.injEq] at hf
      rw [← hf]; exact ht

/-! ## The public mutators -/

theorem queue_request_spec (env : ui_env) (st : ui_state) (invalid : Bool) (req : ui_request) :
    (queue_request env st invalid req).2.widgets = st.widgets
      ∧ ((queue_request env st invalid req).1 = ui_error_t.UI_OK →
          (queue_request env st invalid req).2.requests = st.requests ++ [req])
      ∧ ((queue_request env st invalid req).1 ≠ ui_error_t.UI_OK →
          (queue_request env st invalid req).2.requests = st.requests) := by
  unfold queue_request
  cases env.running <;> cases invalid <;> cases env.alloc_ok <;> cases env.request_ok <;> simp

/-- C17, as stated, fails: with the framework running, four of the thirteen
mutators change a field of a widget in the call itself:
ui_widget_set_tick_callback and ui_widget_set_interval_callback store the
callback and queue nothing, ui_widget_destroy clears the callbacks and
ui_widget_add_child sets the parent of the child before their request is
queued, and each of them returns UI_OK. -/
theorem C17_counterexample_writes_at_once :
    (ui_call.run ⟨true, true, true⟩ ⟨fun _ => zero_body, []⟩
        (ui_call.set_tick_callback 1 77)).code? = some ui_error_t.UI_OK
      ∧ ((ui_call.run ⟨true, true, true⟩ ⟨fun _ => zero_body, []⟩
        (ui_call.set_tick_callback 1 77)).state.widgets 1).tick_cb = 77
      ∧ zero_body.tick_cb = 0
      ∧ (ui_call.run ⟨true, true, true⟩ ⟨fun _ => zero_body, []⟩
        (ui_call.set_tick_callback 1 77)).state.requests = []
      ∧ (ui_call.run ⟨true, true, true⟩ ⟨fun _ => zero_body, []⟩
        (ui_call.set_interval_callback 1 88 500)).code? = some ui_error_t.UI_OK
      ∧ ((ui_call.run ⟨true, true, true⟩ ⟨fun _ => zero_body, []⟩
        (ui_call.set_interval_callback 1 88 500)).state.widgets 1).interval_cb = 88
      ∧ zero_body.interval_cb = 0
      ∧ (ui_call.run ⟨true, true, true⟩ ⟨fun _ => { zero_body with tick_cb := 77 }, []⟩
        (ui_call.destroy 1)).code? = some ui_error_t.UI_OK
      ∧ ((ui_call.run ⟨true, true, true⟩ ⟨fun _ => { zero_body with tick_cb := 77 }, []⟩
        (ui_call.destroy 1)).state.widgets 1).tick_cb = 0
      ∧ (ui_call.run ⟨true, true, true⟩ ⟨fun _ => zero_body, []⟩
        (ui_call.add_child 1 2 10 20)).code? = some ui_error_t.UI_OK
      ∧ ((ui_call.run ⟨true, true, true⟩ ⟨fun _ => zero_body, []⟩
        (ui_call.add_child 1 2 10 20)).state.widgets 2).parent = 1
      ∧ zero_body.parent = 0 := by
  decide

theorem write_requests (st : ui_state) (w : Nat) (f : ui_widget_body_t → ui_widget_body_t) :
    (st.write w f).requests = st.requests := rfl

theorem of_queue_request (env : ui_env) (st : ui_state) (invalid : Bool) (req : ui_request) :
    (ui_result.of (queue_request env st invalid req)).fault? = none
      ∧ (ui_result.of (queue_request env st invalid req)).state.widgets = st.widgets
      ∧ ((ui_result.of (queue_request env st invalid req)).code? = some ui_error_t.UI_OK →
          (ui_result.of (queue_request env st invalid req)).state.requests
            = st.requests ++ [req])
      ∧ (∀ e, (ui_result.of (queue_request env st invalid req)).code? = some e →
          e ≠ ui_error_t.UI_OK →
          (ui_result.of (queue_request env st invalid req)).state.requests = st.requests) := by
  have h := queue_request_spec env st invalid req
  refine ⟨rfl, h.1, h.2.1 ∘ Option.some.inj, ?_⟩
  intro e he hne
  exact h.2.2 (fun hok => hne ((Option.some.inj he).symm.trans hok))

theorem of_remove_all_children (env : ui_env) (st : ui_state) (w : Nat) :
    (ui_result.of (ui_widget_remove_all_children env st w)).fault? = none
      ∧ (ui_result.of (ui_widget_remove_all_children env st w)).state.widgets = st.widgets
      ∧ ((ui_result.of (ui_widget_remove_all_children env st w)).code?
            = some ui_error_t.UI_OK →
          (ui_result.of (ui_widget_remove_all_children env st w)).state.requests
            = st.requests ++ [ui_request._ui_widget_remove_all_children_func w])
      ∧ (∀ e, (ui_result.of (ui_widget_remove_all_children env st w)).code? = some e →
          e ≠ ui_error_t.UI_OK →
          (ui_result.of (ui_widget_remove_all_children env st w)).state.requests
            = st.requests) := by
  unfold ui_widget_remove_all_children
  split_ifs <;> simp [ui_result.of, ui_result.fault?, ui_result.state, ui_result.code?]

theorem set_tick_callback_exact (env : ui_env) (st : ui_state) (w cb : Nat) :
    (ui_call.run env st (ui_call.set_tick_callback w cb)).fault? = none
      ∧ (ui_call.run env st (ui_call.set_tick_callback w cb)).state.requests = st.requests
      ∧ ((ui_call.run env st (ui_call.set_tick_callback w cb)).code? = some ui_error_t.UI_OK →
          (ui_call.run env st (ui_call.set_tick_callback w cb)).state.widgets
            = (st.write w (fun body => { body with tick_cb := cb })).widgets)
      ∧ (∀ e, (ui_call.run env st (ui_call.set_tick_callback w cb)).code? = some e →
          e ≠ ui_error_t.UI_OK →
          (ui_call.run env st (ui_call.set_tick_callback w cb)).state.widgets = st.widgets) := by
  simp only [ui_call.run, ui_widget_set_tick_callback]
  split_ifs <;>
    simp [ui_result.of, ui_result.fault?, ui_result.state, ui_result.code?, write_requests]

theorem set_interval_callback_exact (env : ui_env) (st : ui_state) (w cb t : Nat) :
    (ui_call.run env st (ui_call.set_interval_callback w cb t)).fault? = none
      ∧ (ui_call.run env st (ui_call.set_interval_callback w cb t)).state.requests
          = st.requests
      ∧ ((ui_call.run env st (ui_call.set_interval_callback w cb t)).code?
            = some ui_error_t.UI_OK →
          (ui_call.run env st (ui_call.set_interval_callback w cb t)).state.widgets
            = (st.write w (fun body =>
                { body with interval_cb := cb, interval_info := ⟨t, 0⟩ })).widgets)
      ∧ (∀ e, (ui_call.run env st (ui_call.set_interval_callback w cb t)).code? = some e →
          e ≠ ui_error_t.UI_OK →
          (ui_call.run env st (ui_call.set_interval_callback w cb t)).state.widgets
            = st.widgets) := by
  simp only [ui_call.run, ui_widget_set_interval_callback]
  split_ifs <;>
    simp [ui_result.of, ui_result.fault?, ui_result.state, ui_result.code?, write_requests]

theorem destroy_exact (env : ui_env) (st : ui_state) (w : Nat) :
    (ui_call.run env st (ui_call.destroy w)).fault? = none
      ∧ ((ui_call.run env st (ui_call.destroy w)).code? = some ui_error_t.UI_OK →
          (ui_call.run env st (ui_call.destroy w)).state.widgets
              = (st.write w (fun body => { body with tick_cb := 0, interval_cb := 0 })).widgets
            ∧ (ui_call.run env st (ui_call.destroy w)).state.requests
              = st.requests ++ [ui_request._ui_widget_destroy_func w])
      ∧ ((ui_call.run env st (ui_call.destroy w)).code? = some ui_error_t.UI_OPERATION_FAIL →
          (ui_call.run env st (ui_call.destroy w)).state.widgets
              = (st.write w (fun body => { body with tick_cb := 0, interval_cb := 0 })).widgets
            ∧ (ui_call.run env st (ui_call.destroy w)).state.requests = st.requests)
      ∧ (∀ e, (ui_call.run env st (ui_call.destroy w)).code? = some e →
          e ≠ ui_error_t.UI_OK → e ≠ ui_error_t.UI_OPERATION_FAIL →
          (ui_call.run env st (ui_call.destroy w)).state.widgets = st.widgets
            ∧ (ui_call.run env st (ui_call.destroy w)).state.requests = st.requests) := by
  simp only [ui_call.run, ui_widget_destroy]
  split_ifs <;>
    simp [ui_result.of, ui_result.fault?, ui_result.state, ui_result.code?, write_requests]

theorem add_child_exact (env : ui_env) (st : ui_state) (w c : Nat) (x y : Int) :
    ((ui_call.run env st (ui_call.add_child w c x y)).code? = some ui_error_t.UI_OK →
        (ui_call.run env st (ui_call.add_child w c x y)).state.widgets
            = (st.write c (fun body => { body with parent := w })).widgets
          ∧ (ui_call.run env st (ui_call.add_child w c x y)).state.requests
            = st.requests ++ [ui_request._ui_widget_add_child_func w c x y])
      ∧ (∀ e, (ui_call.run env st (ui_call.add_child w c x y)).code? = some e →
          e = ui_error_t.UI_NOT_RUNNING ∨ e = ui_error_t.UI_INVALID_PARAM
            ∨ e = ui_error_t.UI_NOT_ENOUGH_MEMORY →
          (ui_call.run env st (ui_call.add_child w c x y)).state.widgets = st.widgets
            ∧ (ui_call.run env st (ui_call.add_child w c x y)).state.requests
              = st.requests) := by
  simp only [ui_call.run, ui_widget_add_child]
  split_ifs <;>
    simp [ui_result.fault?, ui_result.state, ui_result.code?, write_requests]

/-- C17, amended: the nine mutators ui_widget_set_visible, set_position,
set_size, tween_moveto, remove_child, remove_all_children, set_pivot_point,
set_scale and set_rotation leave every field of every widget unchanged when
they are called and only queue a request: exactly their own when they return
UI_OK, none when they return an error. The other four store in the call
itself, to the widget and with the value named, and to nothing else:
ui_widget_set_tick_callback (tick_cb of the widget becomes the callback) and
ui_widget_set_interval_callback (interval_cb becomes the callback,
interval_info the timeout and 0) when they return UI_OK, queuing nothing;
ui_widget_destroy (tick_cb and interval_cb of the widget become NULL) when it
returns UI_OK, with its request queued, or UI_OPERATION_FAIL, with nothing
queued; ui_widget_add_child (the parent of the child becomes the widget) when
it returns UI_OK, with its request queued. A call of these four that returns
UI_NOT_RUNNING, UI_INVALID_PARAM or UI_NOT_ENOUGH_MEMORY changes nothing. -/
theorem C17_mutators_queue_requests (env : ui_env) (st : ui_state) :
    (∀ call : ui_call, call.writes_at_once = false →
        (call.run env st).fault? = none
          ∧ (call.run env st).state.widgets = st.widgets
          ∧ ((call.run env st).code? = some ui_error_t.UI_OK →
              (call.run env st).state.requests = st.requests ++ call.request.toList)
          ∧ (∀ e, (call.run env st).code? = some e → e ≠ ui_error_t.UI_OK →
              (call.run env st).state.requests = st.requests))
      ∧ (∀ w cb,
          (ui_call.run env st (ui_call.set_tick_callback w cb)).fault? = none
            ∧ (ui_call.run env st (ui_call.set_tick_callback w cb)).state.requests
                = st.requests
            ∧ ((ui_call.run env st (ui_call.set_tick_callback w cb)).code?
                  = some ui_error_t.UI_OK →
                (ui_call.run env st (ui_call.set_tick_callback w cb)).state.widgets
                  = (st.write w (fun body => { body with tick_cb := cb })).widgets)
            ∧ (∀ e, (ui_call.run env st (ui_call.set_tick_callback w cb)).code? = some e →
                e ≠ ui_error_t.UI_OK →
                (ui_call.run env st (ui_call.set_tick_callback w cb)).state.widgets
                  = st.widgets))
      ∧ (∀ w cb t,
          (ui_call.run env st (ui_call.set_interval_callback w cb t)).fault? = none
            ∧ (ui_call.run env st (ui_call.set_interval_callback w cb t)).state.requests
                = st.requests
            ∧ ((ui_call.run env st (ui_call.set_interval_callback w cb t)).code?
                  = some ui_error_t.UI_OK →
                (ui_call.run env st (ui_call.set_interval_callback w cb t)).state.widgets
                  = (st.write w (fun body =>
                      { body with interval_cb := cb, interval_info := ⟨t, 0⟩ })).widgets)
            ∧ (∀ e, (ui_call.run env st (ui_call.set_interval_callback w cb t)).code? = some e →
                e ≠ ui_error_t.UI_OK →
                (ui_call.run env st (ui_call.set_interval_callback w cb t)).state.widgets
                  = st.widgets))
      ∧ (∀ w,
          (ui_call.run env st (ui_call.destroy w)).fault? = none
            ∧ ((ui_call.run env st (ui_call.destroy w)).code? = some ui_error_t.UI_OK →
                (ui_call.run env st (ui_call.destroy w)).state.widgets
                    = (st.write w (fun body =>
                        { body with tick_cb := 0, interval_cb := 0 })).widgets
                  ∧ (ui_call.run env st (ui_call.destroy w)).state.requests
                    = st.requests ++ [ui_request._ui_widget_destroy_func w])
            ∧ ((ui_call.run env st (ui_call.destroy w)).code?
                  = some ui_error_t.UI_OPERATION_FAIL →
                (ui_call.run env st (ui_call.destroy w)).state.widgets
                    = (st.write w (fun body =>
                        { body with tick_cb := 0, interval_cb := 0 })).widgets
                  ∧ (ui_call.run env st (ui_call.destroy w)).state.requests = st.requests)
            ∧ (∀ e, (ui_call.run env st (ui_call.destroy w)).code? = some e →
                e ≠ ui_error_t.UI_OK → e ≠ ui_error_t.UI_OPERATION_FAIL →
                (ui_call.run env st (ui_call.destroy w)).state.widgets = st.widgets
                  ∧ (ui_call.run env st (ui_call.destroy w)).state.requests = st.requests))
      ∧ (∀ w c x y,
          ((ui_call.run env st (ui_call.add_child w c x y)).code? = some ui_error_t.UI_OK →
              (ui_call.run env st (ui_call.add_child w c x y)).state.widgets
                  = (st.write c (fun body => { body with parent := w })).widgets
                ∧ (ui_call.run env st (ui_call.add_child w c x y)).state.requests
                  = st.requests ++ [ui_request._ui_widget_add_child_func w c x y])
            ∧ (∀ e, (ui_call.run env st (ui_call.add_child w c x y)).code? = some e →
                e = ui_error_t.UI_NOT_RUNNING ∨ e = ui_error_t.UI_INVALID_PARAM
                  ∨ e = ui_error_t.UI_NOT_ENOUGH_MEMORY →
                (ui_call.run env st (ui_call.add_child w c x y)).state.widgets = st.widgets
                  ∧ (ui_call.run env st (ui_call.add_child w c x y)).state.requests
                    = st.requests)) := by
  refine ⟨?_, set_tick_callback_exact env st, set_interval_callback_exact env st,
    destroy_exact env st, add_child_exact env st⟩
  intro call hw
  cases call with
  | set_tick_callback w cb => cases hw
  | set_interval_callback w cb t => cases hw
  | destroy w => cases hw
  | add_child w c x y => cases hw
  | remove_all_children w => exact of_remove_all_children env st w
  | _ => exact of_queue_request env st _ _

/-! ## The work queue -/

theorem queue_run_append (s : ui_widget_body_queue_t × List Nat) (p : List queue_op)
    (op : queue_op) :
    queue_run s (p ++ [op]) = (queue_run s p).bind (fun s1 => queue_step s1 op) := by
  induction p generalizing s with
  | nil => simp [queue_run]
  | cons o p ih =>
    simp only [List.cons_append, queue_run]
    cases queue_step s o with
    | none => rfl
    | some s1 => simpa using ih s1

theorem enqueued_append (p q : List queue_op) : enqueued (p ++ q) = enqueued p ++ enqueued q := by
  induction p with
  | nil => rfl
  | cons o p ih => cases o <;> simp [enqueued, ih]

theorem dequeues_append (p q : List queue_op) : dequeues (p ++ q) = dequeues p + dequeues q := by
  simp [dequeues]

/-- The invariant of the queue after a sequence of calls that stays within
the array and never dequeues from an empty queue. -/
theorem queue_run_spec (g : ui_widget_body_queue_t) (ops : List queue_op)
    (hcap : (enqueued ops).length ≤ g.queue.length)
    (hne : ∀ n, ops[n]? = some queue_op.dequeue →
      dequeues (ops.take n) < (enqueued (ops.take n)).length) :
    ∃ g1 out, queue_run (ui_widget_queue_init g, []) ops = some (g1, out)
      ∧ g1.start = dequeues ops ∧ g1.end_ = (enqueued ops).length
      ∧ g1.start ≤ g1.end_
      ∧ g1.queue.length = g.queue.length
      ∧ (∀ i, i < g1.end_ → g1.queue[i]? = (enqueued ops)[i]?)
      ∧ out = (enqueued ops).take (dequeues ops) := by
  induction ops using List.reverseRecOn with
  | nil =>
    exact ⟨ui_widget_queue_init g, [], rfl, rfl, rfl, Nat.le_refl _, rfl,
      fun i hi => absurd hi (Nat.not_lt_zero i), rfl⟩
  | append_singleton p op ih =>
    have hcap1 : (enqueued p).length ≤ g.queue.length := by
      rw [enqueued_append, List.length_append] at hcap; omega
    have hne1 : ∀ n, p[n]? = some queue_op.dequeue →
        dequeues (p.take n) < (enqueued (p.take n)).length := by
      intro n hn
      have hlt : n < p.length := (List.getElem?_eq_some.mp hn).1
      have h := hne n (by rw [List.getElem?_append_left hlt]; exact hn)
      rwa [List.take_append_of_le_length (Nat.le_of_lt hlt)] at h
    obtain ⟨g1, out, hrun, hs, he, hle, hlen, hq, hout⟩ := ih hcap1 hne1
    rw [queue_run_append, hrun]
    cases op with
    | enqueue body =>
      have hroom : g1.end_ < g1.queue.length := by
        rw [enqueued_append, List.length_append] at hcap
        simp only [enqueued, List.length_cons, List.length_nil] at hcap
        omega
      refine ⟨{ g1 with queue := g1.queue.set g1.end_ body, end_ := g1.end_ + 1 }, out, ?_, ?_, ?_,
        ?_, ?_, ?_, ?_⟩
      · simp [queue_step, ui_widget_queue_enqueue, hroom]
      · simp [hs, dequeues_append, dequeues]
      · simp [he, enqueued_append, enqueued]
      · show g1.start ≤ g1.end_ + 1
        omega
      · simp [hlen]
      · intro i hi
        have hi' : i < g1.end_ + 1 := hi
        show (g1.queue.set g1.end_ body)[i]? = (enqueued (p ++ [queue_op.enqueue body]))[i]?
        rw [enqueued_append]
        by_cases hie : i = g1.end_
        · subst hie
          rw [List.getElem?_set_self hroom, List.getElem?_append_right (by omega)]
          simp [enqueued, he]
        · have hilt : i < g1.end_ := by omega
          rw [List.getElem?_set_ne (fun h => hie h.symm), hq i hilt,
            List.getElem?_append_left (by omega)]
      · rw [hout, enqueued_append, dequeues_append]
        have hd : dequeues [queue_op.enqueue body] = 0 := by simp [dequeues]
        rw [hd, Nat.add_zero, List.take_append_of_le_length (by omega)]
    | dequeue =>
      have hlast := hne p.length (by simp)
      rw [List.take_append_of_le_length (Nat.le_refl _), List.take_length] at hlast
      have hslt : g1.start < g1.end_ := by omega
      have hread : g1.queue[g1.start]? = (enqueued p)[g1.start]? := hq _ hslt
      obtain ⟨b, hb⟩ : ∃ b, (enqueued p)[g1.start]? = some b :=
        ⟨_, List.getElem?_eq_getElem (by omega)⟩
      refine ⟨{ g1 with start := g1.start + 1 }, out ++ [b], ?_, ?_, ?_, ?_, ?_, ?_, ?_⟩
      · simp [queue_step, ui_widget_queue_dequeue, hread, hb]
      · simp [hs, dequeues_append, dequeues]
      · simp [he, enqueued_append, enqueued]
      · show g1.start + 1 ≤ g1.end_
        omega
      · exact hlen
      · intro i hi
        rw [enqueued_append]
        simp only [enqueued, List.append_nil]
        exact hq i hi
      · rw [hout, enqueued_append, dequeues_append]
        simp only [enqueued, List.append_nil]
        have hd : dequeues [queue_op.dequeue] = 1 := by simp [dequeues]
        rw [hs] at hb
        rw [hd, List.take_succ, hb]
        rfl

/-- C26, as stated, fails: the queue does not wrap around, so a sequence that
never holds more bodies than the array has elements can still leave the
array. On an array of four elements, four times enqueue and dequeue, then one
more enqueue: no dequeue is issued on an empty queue and at most one body is
held at any time, yet the fifth enqueue stores to queue[4], outside the
array. -/
theorem C26_counterexample_no_wrap_around :
    queue_run (ui_widget_queue_init ⟨0, 0, [0, 0, 0, 0]⟩, [])
        [queue_op.enqueue 11, queue_op.dequeue, queue_op.enqueue 12, queue_op.dequeue,
          queue_op.enqueue 13, queue_op.dequeue, queue_op.enqueue 14, queue_op.dequeue,
          queue_op.enqueue 15] = none
      ∧ queue_run (ui_widget_queue_init ⟨0, 0, [0, 0, 0, 0]⟩, [])
        [queue_op.enqueue 11, queue_op.dequeue, queue_op.enqueue 12, queue_op.dequeue,
          queue_op.enqueue 13, queue_op.dequeue, queue_op.enqueue 14, queue_op.dequeue]
          = some (⟨4, 4, [11, 12, 13, 14]⟩, [11, 12, 13, 14])
      ∧ ui_widget_queue_enqueue ⟨4, 4, [11, 12, 13, 14]⟩ 15 = none
      ∧ (∀ n, n < 10 →
          (enqueued ([queue_op.enqueue 11, queue_op.dequeue, queue_op.enqueue 12,
            queue_op.dequeue, queue_op.enqueue 13, queue_op.dequeue, queue_op.enqueue 14,
            queue_op.dequeue, queue_op.enqueue 15].take n)).length
            ≤ dequeues ([queue_op.enqueue 11, queue_op.dequeue, queue_op.enqueue 12,
              queue_op.dequeue, queue_op.enqueue 13, queue_op.dequeue, queue_op.enqueue 14,
              queue_op.dequeue, queue_op.enqueue 15].take n) + 1)
      ∧ (∀ n, n < 9 →
          [queue_op.enqueue 11, queue_op.dequeue, queue_op.enqueue 12, queue_op.dequeue,
            queue_op.enqueue 13, queue_op.dequeue, queue_op.enqueue 14, queue_op.dequeue,
            queue_op.enqueue 15][n]? = some queue_op.dequeue →
          dequeues ([queue_op.enqueue 11, queue_op.dequeue, queue_op.enqueue 12,
            queue_op.dequeue, queue_op.enqueue 13, queue_op.dequeue, queue_op.enqueue 14,
            queue_op.dequeue, queue_op.enqueue 15].take n)
            < (enqueued ([queue_op.enqueue 11, queue_op.dequeue, queue_op.enqueue 12,
              queue_op.dequeue, queue_op.enqueue 13, queue_op.dequeue, queue_op.enqueue 14,
              queue_op.dequeue, queue_op.enqueue 15].take n)).length) := by
  decide

/-- C26, amended: after ui_widget_queue_init, for every sequence of enqueues
and dequeues with no more enqueues in all than the array has elements (the
indices only grow, no element is used twice) and no dequeue on an empty
queue, at every point of the sequence (after its first n calls) all calls
have succeeded, the k-th dequeue has returned the k-th enqueued body, start
<= end holds, and ui_widget_is_queue_empty is true exactly when the number
of dequeues equals the number of enqueues. -/
theorem C26_widget_queue_fifo (g : ui_widget_body_queue_t) (ops : List queue_op)
    (hcap : (enqueued ops).length ≤ g.queue.length)
    (hne : ∀ n, n < ops.length → ops[n]? = some queue_op.dequeue →
      dequeues (ops.take n) < (enqueued (ops.take n)).length)
    (n : Nat) :
    ∃ g1 out, queue_run (ui_widget_queue_init g, []) (ops.take n) = some (g1, out)
      ∧ out.length = dequeues (ops.take n)
      ∧ (∀ k, k < dequeues (ops.take n) → out[k]? = (enqueued ops)[k]?)
      ∧ g1.start ≤ g1.end_
      ∧ (ui_widget_is_queue_empty g1 = true
          ↔ dequeues (ops.take n) = (enqueued (ops.take n)).length) := by
  have hsplit : enqueued ops = enqueued (ops.take n) ++ enqueued (ops.drop n) := by
    rw [← enqueued_append, List.take_append_drop]
  have hcap1 : (enqueued (ops.take n)).length ≤ g.queue.length := by
    rw [hsplit, List.length_append] at hcap; omega
  have hne1 : ∀ m, (ops.take n)[m]? = some queue_op.dequeue →
      dequeues ((ops.take n).take m) < (enqueued ((ops.take n).take m)).length := by
    intro m hm
    have hlt : m < (ops.take n).length := (List.getElem?_eq_some.mp hm).1
    have hmn : m < n := by
      rw [List.length_take] at hlt; omega
    have hmo : m < ops.length := by
      rw [List.length_take] at hlt; omega
    rw [List.getElem?_take_of_lt hmn] at hm
    have h := hne m hmo hm
    rwa [List.take_take, Nat.min_eq_left (Nat.le_of_lt hmn)]
  obtain ⟨g1, out, hrun, hs, he, hle, _, _, hout⟩ := queue_run_spec g (ops.take n) hcap1 hne1
  have hde : dequeues (ops.take n) ≤ (enqueued (ops.take n)).length := by omega
  refine ⟨g1, out, hrun, ?_, ?_, hle, ?_⟩
  · rw [hout, List.length_take]; omega
  · intro k hk
    rw [hout, List.getElem?_take_of_lt hk, hsplit, List.getElem?_append_left (by omega)]
  · unfold ui_widget_is_queue_empty
    rw [hs, he]
    by_cases h : dequeues (ops.take n) = (enqueued (ops.take n)).length <;> simp [h]

/-- C26 on an array of four elements: the calls enqueue 11, enqueue 12,
dequeue, enqueue 13, dequeue, dequeue return 11, 12, 13 and leave the queue
empty with start = end = 3. -/
theorem C26_widget_queue_fifo_witness :
    queue_run (ui_widget_queue_init ⟨7, 9, [0, 0, 0, 0]⟩, [])
        [queue_op.enqueue 11, queue_op.enqueue 12, queue_op.dequeue, queue_op.enqueue 13,
          queue_op.dequeue, queue_op.dequeue]
        = some (⟨3, 3, [11, 12, 13, 0]⟩, [11, 12, 13])
      ∧ ∃ g1 out, queue_run (ui_widget_queue_init ⟨7, 9, [0, 0, 0, 0]⟩, [])
          ([queue_op.enqueue 11, queue_op.enqueue 12, queue_op.dequeue, queue_op.enqueue 13,
            queue_op.dequeue, queue_op.dequeue].take 6) = some (g1, out)
        ∧ out.length = dequeues ([queue_op.enqueue 11, queue_op.enqueue 12, queue_op.dequeue,
            queue_op.enqueue 13, queue_op.dequeue, queue_op.dequeue].take 6)
        ∧ (∀ k, k < dequeues ([queue_op.enqueue 11, queue_op.enqueue 12, queue_op.dequeue,
            queue_op.enqueue 13, queue_op.dequeue, queue_op.dequeue].take 6) →
            out[k]? = (enqueued [queue_op.enqueue 11, queue_op.enqueue 12, queue_op.dequeue,
              queue_op.enqueue 13, queue_op.dequeue, queue_op.dequeue])[k]?)
        ∧ g1.start ≤ g1.end_
        ∧ (ui_widget_is_queue_empty g1 = true
            ↔ dequeues ([queue_op.enqueue 11, queue_op.enqueue 12, queue_op.dequeue,
                queue_op.enqueue 13, queue_op.dequeue, queue_op.dequeue].take 6)
              = (enqueued ([queue_op.enqueue 11, queue_op.enqueue 12, queue_op.dequeue,
                queue_op.enqueue 13, queue_op.dequeue, queue_op.dequeue].take 6)).length) :=
  ⟨by decide,
    C26_widget_queue_fifo ⟨7, 9, [0, 0, 0, 0]⟩
      [queue_op.enqueue 11, queue_op.enqueue 12, queue_op.dequeue, queue_op.enqueue 13,
        queue_op.dequeue, queue_op.dequeue] (by decide) (by decide) 6⟩

/-! ## Destruction -/

/-- C21 fails on the code: on a widget 1 with one child 2 the loop of
_ui_widget_destroy_recur processes 1 (it enqueues 2, deinitialises and frees
1) and then, processing 2, applies vec_remove to the children of the parent
of 2, which is the body 1 it has just freed; the child is never deinitialised
or freed without that access. A widget without children is destroyed without
fault. -/
theorem C21_destroy_reads_freed_parent :
    (_ui_widget_destroy_recur 8 ⟨parent_with_child, [], ⟨0, 0, [0, 0, 0, 0]⟩, []⟩ 1).fault?
        = some (destroy_fault.use_after_free 1)
      ∧ (_ui_widget_destroy_recur 8 ⟨parent_with_child, [], ⟨0, 0, [0, 0, 0, 0]⟩, []⟩ 1).state.log
          = [destroy_event.ui_widget_deinit 1, destroy_event.UI_FREE 1]
      ∧ (_ui_widget_destroy_recur 8 ⟨parent_with_child, [], ⟨0, 0, [0, 0, 0, 0]⟩, []⟩ 1).state.freed
          = [1]
      ∧ (_ui_widget_destroy_recur 8 ⟨fun _ => zero_body, [], ⟨0, 0, [0, 0, 0, 0]⟩, []⟩ 1).finished
          = true
      ∧ (_ui_widget_destroy_recur 8 ⟨fun _ => zero_body, [], ⟨0, 0, [0, 0, 0, 0]⟩, []⟩ 1).state.log
          = [destroy_event.ui_widget_deinit 1, destroy_event.UI_FREE 1] := by
  decide

/-! ## Position propagation -/

/-- C27 fails on the code: on the widget 1 with the child 2, with a redraw
list that has room for two more regions, ui_widget_update_position_info(1)
returns UI_OK, yet the call on the child has returned UI_OPERATION_FAIL
before its stores, unnoticed: the global rectangle of 2 is still (0, 0, 0,
0), not (11, 22, 30, 40). With a redraw list that accepts every region the
same call leaves both widgets consistent. -/
theorem C27_child_failure_unnoticed :
    (ui_widget_update_position_info (fun l _ => decide (l.length < 2)) 4
        ⟨placed_parent_with_child, []⟩ 1).map Prod.fst = some ui_error_t.UI_OK
      ∧ (ui_widget_update_position_info (fun l _ => decide (l.length < 2)) 4
        ⟨placed_parent_with_child, []⟩ 1).map (fun r => (r.2.widgets 1).global_rect)
          = some ⟨10, 20, 100, 50⟩
      ∧ (ui_widget_update_position_info (fun l _ => decide (l.length < 2)) 4
        ⟨placed_parent_with_child, []⟩ 1).map (fun r => (r.2.widgets 2).global_rect)
          = some ⟨0, 0, 0, 0⟩
      ∧ (ui_widget_update_position_info (fun l _ => decide (l.length < 2)) 4
        ⟨placed_parent_with_child, []⟩ 1).map
          (fun r => decide (global_rect_consistent r.2.widgets 2)) = some false
      ∧ (ui_widget_update_position_info (fun l _ => decide (l.length < 2)) 3
        ⟨placed_parent_with_child, [⟨0, 0, 0, 0⟩, ⟨10, 20, 100, 50⟩]⟩ 2).map Prod.fst
          = some ui_error_t.UI_OPERATION_FAIL
      ∧ (ui_widget_update_position_info (fun _ _ => true) 4
        ⟨placed_parent_with_child, []⟩ 1).map
          (fun r => (r.1, (r.2.widgets 1).global_rect, (r.2.widgets 2).global_rect))
          = some (ui_error_t.UI_OK, ⟨10, 20, 100, 50⟩, ⟨11, 22, 30, 40⟩)
      ∧ (ui_widget_update_position_info (fun _ _ => true) 4
        ⟨placed_parent_with_child, []⟩ UI_NULL).map Prod.fst
          = some ui_error_t.UI_INVALID_PARAM := by
  decide

/-! ## Failure of ui_widget_add_child -/

/-- C28 fails on the code: when ui_request_callback fails, ui_widget_add_child
does not return with the child as it was. It has stored the widget as the
parent of the child before the request, and to undo that it reads info->child
from the info block it has just released with UI_FREE: the call faults there,
with the parent of the child set to the widget (1), not to what it was before
the call (UI_NULL). -/
theorem C28_add_child_failure_reads_freed_info :
    (ui_widget_add_child ⟨true, true, false⟩ ⟨fun _ => zero_body, []⟩ 1 2 10 20).fault?
        = some ui_fault.use_after_free
      ∧ (ui_widget_add_child ⟨true, true, false⟩ ⟨fun _ => zero_body, []⟩ 1 2 10 20).code?
          = none
      ∧ ((ui_widget_add_child ⟨true, true, false⟩ ⟨fun _ => zero_body, []⟩ 1 2 10
          20).state.widgets 2).parent = 1
      ∧ zero_body.parent = UI_NULL
      ∧ UI_NULL ≠ 1 := by
  decide

end ui_widget
